import Mathlib

/-!
# Ecolumiere BLE-Mesh lighting node: control and synchronisation core

Shallow embedding of the C sources under `sensor_server/ecolumiere`:

* `lightcode.c`      optical decoder (`light_code_pickup`, `light_code_check`)
* `pwmcontroller.c`  slot driver, fade and PWM output
* `ecolumiere.c`     rolling averages, control algorithm, mesh override
* `zerocross.c`      zero-cross interrupt and phase-cut delay
* `scheduler.c`      event queue and dispatcher

Machine integers are naturals reduced modulo `2^w` where a wrap can happen,
`float` quantities are rationals, module-level `static` variables are fields
of explicit state records, and values supplied by the hardware or by the
RTOS (clock, ADC, allocator, ROM CRC) are arguments.
-/

set_option autoImplicit false
set_option maxRecDepth 100000

namespace Ecolumiere

/-! ## Constants (`lightcode.h`, `pwmcontroller.h`, `zerocross.c`, `ecolumiere.c`) -/

def LIGHT_CODE_ONE : Nat := 0x55
def LIGHT_CODE_MASK : Nat := 0x7E
def LIGHT_CODE_ZERO : Nat := 0x00
def SENSE_QUEUE_SIZE : Nat := 120
def MEAN_SIZE : Nat := 4

def LIGHT_MAX_LEVEL : Nat := 32
def SLOT_COUNT : Nat := 10
def PWM_SEQUENCE_LEN : Nat := 32
def PWM_MAX_VALUE : Nat := 8191
def DEVICE_ID_SLOT : Nat := 0
def NATURAL_MEASURE_SLOT : Nat := 2
def ENV_MEASURE_SLOT : Nat := 6
def DEFAULT_EVENT : Nat := 0x00
def NATURAL_MEASURE_EVENT : Nat := 0x01
def ENV_MEASURE_EVENT : Nat := 0x02
def DEVICE_ID_EVENT : Nat := 0x04
def MEASURE_INVALID : Nat := 0xFFFF

def DEBOUNCE_TIME_US : Nat := 1000
def SEMI_PERIOD_US : Nat := 1000000 / (50 * 2)

/-! ## Optical decoder (`lightcode.c`) -/

/-- Locals of `light_code_check`: `count`, `bits`, `code` and `bit_value`. -/
structure CheckState where
  count : Nat
  bits : Nat
  code : Nat
  bit_value : Nat
  deriving DecidableEq, Repr

/-- Values of the locals before the scan loop of `light_code_check`. -/
def check_init : CheckState := { count := 0, bits := 0, code := 0, bit_value := 0 }

/-- Body of the scan loop of `light_code_check` at index `i`.  The sample is a
`uint8_t`, and so is `code`, whence the reductions modulo 256; `count` and
`bits` are `uint32_t` incremented at most 60 times. -/
def check_step (queue : Nat → Nat) (st : CheckState) (i : Nat) : CheckState :=
  let sample := queue i % 256
  let st1 : CheckState :=
    if sample = st.bit_value then { st with count := st.count + 1 }
    else { st with count := 0, bit_value := sample }
  if st1.count ≥ 5 then
    { count := 0
      bits := st1.bits + 1
      code := if st1.bits < 8 then (st1.code ||| (st1.bit_value <<< (7 - st1.bits))) % 256
              else st1.code
      bit_value := if st1.bit_value ≠ 0 then 0 else 1 }
  else st1

/-- The scan loop of `light_code_check`, `n` iterations left, next index `i`;
it stops early at the safety check `i >= SENSE_QUEUE_SIZE`. -/
def check_loop (queue : Nat → Nat) : Nat → Nat → CheckState → CheckState
  | 0, _, st => st
  | n + 1, i, st =>
    if i ≥ SENSE_QUEUE_SIZE then st
    else check_loop queue n (i + 1) (check_step queue st i)

/-- The function `light_code_check` on the sample buffer `queue`
(`queue_ptr[i]` is `queue i`): scan of the indices 20..79, then the validity
test on the number of bits and the mask. -/
def light_code_check (queue : Nat → Nat) : Nat :=
  let st := check_loop queue 60 20 check_init
  if st.bits < 6 ∨ st.bits > 7 then 0
  else st.code &&& LIGHT_CODE_MASK

/-- Number of bits emitted by the scan of `light_code_check` once the first
`n` samples from index 20 on have been read. -/
def scan_bits (queue : Nat → Nat) (n : Nat) : Nat :=
  (check_loop queue n 20 check_init).bits

/-- The buffer holds, from index 20, 7 runs of 5 identical samples whose
levels alternate, the first run being at level `l0`. -/
def alternating_runs (queue : Nat → Nat) (l0 : Nat) : Prop :=
  ∀ k, k < 7 → ∀ j, j < 5 → queue (20 + 5 * k + j) = (l0 + k) % 2

instance (queue : Nat → Nat) (l0 : Nat) : Decidable (alternating_runs queue l0) := by
  unfold alternating_runs; infer_instance

/-- Run-length scan as the specification words it: the samples are read in
order against a reference level; a sample equal to the reference lengthens
the run, any other sample restarts it and becomes the reference; each time
the run reaches 5 the reference level is emitted as a bit, the reference is
flipped and the run restarts.  The result is the list of emitted bits. -/
def spec_scan : List Nat → Nat → Nat → List Nat
  | [], _, _ => []
  | s :: rest, ref, run =>
    let ref1 := if s = ref then ref else s
    let run1 := if s = ref then run + 1 else 0
    if run1 = 5 then ref1 :: spec_scan rest (if ref1 = 0 then 1 else 0) 0
    else spec_scan rest ref1 run1

/-- MSB-first accumulation of emitted bits into an 8-bit code: the bit of rank
`k` is or-ed in at position `7 - k`, ranks from 8 on are not stored. -/
def pack_msb_from : Nat → Nat → List Nat → Nat
  | _, acc, [] => acc
  | k, acc, b :: bs =>
    pack_msb_from (k + 1) (if k < 8 then (acc ||| (b <<< (7 - k))) % 256 else acc) bs

/-- MSB-first code of a list of emitted bits. -/
def pack_msb (bs : List Nat) : Nat := pack_msb_from 0 0 bs

/-- Samples scanned by the decoder: indices 20..79 of the buffer, as bytes. -/
def scanned_samples (queue : Nat → Nat) : List Nat :=
  (List.range' 20 60).map (fun i => queue i % 256)

/-- Decoder result as the specification words it. -/
def spec_light_code (queue : Nat → Nat) : Nat :=
  let bs := spec_scan (scanned_samples queue) 0 0
  if bs.length < 6 ∨ bs.length > 7 then 0 else pack_msb bs &&& 0x7E

/-- A buffer with 7 alternating runs of 5 from index 20 whose first run is at
level 1, followed by samples that alternate at every index. -/
def runs_from_one : Nat → Nat := fun i =>
  if 20 ≤ i ∧ i < 55 then (1 + (i - 20) / 5) % 2 else (i + 1) % 2

/-- A buffer with 7 alternating runs of 5 from index 20 whose first run is at
level 0, followed by samples that alternate at every index. -/
def runs_from_zero : Nat → Nat := fun i =>
  if 20 ≤ i ∧ i < 55 then ((i - 20) / 5) % 2 else (i + 1) % 2

/-- File-level statics of `lightcode.c` used by the filter and the decoder:
the sample buffer behind `queue_ptr`, the write index and the sliding window
`mean_buffer` (4 bytes, kept across calls). -/
structure LightCodeState where
  queue : Nat → Nat
  queue_ptr_null : Bool
  queue_index : Nat
  mean_buffer : List Nat
  mean_buffer_initialized : Bool

/-- One iteration of the outer loop of `light_code_pickup` on the sample `x`:
the inner loop shifts `mean_buffer` left while summing `mean_buffer[1..3]`
into the `uint8_t` accumulator `mean`, the sample is stored at
`mean_buffer[MEAN_SIZE - 1]`, `mean_buffer[0]` is added, and the filtered value
is `(uint8_t)(mean / 4 + 0.5)`, which is `(mean + 2) / 4` in integers.
Returns the new window and the filtered value. -/
def pickup_step (mb : List Nat) (x : Nat) : List Nat × Nat :=
  let m1 := mb.getD 1 0
  let m2 := mb.getD 2 0
  let m3 := mb.getD 3 0
  let mean := (((0 + m1) % 256 + m2) % 256 + m3) % 256
  let mb1 := [m1, m2, m3, x % 256]
  let mean1 := (mean + mb1.getD 0 0) % 256
  (mb1, ((mean1 + 2) / 4) % 256)

/-- Outer loop of `light_code_pickup` over the indices `i, i+1, ...` (`n`
iterations left): returns the final window and the filtered values in order. -/
def pickup_loop (queue : Nat → Nat) : Nat → Nat → List Nat → List Nat × List Nat
  | 0, _, mb => (mb, [])
  | n + 1, i, mb =>
    let r := pickup_step mb (queue i)
    let rest := pickup_loop queue n (i + 1) r.1
    (rest.1, r.2 :: rest.2)

/-- The function `light_code_pickup`: nothing when `queue_ptr` is NULL or no
sample was stored, else the whole buffer is replaced by its filtered copy. -/
def light_code_pickup (lc : LightCodeState) : LightCodeState :=
  if lc.queue_ptr_null ∨ lc.queue_index = 0 then lc
  else
    let r := pickup_loop lc.queue SENSE_QUEUE_SIZE 0 lc.mean_buffer
    { lc with
      mean_buffer := r.1
      queue := fun i => if i < SENSE_QUEUE_SIZE then r.2.getD i 0 else lc.queue i }

/-! ## PWM controller (`pwmcontroller.c`) -/

/-- Target of the pointer `pwm_state.current_sequence`. -/
inductive SeqPtr where
  | null
  | seq0
  | seq1
  deriving DecidableEq, Repr

/-- The struct `pwm_state` together with the other statics of
`pwmcontroller.c` (`pwm_initialized`, and the function-level counters of
`slot_timer_callback`), and the trace of the duty values handed to
`ledc_set_duty`, oldest first. -/
structure PwmState where
  broadcast : Bool
  device_code : Nat
  current_slot : Nat
  light_level : Nat
  target_duty : Nat
  sequence_0 : List Nat
  sequence_1 : List Nat
  active_sequence : Nat
  current_sequence : SeqPtr
  current_pwm_hw : Nat
  fade_counter : Nat
  env_measure_counter : Nat
  sequence_update_counter : Nat
  log_counter : Nat
  pwm_initialized : Bool
  skip_counter : Nat
  device_id_counter : Nat
  natural_measure_counter : Nat
  ledc_duty_writes : List Nat
  deriving DecidableEq, Repr

/-- Statics of `pwmcontroller.c` at boot (zero-initialised storage). -/
def pwm_state_boot : PwmState :=
  { broadcast := false, device_code := 0, current_slot := 0, light_level := 0,
    target_duty := 0, sequence_0 := List.replicate PWM_SEQUENCE_LEN 0,
    sequence_1 := List.replicate PWM_SEQUENCE_LEN 0, active_sequence := 0,
    current_sequence := SeqPtr.null, current_pwm_hw := 0, fade_counter := 0,
    env_measure_counter := 0, sequence_update_counter := 0, log_counter := 0,
    pwm_initialized := false, skip_counter := 0, device_id_counter := 0,
    natural_measure_counter := 0, ledc_duty_writes := [] }

/-- The array `pwm_state.current_sequence` points to. -/
def read_sequence (s : PwmState) : List Nat :=
  match s.current_sequence with
  | SeqPtr.null => []
  | SeqPtr.seq0 => s.sequence_0
  | SeqPtr.seq1 => s.sequence_1

/-- Store of a whole pattern through `pwm_state.current_sequence`. -/
def write_sequence (s : PwmState) (pattern : List Nat) : PwmState :=
  match s.current_sequence with
  | SeqPtr.null => s
  | SeqPtr.seq0 => { s with sequence_0 := pattern }
  | SeqPtr.seq1 => { s with sequence_1 := pattern }

/-- Entry `i` written by the loop of `pwm_sequence_update`. -/
def sequence_entry (event light_level i : Nat) : Nat :=
  if event = NATURAL_MEASURE_EVENT ∨ event = ENV_MEASURE_EVENT then 0x1FFF
  else if event = DEFAULT_EVENT then
    if i < light_level then 0x0000 else 0x1FFF
  else 0x1FFF

/-- The function `pwm_sequence_update`. -/
def pwm_sequence_update (event : Nat) (s : PwmState) : PwmState :=
  write_sequence s ((List.range PWM_SEQUENCE_LEN).map (sequence_entry event s.light_level))

/-- Number of ON entries counted by the loop of `pwm_apply_current_sequence`. -/
def sum_on (s : PwmState) : Nat :=
  ((List.range PWM_SEQUENCE_LEN).filter
    (fun i => decide ((read_sequence s).getD i 0x1FFF = 0x0000))).length

/-- The function `pwm_apply_current_sequence`: the duty is written to the LEDC
hardware only when it differs from `current_pwm_hw` (a `uint16_t`). -/
def pwm_apply_current_sequence (s : PwmState) : PwmState :=
  if s.pwm_initialized = false then s
  else
    let duty := ((sum_on s * PWM_MAX_VALUE) % 4294967296) / PWM_SEQUENCE_LEN
    if duty ≠ s.current_pwm_hw then
      { s with ledc_duty_writes := s.ledc_duty_writes ++ [duty], current_pwm_hw := duty % 65536 }
    else s

/-- The function `apply_fade` (`light_level` is a `uint16_t`; the increment is
guarded by `< target_duty` and the decrement by `> target_duty`). -/
def apply_fade (s : PwmState) : PwmState :=
  let s1 : PwmState :=
    if s.light_level < s.target_duty then { s with light_level := (s.light_level + 1) % 65536 }
    else s
  if s1.light_level > s1.target_duty then
    { s1 with light_level := (s1.light_level + 65535) % 65536 }
  else s1

/-- The function `pwm_fade`. -/
def pwm_fade (s : PwmState) : PwmState := apply_fade s

/-- The function `pwm_set_duty_cycle` (`uint32_t` argument, `uint16_t` target). -/
def pwm_set_duty_cycle (duty_cycle : Nat) (s : PwmState) : PwmState :=
  if s.pwm_initialized = false then s
  else
    let d := duty_cycle % 4294967296
    let d1 := if d > LIGHT_MAX_LEVEL then LIGHT_MAX_LEVEL else d
    { s with target_duty := d1 % 65536 }

/-- The function `pwmcontroller_get_current_level`. -/
def pwmcontroller_get_current_level (s : PwmState) : Nat := s.light_level

/-- The function `pwm_get_current_slot`. -/
def pwm_get_current_slot (s : PwmState) : Nat := s.current_slot

/-- The function `pwm_advance_slot`. -/
def pwm_advance_slot (s : PwmState) : PwmState :=
  { s with current_slot := ((s.current_slot + 1) % SLOT_COUNT) % 256 }

/-- The function `pwm_apply_phase_controlled_duty`. -/
def pwm_apply_phase_controlled_duty (s : PwmState) : PwmState :=
  if s.pwm_initialized = false then s else pwm_apply_current_sequence s

/-- The function `convert_intensity_to_pwm` (`uint16_t` in, `uint8_t` out). -/
def convert_intensity_to_pwm (intensity : Nat) : Nat :=
  if intensity % 65536 = 0 then 0
  else
    let pwm := (((intensity % 65536) * 32) / 100) % 256
    if pwm > 0 then pwm else 1

/-- Outcomes of the driver and RTOS calls made by `pwmcontroller_init`. -/
structure InitEnv where
  ledc_timer_ok : Bool
  ledc_channel_ok : Bool
  timer_created : Bool
  timer_started : Bool

/-- The function `pwmcontroller_init`: returns at once when already
initialised or when a LEDC call fails; otherwise resets `pwm_state`
(`memset` then the explicit assignments) and sets `pwm_initialized` only when
the slot timer could be created and started. -/
def pwmcontroller_init (env : InitEnv) (s : PwmState) : PwmState :=
  if s.pwm_initialized then s
  else if env.ledc_timer_ok = false then s
  else if env.ledc_channel_ok = false then s
  else
    let s1 : PwmState :=
      { s with
        broadcast := false, device_code := 0x0055, current_slot := 0, light_level := 0,
        target_duty := 0, current_pwm_hw := 0xFFFF, fade_counter := 0,
        env_measure_counter := 0, sequence_update_counter := 0, log_counter := 0,
        sequence_0 := List.replicate PWM_SEQUENCE_LEN 0x1FFF,
        sequence_1 := List.replicate PWM_SEQUENCE_LEN 0x1FFF,
        current_sequence := SeqPtr.seq0, active_sequence := 0 }
    if env.timer_created = false then s1
    else if env.timer_started = false then s1
    else { s1 with pwm_initialized := true }

/-! ## Control algorithm (`ecolumiere.c`) -/

def NATURAL_LUX_AVG_ORDER : Nat := 50
def ENV_LUX_AVG_ORDER : Nat := 50
def SLAVE_LIGHT_MIN_LEVEL : Nat := 3
def MESH_OVERRIDE_DURATION_MS : Nat := 30 * 1000
def ALGO_AVG : Nat := 10
def ALGO_AVG_LIVE : Nat := 10
def ALGO_AVG_LAST : Nat := 20
def CONFIG_CRC_INIT_VALUE : Nat := 0xFFFF
def CODE_WINDOW_PRESCALER : Nat := 20
def CODE_WINDOW_SIZE : Nat := 25
def LUX_SOURCE_NATURAL : Nat := 1
def LUX_SOURCE_ENVIRONMENT : Nat := 2
def LUX_SOURCE_DEVICE_ID : Nat := 3
def TEST_TARGET_LUX_TO_ENTER : Nat := 0xE1F1AA10
def TEST_ALGO_AVG : Nat := 10
def TEST_TARGET_LUX : Nat := 400
def TEST_TARGET_EFFICIENCY : ℚ := 18.75
def TEST_TARGET_DISTANCE : ℚ := 2.5
def TEST_TARGET_IN_PL : Nat := 1
def TEST_TARGET_DIMM_STEP : ℚ := 0.3
def TEST_TARGET_PERC_MIN : ℚ := 0.01
def TEST_TARGET_TRANSPARENCY : ℚ := 1
def TEST_TARGET_EMAX : ℚ := 2000

/-- Conversion of an integer value to `uint32_t`. -/
def to_u32 (x : Int) : Nat := (x % 4294967296).toNat

/-- Conversion of an unsigned 32-bit value to `int32_t`. -/
def to_i32 (n : Nat) : Int :=
  if n % 4294967296 < 2147483648 then (n % 4294967296 : Nat)
  else ((n % 4294967296 : Nat) : Int) - 4294967296

/-- Conversion of a `float` to an unsigned integer of `w` bits: truncation
towards zero for the values the C standard defines (a negative value or one
out of range is undefined in C; the model takes 0 below zero and reduces
modulo `2^w`). -/
def float_to_uint (w : Nat) (x : ℚ) : Nat := (Int.toNat ⌊x⌋) % 2 ^ w

/-- The struct `measure_avg_t`: `uint32_t sum`, `uint8_t size`,
`uint8_t count`, `int32_t measure`. -/
structure MeasureAvg where
  sum : Nat
  size : Nat
  count : Nat
  measure : Int
  deriving DecidableEq, Repr

/-- The struct `algo_avg_t`. -/
structure AlgoAvg where
  natural_sum : Nat
  env_sum : Nat
  count : Nat
  size : Nat
  enatural : ℚ
  eenv : ℚ
  deriving DecidableEq, Repr

/-- The struct `algo_data_t`. -/
structure AlgoData where
  target_lux : Nat
  perc_min : ℚ
  distance : ℚ
  in_pl : Nat
  power_efficiency : ℚ
  transparency : ℚ
  dimm_step : ℚ
  variation : ℚ
  elamp : ℚ
  emax : ℚ
  enew : ℚ
  pnew : ℚ
  emin : ℚ
  enatural : ℚ
  eenv : ℚ
  deriving DecidableEq, Repr

/-- The struct `algo_config_data_t` (`ecolumiere.h`). -/
structure AlgoConfigData where
  target_lux : Nat
  efficiency : ℚ
  distance : ℚ
  in_pl : Nat
  dimm_step : ℚ
  perc_min : ℚ
  transparency : ℚ
  current_pwm_level : Nat
  crc : Nat
  deriving DecidableEq, Repr

/-- The struct `ecl_live_t` (`ecolumiere.h`). -/
structure EclLive where
  natural : ℚ
  env : ℚ
  lamp_lux : ℚ
  duty_cycle : Nat
  deriving DecidableEq, Repr

/-- The struct `algo_sched_event_t`: `value` is the 32-bit union (`measure`,
whose low byte is `code`), `source` a `uint8_t`. -/
structure AlgoSchedEvent where
  value : Nat
  source : Nat
  deriving DecidableEq, Repr

/-- Statics of `ecolumiere.c`, with the function-level statics of
`ecolumiere_update_lux` (`code_prescaler`, `counter`) and of
`ecolumiere_algo_process` (`ecl_live`). -/
structure EcoState where
  mesh_override_active : Bool
  mesh_override_timeout : Nat
  mesh_override_level : Nat
  natural_avg : MeasureAvg
  env_avg : MeasureAvg
  algo_avg_live : AlgoAvg
  algo_avg : AlgoAvg
  algo_data : AlgoData
  algo_config_data : AlgoConfigData
  code_window : List Nat
  test_on : Bool
  ecl_live : EclLive
  code_prescaler : Nat
  counter : Nat
  deriving DecidableEq, Repr

/-- The ROM routine `esp_rom_crc16_le` is not part of the repository: it is an
argument of the model, applied to the initial value and to the configuration
record with its own `crc` field blanked (the checksum covers
`sizeof(algo_config_data_t) - sizeof(uint16_t)` bytes). -/
def config_crc (esp_rom_crc16_le : Nat → AlgoConfigData → Nat) (cfg : AlgoConfigData) : Nat :=
  esp_rom_crc16_le CONFIG_CRC_INIT_VALUE { cfg with crc := 0 } % 65536

/-- The function `ecolumiere_save_algo_config`: the checksum is refreshed
before the record is handed to the storage module (whose flash image is not
part of this state). -/
def ecolumiere_save_algo_config (esp_rom_crc16_le : Nat → AlgoConfigData → Nat)
    (e : EcoState) : EcoState :=
  { e with algo_config_data :=
      { e.algo_config_data with crc := config_crc esp_rom_crc16_le e.algo_config_data } }

/-- The function `ecolumiere_has_valid_config`. -/
def ecolumiere_has_valid_config (esp_rom_crc16_le : Nat → AlgoConfigData → Nat)
    (e : EcoState) : Bool :=
  decide (config_crc esp_rom_crc16_le e.algo_config_data = e.algo_config_data.crc)

/-- The function `ecolumiere_update_algo_data`. -/
def ecolumiere_update_algo_data (esp_rom_crc16_le : Nat → AlgoConfigData → Nat)
    (e : EcoState) : EcoState :=
  let c := e.algo_config_data
  let d0 := e.algo_data
  let d1 : AlgoData :=
    if ecolumiere_has_valid_config esp_rom_crc16_le e then
      { d0 with
        target_lux := c.target_lux, power_efficiency := c.efficiency, distance := c.distance,
        in_pl := c.in_pl, transparency := c.transparency,
        emax := ((LIGHT_MAX_LEVEL : ℚ) * c.efficiency * c.transparency) /
          (c.distance * c.distance),
        dimm_step := c.dimm_step, perc_min := c.perc_min }
    else
      { d0 with
        target_lux := 0, power_efficiency := 0, distance := 0, in_pl := 0, transparency := 0,
        emax := 0, dimm_step := 0, perc_min := 0 }
  let d2 : AlgoData :=
    if e.test_on then
      { d1 with
        target_lux := TEST_TARGET_LUX, power_efficiency := TEST_TARGET_EFFICIENCY,
        distance := TEST_TARGET_DISTANCE, in_pl := TEST_TARGET_IN_PL,
        transparency := TEST_TARGET_TRANSPARENCY, emax := TEST_TARGET_EMAX,
        dimm_step := TEST_TARGET_DIMM_STEP, perc_min := TEST_TARGET_PERC_MIN }
    else d1
  let d3 : AlgoData := if d2.in_pl ≠ 2 then { d2 with in_pl := 1 } else d2
  { e with algo_data := d3 }

/-- The function `ecolumiuere_avg_calulator` on one window, given the current
`algo_data`: integer division of the sums by `count`, then the normalisation.
Rationals stand for the floats: a quotient whose denominator is zero, which
is infinite or NaN in C, is 0 here, so this is a model of the code only for a
non-zero `transparency` and a non-zero `distance`. -/
def ecolumiuere_avg_calulator (d : AlgoData) (a : AlgoAvg) : AlgoAvg :=
  let enatural : ℚ := ((a.natural_sum / a.count : Nat) : ℚ) / d.transparency
  let eenv : ℚ :=
    if d.in_pl = 2 then
      ((a.env_sum / a.count : Nat) : ℚ) / ((d.distance * d.distance) * d.transparency)
    else
      ((a.env_sum / a.count : Nat) : ℚ) * ((d.distance * d.distance) / d.transparency)
  { a with enatural := enatural, eenv := eenv, count := 0, natural_sum := 0, env_sum := 0 }

/-- The function `ecolumiere_save_current_pwm` (`uint16_t` argument). -/
def ecolumiere_save_current_pwm (esp_rom_crc16_le : Nat → AlgoConfigData → Nat)
    (pwm_level : Nat) (e : EcoState) : EcoState :=
  if pwm_level % 65536 ≠ e.algo_config_data.current_pwm_level then
    ecolumiere_save_algo_config esp_rom_crc16_le
      { e with algo_config_data :=
          { e.algo_config_data with current_pwm_level := pwm_level % 65536 } }
  else e

/-- State of the node: the statics of `pwmcontroller.c`, `ecolumiere.c` and
`lightcode.c`, the two fields of `slave_node.lampada` written by the mesh
command path, and the statics of `zerocross.c` (`last_cross_time` and the
one-shot `phase_timer`, `some d` when armed with a delay of `d` microseconds). -/
structure Sys where
  pwm : PwmState
  eco : EcoState
  lc : LightCodeState
  lampada_stato : Bool
  lampada_intensita : Nat
  last_cross_time : Nat
  phase_timer : Option Nat

/-- Step 1 of `ecolumiere_algo_process`, the override check at clock value
`now_us` (the result of `esp_timer_get_time`, in microseconds): returns the
state and whether the cycle goes on.  `current_time` is a `uint32_t`. -/
def algo_override_check (now_us : Nat) (e : EcoState) : EcoState × Bool :=
  if e.mesh_override_active then
    let current_time := (now_us / 1000) % 4294967296
    if current_time > e.mesh_override_timeout then
      ({ e with mesh_override_active := false }, true)
    else (e, false)
  else (e, true)

/-- Steps 2 to 4 of `ecolumiere_algo_process`: refresh of `algo_data`, the
latest averages are added to both windows, and the live window is flushed
when its count reaches its size. -/
def algo_accumulate (esp_rom_crc16_le : Nat → AlgoConfigData → Nat) (e0 : EcoState) :
    EcoState :=
  let e := ecolumiere_update_algo_data esp_rom_crc16_le e0
  let slow : AlgoAvg :=
    { e.algo_avg with
      natural_sum := to_u32 (e.algo_avg.natural_sum + e.natural_avg.measure)
      env_sum := to_u32 (e.algo_avg.env_sum + e.env_avg.measure) }
  let live : AlgoAvg :=
    { e.algo_avg_live with
      natural_sum := to_u32 (e.algo_avg_live.natural_sum + e.natural_avg.measure)
      env_sum := to_u32 (e.algo_avg_live.env_sum + e.env_avg.measure) }
  let live1 : AlgoAvg := { live with count := (live.count + 1) % 256 }
  if live1.count = live1.size then
    let live2 := ecolumiuere_avg_calulator e.algo_data live1
    let d1 : AlgoData := { e.algo_data with enatural := live2.enatural, eenv := live2.eenv }
    let d2 : AlgoData := if d1.eenv < d1.enatural then { d1 with eenv := d1.enatural } else d1
    { e with
      algo_avg := slow, algo_avg_live := live2, algo_data := d2,
      ecl_live := { e.ecl_live with natural := live2.enatural, env := live2.eenv } }
  else
    { e with algo_avg := slow, algo_avg_live := live1 }

/-- Steps 6 and 7 of `ecolumiere_algo_process`: the slow window is flushed
(with `count` forced to `ALGO_AVG_LAST`) and the lamp model yields `pnew`.
Rationals stand for the floats: a quotient whose denominator is zero, which
is infinite or NaN in C, is 0 here, so this is a model of the code only for a
non-zero `distance`, `power_efficiency` and `transparency`, and a non-zero
`target_lux` unless `enatural` is 0. -/
def algo_compute (e : EcoState) : EcoState :=
  let a := ecolumiuere_avg_calulator e.algo_data { e.algo_avg with count := ALGO_AVG_LAST }
  let d1 : AlgoData := { e.algo_data with enatural := a.enatural, eenv := a.eenv }
  let d2 : AlgoData := if d1.eenv < d1.enatural then { d1 with eenv := d1.enatural } else d1
  let d3 : AlgoData := { d2 with emin := d2.perc_min * d2.emax }
  let d4 : AlgoData :=
    { d3 with elamp := (d3.pnew * d3.power_efficiency * d3.transparency) /
        (d3.distance * d3.distance) }
  let d5 : AlgoData :=
    if d4.enatural ≠ 0 then
      { d4 with variation := ((d4.target_lux : ℚ) - (d4.elamp + d4.eenv)) *
          ((d4.enatural / (d4.target_lux : ℚ)) * d4.dimm_step) }
    else
      { d4 with variation := ((d4.target_lux : ℚ) - (d4.elamp + d4.eenv)) * d4.dimm_step }
  let d6 : AlgoData := { d5 with enew := d5.elamp + d5.variation }
  let d7 : AlgoData := if d6.enew < d6.emin then { d6 with enew := d6.emin } else d6
  let d8 : AlgoData :=
    { d7 with pnew := (d7.enew * d7.distance * d7.distance) /
        (d7.power_efficiency * d7.transparency) }
  let d9 : AlgoData := if d8.pnew > (LIGHT_MAX_LEVEL : ℚ) then
      { d8 with pnew := (LIGHT_MAX_LEVEL : ℚ) } else d8
  { e with algo_avg := a, algo_data := d9 }

/-- Steps 9 and 10 of `ecolumiere_algo_process`. -/
def algo_finish (e : EcoState) : EcoState :=
  let d : AlgoData :=
    { e.algo_data with enatural := e.algo_avg_live.enatural, eenv := e.algo_avg_live.eenv }
  { e with
    algo_data := d
    ecl_live := { natural := d.enatural, env := d.eenv, lamp_lux := d.enew,
                  duty_cycle := float_to_uint 32 d.pnew % 256 }
    algo_avg := { e.algo_avg with count := 0, natural_sum := 0, env_sum := 0 } }

/-- The function `ecolumiere_algo_process` at clock value `now_us`. -/
def ecolumiere_algo_process (esp_rom_crc16_le : Nat → AlgoConfigData → Nat) (now_us : Nat)
    (s : Sys) : Sys :=
  let g := algo_override_check now_us s.eco
  if g.2 = false then s
  else
    let e1 := algo_accumulate esp_rom_crc16_le g.1
    let e2 : EcoState :=
      { e1 with algo_avg := { e1.algo_avg with count := (e1.algo_avg.count + 1) % 256 } }
    if e2.algo_avg.count < e2.algo_avg.size then { s with eco := e2 }
    else
      let e3 := algo_compute e2
      let pwm1 := pwm_set_duty_cycle (float_to_uint 32 e3.algo_data.pnew) s.pwm
      let e4 := ecolumiere_save_current_pwm esp_rom_crc16_le
        (float_to_uint 16 e3.algo_data.pnew) e3
      { s with pwm := pwm1, eco := algo_finish e4 }

/-- The code-window part of `ecolumiere_update_lux` (device-ID source). -/
def update_code_window (code : Nat) (e : EcoState) : EcoState :=
  let p := (e.code_prescaler + 255) % 256
  if p = 0 then
    { e with
      code_window := (List.range CODE_WINDOW_SIZE).map
        (fun i => if i + 1 < CODE_WINDOW_SIZE then e.code_window.getD (i + 1) 0 else code % 256)
      code_prescaler := CODE_WINDOW_PRESCALER
      counter := (e.counter + 1) % 4294967296 }
  else { e with code_prescaler := p }

/-- The rolling-average part of `ecolumiere_update_lux` on one accumulator. -/
def measure_avg_update (m : MeasureAvg) (measure : Nat) : MeasureAvg :=
  let sum1 := (m.sum + measure % 4294967296) % 4294967296
  let count1 := (m.count + 1) % 256
  if count1 = m.size then
    { m with measure := to_i32 (sum1 / m.size), sum := 0, count := 0 }
  else { m with sum := sum1, count := count1 }

/-- The function `ecolumiere_update_lux` on the event `ev`, at clock value
`now_us`. -/
def ecolumiere_update_lux (esp_rom_crc16_le : Nat → AlgoConfigData → Nat) (now_us : Nat)
    (ev : AlgoSchedEvent) (s : Sys) : Sys :=
  let source := ev.source % 256
  let e1 : EcoState :=
    if source = LUX_SOURCE_DEVICE_ID then update_code_window ev.value s.eco else s.eco
  if source = LUX_SOURCE_NATURAL then
    { s with eco := { e1 with natural_avg := measure_avg_update e1.natural_avg ev.value } }
  else if source = LUX_SOURCE_ENVIRONMENT then
    let m := measure_avg_update e1.env_avg ev.value
    let s1 : Sys := { s with eco := { e1 with env_avg := m } }
    if m.count = 0 then ecolumiere_algo_process esp_rom_crc16_le now_us s1 else s1
  else { s with eco := e1 }

/-- The function `pwmcontroller_set_level` (`uint8_t` argument): the target is
set and the level is saved in the configuration. -/
def pwmcontroller_set_level (esp_rom_crc16_le : Nat → AlgoConfigData → Nat) (level : Nat)
    (s : Sys) : Sys :=
  { s with
    pwm := pwm_set_duty_cycle (level % 256) s.pwm
    eco := ecolumiere_save_current_pwm esp_rom_crc16_le (level % 256) s.eco }

/-- The function `slave_node_update_lampada_data` (`slave_role.c`), for the
fields `stato` and `intensita_luminosa` of the new record. -/
def slave_node_update_lampada_data (esp_rom_crc16_le : Nat → AlgoConfigData → Nat)
    (stato : Bool) (intensita_luminosa : Nat) (s : Sys) : Sys :=
  let new_pwm := convert_intensity_to_pwm intensita_luminosa
  pwmcontroller_set_level esp_rom_crc16_le new_pwm
    { s with lampada_stato := stato, lampada_intensita := intensita_luminosa % 65536 }

/-- The function `ecolumiere_handle_mesh_command` (`uint8_t level`) at clock
value `now_us`. -/
def ecolumiere_handle_mesh_command (esp_rom_crc16_le : Nat → AlgoConfigData → Nat)
    (now_us : Nat) (level : Nat) (is_override : Bool) (s : Sys) : Sys :=
  let lvl := level % 256
  if is_override then
    let s1 : Sys :=
      { s with eco :=
          { s.eco with
            mesh_override_active := true
            mesh_override_level := lvl
            mesh_override_timeout := (now_us / 1000 + MESH_OVERRIDE_DURATION_MS) % 4294967296 } }
    if lvl ≠ pwmcontroller_get_current_level s1.pwm then
      let s2 := slave_node_update_lampada_data esp_rom_crc16_le (decide (lvl > 0))
        ((lvl * 100) / 32) s1
      pwmcontroller_set_level esp_rom_crc16_le lvl s2
    else s1
  else
    let new_target_lux := lvl * 25
    if new_target_lux ≠ s.eco.algo_data.target_lux then
      let e1 : EcoState :=
        ecolumiere_save_algo_config esp_rom_crc16_le
          { s.eco with
            algo_data := { s.eco.algo_data with target_lux := new_target_lux }
            algo_config_data := { s.eco.algo_config_data with target_lux := new_target_lux } }
      let s1 : Sys := { s with eco := e1 }
      if s1.eco.mesh_override_active = false then
        ecolumiere_algo_process esp_rom_crc16_le now_us s1
      else s1
    else s

/-! ## Slot driver (`pwmcontroller.c`) -/

/-- What the environment supplies during one slot-timer callback: whether the
timer handle is non-NULL, the two values `luxmeter_pickup` would return, and
the clock read by the control cycle. -/
structure TickEnv where
  timer_valid : Bool
  natural_lux : Nat
  env_lux : Nat
  now_us : Nat

/-- The function `handle_device_id_slot`. -/
def handle_device_id_slot (esp_rom_crc16_le : Nat → AlgoConfigData → Nat) (env : TickEnv)
    (s : Sys) : Sys :=
  let lc1 := light_code_pickup s.lc
  let received_code := light_code_check lc1.queue
  ecolumiere_update_lux esp_rom_crc16_le env.now_us
    { source := LUX_SOURCE_DEVICE_ID, value := received_code } { s with lc := lc1 }

/-- The function `handle_natural_light_slot`. -/
def handle_natural_light_slot (esp_rom_crc16_le : Nat → AlgoConfigData → Nat) (env : TickEnv)
    (s : Sys) : Sys :=
  let natural_lux := env.natural_lux % 4294967296
  if natural_lux ≠ MEASURE_INVALID then
    ecolumiere_update_lux esp_rom_crc16_le env.now_us
      { source := LUX_SOURCE_NATURAL, value := natural_lux } s
  else s

/-- The function `handle_env_light_slot`. -/
def handle_env_light_slot (esp_rom_crc16_le : Nat → AlgoConfigData → Nat) (env : TickEnv)
    (s : Sys) : Sys :=
  let env_lux := env.env_lux % 4294967296
  if env_lux ≠ MEASURE_INVALID then
    ecolumiere_algo_process esp_rom_crc16_le env.now_us
      (ecolumiere_update_lux esp_rom_crc16_le env.now_us
        { source := LUX_SOURCE_ENVIRONMENT, value := env_lux } s)
  else s

/-- The fade stage of `slot_timer_callback`. -/
def tick_fade (p : PwmState) : PwmState :=
  let c := (p.fade_counter + 1) % 256
  if c ≥ 4 then { apply_fade { p with fade_counter := c } with fade_counter := 0 }
  else { p with fade_counter := c }

/-- The `switch (current_slot)` stage of `slot_timer_callback`. -/
def tick_switch (esp_rom_crc16_le : Nat → AlgoConfigData → Nat) (env : TickEnv)
    (current_slot : Nat) (s : Sys) : Sys :=
  if current_slot = DEVICE_ID_SLOT then
    let c := (s.pwm.device_id_counter + 1) % 256
    let s1 : Sys := { s with pwm := { s.pwm with device_id_counter := c } }
    if c ≥ 4 then
      let s2 := handle_device_id_slot esp_rom_crc16_le env s1
      { s2 with pwm := { s2.pwm with device_id_counter := 0 } }
    else s1
  else if current_slot = NATURAL_MEASURE_SLOT then
    let c := (s.pwm.natural_measure_counter + 1) % 256
    let s1 : Sys := { s with pwm := { s.pwm with natural_measure_counter := c } }
    if c ≥ 2 then
      let s2 := handle_natural_light_slot esp_rom_crc16_le env s1
      { s2 with pwm := { s2.pwm with natural_measure_counter := 0 } }
    else s1
  else if current_slot = ENV_MEASURE_SLOT then
    let c := (s.pwm.env_measure_counter + 1) % 256
    let s1 : Sys := { s with pwm := { s.pwm with env_measure_counter := c } }
    if c ≥ 1 then
      let s2 := handle_env_light_slot esp_rom_crc16_le env s1
      { s2 with pwm := { s2.pwm with env_measure_counter := 0 } }
    else s1
  else s

/-- The sequence-update stage of `slot_timer_callback`. -/
def tick_sequence (p : PwmState) : PwmState :=
  let c := (p.sequence_update_counter + 1) % 256
  if c ≥ 2 then
    { pwm_apply_current_sequence (pwm_sequence_update DEFAULT_EVENT
        { p with sequence_update_counter := c }) with sequence_update_counter := 0 }
  else { p with sequence_update_counter := c }

/-- The log stage of `slot_timer_callback` (`log_counter` is a `uint32_t`). -/
def tick_log (p : PwmState) : PwmState :=
  let c := (p.log_counter + 1) % 4294967296
  if c ≥ 20 then { p with log_counter := 0 } else { p with log_counter := c }

/-- The function `slot_timer_callback`. -/
def slot_timer_callback (esp_rom_crc16_le : Nat → AlgoConfigData → Nat) (env : TickEnv)
    (s : Sys) : Sys :=
  if s.pwm.pwm_initialized = false ∨ env.timer_valid = false then s
  else
    let skip := (s.pwm.skip_counter + 1) % 256
    if skip < 2 then
      { s with pwm := pwm_advance_slot { s.pwm with skip_counter := skip } }
    else
      let s1 : Sys := { s with pwm := { s.pwm with skip_counter := 0 } }
      let current_slot := pwm_get_current_slot s1.pwm
      let s2 : Sys := { s1 with pwm := tick_fade s1.pwm }
      let s3 := tick_switch esp_rom_crc16_le env current_slot s2
      let s4 : Sys := { s3 with pwm := tick_sequence s3.pwm }
      let s5 : Sys := { s4 with pwm := pwm_advance_slot s4.pwm }
      { s5 with pwm := tick_log s5.pwm }

/-! ## Zero-cross interrupt (`zerocross.c`) -/

/-- The local `delay_us` of `zero_cross_isr` for the level read from
`pwmcontroller_get_current_level` (a `uint16_t`). -/
def zc_delay_us (level : Nat) : Nat :=
  if level > 0 ∧ level < 32 then ((32 - level) * (10000 / 32)) % 4294967296 else 0

/-- The function `phase_timer_callback`. -/
def phase_timer_callback (s : Sys) : Sys :=
  { s with pwm := pwm_apply_phase_controlled_duty s.pwm }

/-- The function `zero_cross_isr` for an edge at clock value `now_us`
(`current_time` and `last_cross_time` are `uint64_t`). -/
def zero_cross_isr (now_us : Nat) (s : Sys) : Sys :=
  let current_time := now_us % 18446744073709551616
  if (current_time + 18446744073709551616 - s.last_cross_time) % 18446744073709551616
      < DEBOUNCE_TIME_US then s
  else
    let s1 : Sys := { s with last_cross_time := current_time }
    let level := pwmcontroller_get_current_level s1.pwm
    let delay_us := zc_delay_us level
    if delay_us > 0 ∧ delay_us < 10000 then { s1 with phase_timer := some delay_us }
    else if delay_us = 0 then { s1 with pwm := pwm_apply_phase_controlled_duty s1.pwm }
    else s1

/-- Expiry of the one-shot phase timer: its callback runs and the timer is
no longer armed. -/
def phase_timer_fire (s : Sys) : Sys :=
  match s.phase_timer with
  | none => s
  | some _ => { phase_timer_callback s with phase_timer := none }

/-- Operations on the running node. -/
inductive SysOp where
  | set_duty_cycle (duty_cycle : Nat)
  | set_level (level : Nat)
  | fade
  | slot_tick (env : TickEnv)
  | zero_cross (now_us : Nat)
  | phase_timer_expiry

/-- Effect of one operation. -/
def sys_step (esp_rom_crc16_le : Nat → AlgoConfigData → Nat) (s : Sys) : SysOp → Sys
  | SysOp.set_duty_cycle d => { s with pwm := pwm_set_duty_cycle d s.pwm }
  | SysOp.set_level l => pwmcontroller_set_level esp_rom_crc16_le l s
  | SysOp.fade => { s with pwm := pwm_fade s.pwm }
  | SysOp.slot_tick env => slot_timer_callback esp_rom_crc16_le env s
  | SysOp.zero_cross t => zero_cross_isr t s
  | SysOp.phase_timer_expiry => phase_timer_fire s

/-- Effect of a sequence of operations, first operation first. -/
def sys_run (esp_rom_crc16_le : Nat → AlgoConfigData → Nat) (s : Sys) (ops : List SysOp) : Sys :=
  ops.foldl (sys_step esp_rom_crc16_le) s

/-- The call `pwmcontroller_init` on a node. -/
def sys_pwmcontroller_init (env : InitEnv) (s : Sys) : Sys :=
  { s with pwm := pwmcontroller_init env s.pwm }

/-- Node at boot: zero-initialised PWM statics, the other modules in any
state. -/
def sys_boot (e : EcoState) (lc : LightCodeState) : Sys :=
  { pwm := pwm_state_boot, eco := e, lc := lc, lampada_stato := false,
    lampada_intensita := 0, last_cross_time := 0, phase_timer := none }

/-- Safety bounds of the PWM state: fade target and current level within
`LIGHT_MAX_LEVEL`, every duty written to the hardware within `PWM_MAX_VALUE`. -/
def PwmInv (p : PwmState) : Prop :=
  p.target_duty ≤ LIGHT_MAX_LEVEL ∧ p.light_level ≤ LIGHT_MAX_LEVEL ∧
    ∀ d ∈ p.ledc_duty_writes, d ≤ PWM_MAX_VALUE

/-- The debounce test of `zero_cross_isr` lets the edge at `now_us` through. -/
def edge_accepted (now_us : Nat) (s : Sys) : Prop :=
  ¬ ((now_us % 18446744073709551616 + 18446744073709551616 - s.last_cross_time)
      % 18446744073709551616 < DEBOUNCE_TIME_US)

instance (now_us : Nat) (s : Sys) : Decidable (edge_accepted now_us s) := by
  unfold edge_accepted; infer_instance

/-! ## Event scheduler (`scheduler.c`) -/

/-- The `esp_err_t` values returned by the scheduler. -/
inductive EspErr where
  | ESP_OK
  | ESP_FAIL
  | ESP_ERR_NO_MEM
  | ESP_ERR_INVALID_STATE
  | ESP_ERR_INVALID_SIZE
  deriving DecidableEq, Repr

/-- The struct `scheduler_event_t`: `p_event_data` is the heap copy of the
payload (`none` for NULL), `handler` identifies the handler function (`none`
for NULL). -/
structure SchedulerEvent where
  type : Nat
  timestamp : Nat
  p_event_data : Option (List Nat)
  event_size : Nat
  handler : Option Nat
  deriving DecidableEq, Repr

/-- The struct `scheduler_context_t` (`g_scheduler`); `event_queue` is the
content of the FreeRTOS queue, head first. -/
structure SchedulerContext where
  event_queue : List SchedulerEvent
  queue_size : Nat
  max_event_size : Nat
  initialized : Bool
  running : Bool
  events_processed : Nat
  events_dropped : Nat
  deriving DecidableEq, Repr

/-- One invocation `handler(p_event_data, event_size)` made by the dispatcher. -/
structure HandlerCall where
  handler : Nat
  data : Option (List Nat)
  size : Nat
  deriving DecidableEq, Repr

/-- The scheduler in its surroundings: the context, the producers' buffers
(`mem a` is the byte content at address `a`) and the handler invocations made
so far, oldest first. -/
structure SchedWorld where
  ctx : SchedulerContext
  mem : Nat → List Nat
  calls : List HandlerCall

/-- The `n` bytes that `memcpy` reads from a buffer. -/
def read_bytes (buf : List Nat) (n : Nat) : List Nat :=
  (List.range n).map (fun i => buf.getD i 0 % 256)

/-- Zero-initialised `g_scheduler`. -/
def scheduler_context_boot : SchedulerContext :=
  { event_queue := [], queue_size := 0, max_event_size := 0, initialized := false,
    running := false, events_processed := 0, events_dropped := 0 }

/-- The function `scheduler_init` (`uint32_t` arguments), given whether the
mutex and the queue could be created. -/
def scheduler_init (queue_size max_event_size : Nat) (mutex_ok queue_ok : Bool)
    (c : SchedulerContext) : SchedulerContext × EspErr :=
  if c.initialized then (c, EspErr.ESP_OK)
  else if mutex_ok = false then (c, EspErr.ESP_ERR_NO_MEM)
  else if queue_ok = false then (c, EspErr.ESP_ERR_NO_MEM)
  else
    ({ c with
        event_queue := [], queue_size := queue_size % 4294967296,
        max_event_size := max_event_size % 4294967296, initialized := true, running := false,
        events_processed := 0, events_dropped := 0 }, EspErr.ESP_OK)

/-- The call `xQueueSend` with a timeout that elapses while the queue stays
full: the item is appended when there is room, else the send fails. -/
def xQueueSend (c : SchedulerContext) (ev : SchedulerEvent) : Option SchedulerContext :=
  if c.event_queue.length < c.queue_size then
    some { c with event_queue := c.event_queue ++ [ev] }
  else none

/-- The call `xQueueReceive`: the head item and the remaining queue, `none`
when the queue is empty. -/
def xQueueReceive (c : SchedulerContext) : Option (SchedulerEvent × SchedulerContext) :=
  match c.event_queue with
  | [] => none
  | ev :: rest => some (ev, { c with event_queue := rest })

/-- The payload copy made by `scheduler_put_event` (`malloc` then `memcpy`)
when the size is positive and the pointer is not NULL; NULL otherwise. -/
def copy_payload (mem : Nat → List Nat) (p_event_data : Option Nat) (size : Nat) :
    Option (List Nat) :=
  match p_event_data with
  | some a => if size > 0 then some (read_bytes (mem a) size) else none
  | none => none

/-- The function `scheduler_put_event`: `p_event_data` is the address of the
producer's buffer (`none` for NULL), `event_size` a `uint16_t`, `malloc_ok`
tells whether `malloc` returns a block, `tick` is `xTaskGetTickCount()`. -/
def scheduler_put_event (p_event_data : Option Nat) (event_size : Nat) (type : Nat)
    (handler : Option Nat) (malloc_ok : Bool) (tick : Nat) (w : SchedWorld) :
    SchedWorld × EspErr :=
  let size := event_size % 65536
  if w.ctx.initialized = false then (w, EspErr.ESP_ERR_INVALID_STATE)
  else if size > w.ctx.max_event_size then (w, EspErr.ESP_ERR_INVALID_SIZE)
  else if size > 0 ∧ p_event_data.isSome ∧ malloc_ok = false then (w, EspErr.ESP_ERR_NO_MEM)
  else
    let event_data_copy : Option (List Nat) := copy_payload w.mem p_event_data size
    let event : SchedulerEvent :=
      { type := type, timestamp := tick % 4294967296, p_event_data := event_data_copy,
        event_size := size, handler := handler }
    match xQueueSend w.ctx event with
    | some c => ({ w with ctx := c }, EspErr.ESP_OK)
    | none =>
      ({ w with ctx := { w.ctx with events_dropped := (w.ctx.events_dropped + 1) % 4294967296 } },
        EspErr.ESP_FAIL)

/-- Invocation made by the dispatcher for a received event, if its handler is
not NULL. -/
def handler_call (ev : SchedulerEvent) : List HandlerCall :=
  match ev.handler with
  | some h => [{ handler := h, data := ev.p_event_data, size := ev.event_size }]
  | none => []

/-- Body of the receive loops of `scheduler_task_function` for a received
event: the counter is incremented, the handler (if any) runs on the copy, the
copy is freed. -/
def process_event (ev : SchedulerEvent) (w : SchedWorld) : SchedWorld :=
  { w with
    ctx := { w.ctx with events_processed := (w.ctx.events_processed + 1) % 4294967296 }
    calls := w.calls ++ handler_call ev }

/-- The receive loops of `scheduler_task_function`, at most `n` receptions:
each reception processes the head of the queue, and the task waits (here:
stops) when the queue is empty. -/
def scheduler_task_function : Nat → SchedWorld → SchedWorld
  | 0, w => w
  | n + 1, w =>
    match xQueueReceive w.ctx with
    | none => w
    | some (ev, c) => scheduler_task_function n (process_event ev { w with ctx := c })

/-- The dispatcher runs until the queue is empty. -/
def scheduler_drain (w : SchedWorld) : SchedWorld :=
  scheduler_task_function w.ctx.event_queue.length w

/-- The function `scheduler_get_stats`: processed, dropped, queued. -/
def scheduler_get_stats (w : SchedWorld) : Nat × Nat × Nat :=
  (w.ctx.events_processed, w.ctx.events_dropped,
    if w.ctx.initialized = false then 0 else w.ctx.event_queue.length)

/-- What happens around the scheduler: a submission, a producer overwriting
one of its buffers, or one reception by the dispatcher. -/
inductive SchedOp where
  | put (p_event_data : Option Nat) (event_size : Nat) (type : Nat) (handler : Option Nat)
      (malloc_ok : Bool) (tick : Nat)
  | write (addr : Nat) (bytes : List Nat)
  | dispatch

/-- Effect of one operation. -/
def sched_step (w : SchedWorld) : SchedOp → SchedWorld
  | SchedOp.put p n t h m k => (scheduler_put_event p n t h m k w).1
  | SchedOp.write a bs => { w with mem := fun x => if x = a then bs else w.mem x }
  | SchedOp.dispatch => scheduler_task_function 1 w

/-- Effect of a sequence of operations, first operation first. -/
def sched_run (w : SchedWorld) (ops : List SchedOp) : SchedWorld :=
  ops.foldl sched_step w

/-- The scheduler after a successful `scheduler_init` at boot, with producer
memory `mem`. -/
def sched_boot (queue_size max_event_size : Nat) (mem : Nat → List Nat) : SchedWorld :=
  { ctx := (scheduler_init queue_size max_event_size true true scheduler_context_boot).1,
    mem := mem, calls := [] }

/-- Number of submissions in a sequence of operations. -/
def submissions : List SchedOp → Nat
  | [] => 0
  | SchedOp.put _ _ _ _ _ _ :: ops => submissions ops + 1
  | _ :: ops => submissions ops

/-- Every submission has a payload within `max_event_size` (the size being a
`uint16_t`). -/
def sizes_within (max_event_size : Nat) : List SchedOp → Prop
  | [] => True
  | SchedOp.put _ n _ _ _ _ :: ops =>
    n % 65536 ≤ max_event_size % 4294967296 ∧ sizes_within max_event_size ops
  | _ :: ops => sizes_within max_event_size ops

/-- Every allocation of a payload copy succeeds. -/
def allocations_succeed : List SchedOp → Prop
  | [] => True
  | SchedOp.put _ _ _ _ m _ :: ops => m = true ∧ allocations_succeed ops
  | _ :: ops => allocations_succeed ops

/-- The payload as the producer passed it at submission, stated without the
copy routine of the code: the first `size` bytes that the buffer at the
address handed to the call holds at that moment (a buffer shorter than `size`
reads as 0 beyond its end); NULL when no buffer is handed over or the size
is 0. -/
def submitted_payload (mem : Nat → List Nat) (p_event_data : Option Nat) (size : Nat) :
    Option (List Nat) :=
  match p_event_data with
  | none => none
  | some a =>
    if size = 0 then none
    else some (List.take size ((mem a).map (fun b => b % 256) ++ List.replicate size 0))

/-- Handler invocations owed to the submissions that `scheduler_put_event`
accepts (returns `ESP_OK`) along a sequence of operations from `w`: one per
accepted event with a handler, in submission order, with the bytes the
producer's buffer held when the submission was made. -/
def accepted_calls : SchedWorld → List SchedOp → List HandlerCall
  | _, [] => []
  | w, SchedOp.put p n t h m k :: ops =>
    (if (scheduler_put_event p n t h m k w).2 = EspErr.ESP_OK then
      (match h with
        | some f =>
          [{ handler := f, data := submitted_payload w.mem p (n % 65536), size := n % 65536 }]
        | none => [])
     else []) ++ accepted_calls (sched_step w (SchedOp.put p n t h m k)) ops
  | w, op :: ops => accepted_calls (sched_step w op) ops

/-- Handler invocations still owed to the events waiting in a queue. -/
def pending_calls (q : List SchedulerEvent) : List HandlerCall :=
  q.flatMap handler_call

/-- Handler invocations made so far together with those owed to the events
still queued. -/
def owed_calls (w : SchedWorld) : List HandlerCall :=
  w.calls ++ pending_calls w.ctx.event_queue

/-- Handler invocations owed to the submissions of a sequence of operations
when every one of them is accepted: one per submission with a handler, in
order, with the bytes the producer's buffer holds when it is made (`mem` is
the producers' memory before the first operation). -/
def submitted_calls : (Nat → List Nat) → List SchedOp → List HandlerCall
  | _, [] => []
  | mem, SchedOp.put p n _ h _ _ :: ops =>
    (match h with
      | some f =>
        [{ handler := f, data := submitted_payload mem p (n % 65536), size := n % 65536 }]
      | none => []) ++ submitted_calls mem ops
  | mem, SchedOp.write a bs :: ops => submitted_calls (fun x => if x = a then bs else mem x) ops
  | mem, SchedOp.dispatch :: ops => submitted_calls mem ops

/-- Producer memory used in the examples: every buffer holds 1, 2, 3, 4. -/
def demo_mem : Nat → List Nat := fun _ => [1, 2, 3, 4]

/-- Two submissions from the same buffer, overwritten in between, with one
reception before the final drain. -/
def demo_ops : List SchedOp :=
  [SchedOp.put (some 0) 4 0 (some 7) true 0, SchedOp.write 0 [9, 9, 9, 9],
   SchedOp.put (some 0) 2 1 (some 8) true 1, SchedOp.dispatch]

/-- One submission whose payload copy cannot be allocated. -/
def demo_ops_no_mem : List SchedOp :=
  [SchedOp.put (some 0) 4 0 (some 7) false 0]

/-- A scheduler of capacity 1 (payloads up to 4 bytes) whose queue is full. -/
def demo_full : SchedWorld :=
  sched_run (sched_boot 1 4 demo_mem) [SchedOp.put (some 0) 4 0 (some 7) true 0]

/-! ## Concrete states used in the examples -/

/-- Zero-initialised statics of `lightcode.c`. -/
def lc_boot : LightCodeState :=
  { queue := fun _ => 0, queue_ptr_null := true, queue_index := 0,
    mean_buffer := [0, 0, 0, 0], mean_buffer_initialized := false }

/-- The configuration written by `create_default_configuration`, before its
checksum is stored. -/
def default_config : AlgoConfigData :=
  { target_lux := 400, efficiency := 18.75, distance := 1, in_pl := 1, dimm_step := 0.1,
    perc_min := 0.01, transparency := 1, current_pwm_level := 0, crc := 0 }

/-- A rolling average as set by `initialize_algorithm_structures`, holding
`measure`. -/
def avg_with (size : Nat) (measure : Int) : MeasureAvg :=
  { sum := 0, size := size, count := 0, measure := measure }

/-- Statics of `ecolumiere.c` after `ecolumiere_init` with the default
configuration (checksum stored), once 9 control cycles have run on rolling
averages of 100 lux (natural) and 150 lux (environment): both windows hold 9
samples, so that the next control cycle commits.  The lamp model stands at
`pnew` = 5. -/
def eco_nine_cycles (esp_rom_crc16_le : Nat → AlgoConfigData → Nat) : EcoState :=
  { mesh_override_active := false, mesh_override_timeout := 0, mesh_override_level := 0,
    natural_avg := avg_with NATURAL_LUX_AVG_ORDER 100,
    env_avg := avg_with ENV_LUX_AVG_ORDER 150,
    algo_avg_live := { natural_sum := 900, env_sum := 1350, count := 9, size := ALGO_AVG_LIVE,
                       enatural := 0, eenv := 0 },
    algo_avg := { natural_sum := 900, env_sum := 1350, count := 9, size := ALGO_AVG,
                  enatural := 0, eenv := 0 },
    algo_data := { target_lux := 400, perc_min := 0.01, distance := 1, in_pl := 1,
                   power_efficiency := 18.75, transparency := 1, dimm_step := 0.1,
                   variation := 0, elamp := 0, emax := 600, enew := 0, pnew := 5, emin := 0,
                   enatural := 0, eenv := 0 },
    algo_config_data :=
      { default_config with crc := config_crc esp_rom_crc16_le default_config },
    code_window := List.replicate CODE_WINDOW_SIZE 0, test_on := false,
    ecl_live := { natural := 0, env := 0, lamp_lux := 0, duty_cycle := 0 },
    code_prescaler := CODE_WINDOW_PRESCALER, counter := 0 }

/-- All driver and RTOS calls of `pwmcontroller_init` succeed. -/
def init_ok : InitEnv :=
  { ledc_timer_ok := true, ledc_channel_ok := true, timer_created := true,
    timer_started := true }

/-- The node right after a successful `pwmcontroller_init`, with the
algorithm state `eco_nine_cycles`: level 0, target 0. -/
def node_nine_cycles (esp_rom_crc16_le : Nat → AlgoConfigData → Nat) : Sys :=
  sys_pwmcontroller_init init_ok (sys_boot (eco_nine_cycles esp_rom_crc16_le) lc_boot)

/-- A clock value, in microseconds, whose millisecond count is the largest
32-bit value: 4294967295 ms, about 49.7 days after start. -/
def clock_near_wrap_us : Nat := 4294967295 * 1000

/-- A checksum routine for the closed examples (the stored checksum of
`eco_nine_cycles` is valid for whichever routine is supplied). -/
def crc_zero : Nat → AlgoConfigData → Nat := fun _ _ => 0

/-! ## Definitions for the fade, debounce and filter claims -/

/-- Distance between the current level and the fade target,
`|target_duty - light_level|`. -/
def level_distance (p : PwmState) : Nat :=
  (p.target_duty - p.light_level) + (p.light_level - p.target_duty)

/-- The difference `b - a` of two `uint64_t` clock values, as `zero_cross_isr`
computes it. -/
def edge_gap (a b : Nat) : Nat :=
  (b + 18446744073709551616 - a) % 18446744073709551616

/-- Times (as `uint64_t`) of the edges that `zero_cross_isr` accepts when the
edges of the list arrive in order on the state `s`. -/
def accepted_edges : Sys → List Nat → List Nat
  | _, [] => []
  | s, t :: ts =>
    if edge_accepted t s then
      (t % 18446744073709551616) :: accepted_edges (zero_cross_isr t s) ts
    else accepted_edges (zero_cross_isr t s) ts

/-- A sample buffer of 120 stored samples whose first sample is 1 and whose
other samples are 0, with an all-zero filter window. -/
def lc_single_one : LightCodeState :=
  { queue := fun i => if i = 0 then 1 else 0, queue_ptr_null := false,
    queue_index := SENSE_QUEUE_SIZE, mean_buffer := [0, 0, 0, 0],
    mean_buffer_initialized := true }

/-- The rounded mean of the four samples ending at position `i`,
`round((x[i-3] + x[i-2] + x[i-1] + x[i]) / 4)`, halves rounded up. -/
def rounded_mean4 (x : Nat → Nat) (i : Nat) : Nat :=
  (x (i - 3) + x (i - 2) + x (i - 1) + x i + 2) / 4

/-- A slot-timer environment whose two lux readings are the invalid
sentinel. -/
def tick_env_invalid : TickEnv :=
  { timer_valid := true, natural_lux := MEASURE_INVALID, env_lux := MEASURE_INVALID,
    now_us := 0 }

/-! ## Definitions for the slot-service claim -/

/-- The slot index that `slot_timer_callback` hands to its `switch` on this
tick, `none` when the callback returns before the switch (not initialised,
NULL timer, or skipped callback). -/
def slot_at_switch (env : TickEnv) (s : Sys) : Option Nat :=
  if s.pwm.pwm_initialized = false ∨ env.timer_valid = false then none
  else if (s.pwm.skip_counter + 1) % 256 < 2 then none
  else some (pwm_get_current_slot s.pwm)

/-- Relation between the skip counter and the slot index kept by the slot
timer: the slot index is even exactly when the next callback is a skipped
one. -/
def SlotParity (p : PwmState) : Prop :=
  (p.skip_counter = 0 ∧ p.current_slot % 2 = 0) ∨
    (p.skip_counter = 1 ∧ p.current_slot % 2 = 1)

/-- A slot-timer environment with valid lux readings of 500. -/
def tick_env_500 : TickEnv :=
  { timer_valid := true, natural_lux := 500, env_lux := 500, now_us := 0 }

/-! ## Definitions for the rolling-average claim -/

/-- Calls of `ecolumiere_update_lux` with the same sample `v` from the source
`source`, one call per clock value of the list. -/
def feed_lux (esp_rom_crc16_le : Nat → AlgoConfigData → Nat) (source v : Nat) :
    List Nat → Sys → Sys
  | [], s => s
  | now_us :: rest, s =>
    feed_lux esp_rom_crc16_le source v rest
      (ecolumiere_update_lux esp_rom_crc16_le now_us { value := v, source := source } s)

/-- An empty accumulator of window size `n`. -/
def empty_avg (n : Nat) : MeasureAvg :=
  { sum := 0, size := n, count := 0, measure := 0 }

/-- A node state whose two accumulators are empty, of window size `n`. -/
def sys_empty_avg (n : Nat) : Sys :=
  { node_nine_cycles crc_zero with
    eco := { (node_nine_cycles crc_zero).eco with
      natural_avg := empty_avg n
      env_avg := empty_avg n } }

/-! ## Configuration storage (`storage.c`) -/

def STORAGE_GC_MASK : Nat := 0x01
def STORAGE_WRITE_CONFIG_MASK : Nat := 0x02
def STORAGE_WRITE_REGISTRY_MASK : Nat := 0x04

/-- The value of `sizeof(algo_config_data_t)`: the packed record has seven
4-byte fields and two 2-byte fields. -/
def CONFIG_RECORD_SIZE : Nat := 32

/-- The enum `storage_status_t`. -/
inductive StorageStatus where
  | STORAGE_NULL
  | STORAGE_BUSY
  | STORAGE_READY
  deriving DecidableEq, Repr

/-- A blob as the NVS library of ESP-IDF keeps it in flash: the bytes of the
blob and the CRC32 that the library stores with them when the blob is
written.  The library is not part of the repository; its checksum routine is
an argument of the model (`nvs_crc32`), like the ROM routine
`esp_rom_crc16_le`. -/
structure NvsEntry where
  data : List Nat
  data_crc32 : Nat
  deriving DecidableEq, Repr

/-- Statics of `storage.c` used by the configuration path, with the flash
partition behind the NVS handle: `config_data` holds the bytes of the static
record, `nvs_config` the entry stored under the configuration key (`none`
when the key is absent). -/
structure StorageState where
  storage_pending_mask : Nat
  storage_status : StorageStatus
  config_data : List Nat
  nvs_handle_val : Nat
  nvs_config : Option NvsEntry
  deriving DecidableEq, Repr

/-- The call `storage_fds_evt_handler(STORAGE_EVT_WRITE, ESP_OK)`. -/
def storage_fds_evt_handler_write_ok (st : StorageState) : StorageState :=
  let m1 :=
    if st.storage_pending_mask &&& STORAGE_WRITE_CONFIG_MASK ≠ 0 then
      st.storage_pending_mask &&& (255 - STORAGE_WRITE_CONFIG_MASK)
    else st.storage_pending_mask
  let m2 :=
    if m1 &&& STORAGE_WRITE_REGISTRY_MASK ≠ 0 then m1 &&& (255 - STORAGE_WRITE_REGISTRY_MASK)
    else m1
  { st with storage_pending_mask := m2, storage_status := StorageStatus.STORAGE_READY }

/-- The library call `nvs_set_blob` when it returns `ESP_OK`: the entry under
the key is replaced by the new bytes together with their CRC32. -/
def nvs_set_blob (nvs_crc32 : List Nat → Nat) (data : List Nat) (st : StorageState) :
    StorageState :=
  { st with nvs_config := some { data := data, data_crc32 := nvs_crc32 data } }

/-- The size query `nvs_get_blob(nvs_handle_val, key_name, NULL, &required_size)`:
the size of the stored blob, `none` when the call does not return `ESP_OK`
(handle 0 or key absent). -/
def nvs_get_blob_size (st : StorageState) : Option Nat :=
  if st.nvs_handle_val = 0 then none else st.nvs_config.map (fun e => e.data.length)

/-- The library call `nvs_get_blob` that reads the data: the bytes read when
it returns `ESP_OK`, `none` when it returns an error, which it does for the
handle 0, for an absent key, when the bytes read back do not match the CRC32
stored with them, and whenever `read_ok` (any other failure of the read) is
false. -/
def nvs_get_blob (nvs_crc32 : List Nat → Nat) (read_ok : Bool) (st : StorageState) :
    Option (List Nat) :=
  if st.nvs_handle_val = 0 then none
  else
    match st.nvs_config with
    | none => none
    | some e => if read_ok = true ∧ nvs_crc32 e.data = e.data_crc32 then some e.data else none

/-- The function `storage_key_exists` for the configuration key. -/
def storage_key_exists (st : StorageState) : Bool :=
  match nvs_get_blob_size st with
  | some required_size => decide (required_size > 0)
  | none => false

/-- The function `storage_write_config`; `set_ok` and `commit_ok` tell whether
`nvs_set_blob` and `nvs_commit` return `ESP_OK`. -/
def storage_write_config (nvs_crc32 : List Nat → Nat) (set_ok commit_ok : Bool)
    (st : StorageState) : StorageState :=
  if st.nvs_handle_val = 0 then st
  else
    let st1 : StorageState := if set_ok then nvs_set_blob nvs_crc32 st.config_data st else st
    if set_ok = true ∧ commit_ok = true then storage_fds_evt_handler_write_ok st1 else st1

/-- The function `storage_save_config` on the bytes `config` of the caller's
record: the returned flag and the new state. -/
def storage_save_config (nvs_crc32 : List Nat → Nat) (set_ok commit_ok : Bool)
    (config : List Nat) (st : StorageState) : Bool × StorageState :=
  if st.storage_pending_mask &&& STORAGE_WRITE_CONFIG_MASK ≠ 0 then (false, st)
  else
    let st1 : StorageState :=
      { st with
        config_data := config.take CONFIG_RECORD_SIZE
        storage_pending_mask := (st.storage_pending_mask ||| STORAGE_WRITE_CONFIG_MASK) % 256 }
    (true, storage_write_config nvs_crc32 set_ok commit_ok st1)

/-- The function `storage_load_config`: the returned flag, the bytes left in
the caller's record, and the new state; `read_ok` is passed to the reading
`nvs_get_blob`. -/
def storage_load_config (nvs_crc32 : List Nat → Nat) (read_ok : Bool) (st : StorageState) :
    Bool × List Nat × StorageState :=
  if storage_key_exists st then
    let required_size := (nvs_get_blob_size st).getD 0
    if required_size = 4 then
      (false, List.replicate CONFIG_RECORD_SIZE 0, { st with nvs_config := none })
    else
      match nvs_get_blob nvs_crc32 read_ok st with
      | some data =>
        if data.length = CONFIG_RECORD_SIZE then (true, data, st)
        else (false, List.replicate CONFIG_RECORD_SIZE 0, { st with nvs_config := none })
      | none => (false, List.replicate CONFIG_RECORD_SIZE 0, st)
  else (false, List.replicate CONFIG_RECORD_SIZE 0, st)

/-- One byte of the stored configuration record is changed in flash, behind
the back of the NVS library: the byte at offset `i` becomes `b`, the CRC32
stored with the blob stays as it was written. -/
def corrupt_stored_byte (i b : Nat) (st : StorageState) : StorageState :=
  { st with nvs_config :=
      st.nvs_config.map (fun e => { e with data := e.data.set i (b % 256) }) }

/-- Statics of `storage.c` after a successful `storage_init` on an empty
partition. -/
def storage_ready : StorageState :=
  { storage_pending_mask := 0, storage_status := StorageStatus.STORAGE_READY,
    config_data := List.replicate CONFIG_RECORD_SIZE 0, nvs_handle_val := 1,
    nvs_config := none }

/-- A configuration record of 32 bytes, the bytes 1 to 32. -/
def record_bytes : List Nat := (List.range CONFIG_RECORD_SIZE).map (fun i => i + 1)

/-- A checksum routine for the closed examples: the sum of the bytes. -/
def crc_byte_sum : List Nat → Nat := fun data => data.sum

/-! ## Definitions for the control-cycle claims -/

/-- The state `s` with the environment rolling average holding `m`. -/
def with_env_measure (m : Int) (s : Sys) : Sys :=
  { s with eco := { s.eco with env_avg := { s.eco.env_avg with measure := m } } }

/-- The algorithm state that `ecolumiere_algo_process` hands to step 6, when
the override check lets the cycle go on: both windows hold the new averages
and the slow count is incremented. -/
def algo_precommit (esp_rom_crc16_le : Nat → AlgoConfigData → Nat) (now_us : Nat)
    (s : Sys) : EcoState :=
  let e1 := algo_accumulate esp_rom_crc16_le (algo_override_check now_us s.eco).1
  { e1 with algo_avg := { e1.algo_avg with count := (e1.algo_avg.count + 1) % 256 } }

/-- The control cycle run by `ecolumiere_algo_process` on `s` at clock value
`now_us` is a committing one: the override check lets it go on and the slow
window is full. -/
def cycle_commits (esp_rom_crc16_le : Nat → AlgoConfigData → Nat) (now_us : Nat)
    (s : Sys) : Prop :=
  (algo_override_check now_us s.eco).2 = true ∧
    ¬ ((algo_precommit esp_rom_crc16_le now_us s).algo_avg.count
        < (algo_precommit esp_rom_crc16_le now_us s).algo_avg.size)

instance (f : Nat → AlgoConfigData → Nat) (now_us : Nat) (s : Sys) :
    Decidable (cycle_commits f now_us s) := by
  unfold cycle_commits
  exact inferInstance

/-- Control cycles run one after the other by `ecolumiere_algo_process`, one
per clock value of the list. -/
def run_cycles (esp_rom_crc16_le : Nat → AlgoConfigData → Nat) : List Nat → Sys → Sys
  | [], s => s
  | now_us :: rest, s =>
    run_cycles esp_rom_crc16_le rest (ecolumiere_algo_process esp_rom_crc16_le now_us s)

/-- Statics of `ecolumiere.c` after `ecolumiere_init` with the default
configuration (checksum stored), before the first control cycle: both windows
are empty, the rolling averages hold 100 lux (natural) and 150 lux
(environment), and the lamp model stands at `pnew` = 0. -/
def eco_fresh (esp_rom_crc16_le : Nat → AlgoConfigData → Nat) : EcoState :=
  { eco_nine_cycles esp_rom_crc16_le with
    algo_avg_live := { natural_sum := 0, env_sum := 0, count := 0, size := ALGO_AVG_LIVE,
                       enatural := 0, eenv := 0 }
    algo_avg := { natural_sum := 0, env_sum := 0, count := 0, size := ALGO_AVG,
                  enatural := 0, eenv := 0 }
    algo_data := { (eco_nine_cycles esp_rom_crc16_le).algo_data with pnew := 0 } }

/-- The node right after a successful `pwmcontroller_init`, with the
algorithm state `eco_fresh`. -/
def node_fresh (esp_rom_crc16_le : Nat → AlgoConfigData → Nat) : Sys :=
  sys_pwmcontroller_init init_ok (sys_boot (eco_fresh esp_rom_crc16_le) lc_boot)

/-- The lamp model of steps 6 and 7 in closed form, as a function of the
record `d` (parameters, and the previous duty `d.pnew`) and of the two sums
of the slow window: `new_lux = max(lamp_lux + variation, min_lux)` and
`new_duty = min(new_lux * distance^2 / (efficiency * transparency), 32)`. -/
def lamp_model (d : AlgoData) (natural_sum env_sum : Nat) : AlgoData :=
  let enatural : ℚ := ((natural_sum / ALGO_AVG_LAST : Nat) : ℚ) / d.transparency
  let eenv0 : ℚ :=
    if d.in_pl = 2 then
      ((env_sum / ALGO_AVG_LAST : Nat) : ℚ) / ((d.distance * d.distance) * d.transparency)
    else
      ((env_sum / ALGO_AVG_LAST : Nat) : ℚ) * ((d.distance * d.distance) / d.transparency)
  let eenv : ℚ := max eenv0 enatural
  let emin : ℚ := d.perc_min * d.emax
  let elamp : ℚ := (d.pnew * d.power_efficiency * d.transparency) / (d.distance * d.distance)
  let variation : ℚ :=
    if enatural ≠ 0 then
      ((d.target_lux : ℚ) - (elamp + eenv)) * ((enatural / (d.target_lux : ℚ)) * d.dimm_step)
    else ((d.target_lux : ℚ) - (elamp + eenv)) * d.dimm_step
  let enew : ℚ := max (elamp + variation) emin
  let pnew : ℚ :=
    min ((enew * d.distance * d.distance) / (d.power_efficiency * d.transparency))
      (LIGHT_MAX_LEVEL : ℚ)
  { d with
    enatural := enatural, eenv := eenv, emin := emin, elamp := elamp, variation := variation,
    enew := enew, pnew := pnew }

/-- The record `algo_data` left by the control cycle run on `s` at clock value
`now_us`. -/
def committed_data (esp_rom_crc16_le : Nat → AlgoConfigData → Nat) (now_us : Nat)
    (s : Sys) : AlgoData :=
  (ecolumiere_algo_process esp_rom_crc16_le now_us s).eco.algo_data

/-- The state `eco_nine_cycles` with the lamp model at `pnew` = 0 and a stored
configuration whose efficiency is -18.75 (checksum valid for `crc_zero`). -/
def eco_negative_efficiency : EcoState :=
  { eco_nine_cycles crc_zero with
    algo_config_data := { default_config with efficiency := -18.75 }
    algo_data := { (eco_nine_cycles crc_zero).algo_data with pnew := 0 } }

/-- The node right after a successful `pwmcontroller_init`, with the
algorithm state `eco_negative_efficiency`. -/
def node_negative_efficiency : Sys :=
  sys_pwmcontroller_init init_ok (sys_boot eco_negative_efficiency lc_boot)

/-- The value that one pass of the filter loop leaves at position `i ≥ 3`: the
`uint8_t` sum `x[i-3] + x[i-2] + x[i-1] + x[i-3]`, plus 2, divided by 4. -/
def pickup_value (x : Nat → Nat) (i : Nat) : Nat :=
  (((((x (i - 3) % 256 + x (i - 2) % 256) % 256 + x (i - 1) % 256) % 256
    + x (i - 3) % 256) % 256 + 2) / 4) % 256

/-! ## Definitions for the hardware-write, pattern, round-trip and fade-convergence claims -/

/-- The local `duty` of `pwm_apply_current_sequence`: the number of ON entries
of the current pattern scaled to the hardware range,
`(sum_on * PWM_MAX_VALUE) / PWM_SEQUENCE_LEN` in `uint32_t`. -/
def sequence_duty (s : PwmState) : Nat :=
  ((sum_on s * PWM_MAX_VALUE) % 4294967296) / PWM_SEQUENCE_LEN

/-- The call of `pwm_apply_current_sequence` on `s` hands a duty to
`ledc_set_duty`: the trace of hardware writes grows by one value. -/
def writes_hardware (s : PwmState) : Prop :=
  (pwm_apply_current_sequence s).ledc_duty_writes = s.ledc_duty_writes ++ [sequence_duty s]

/-- The intensity (0..100) that `ecolumiere_handle_mesh_command` stores for
the duty level `level`: `(level * 100) / 32`. -/
def level_to_intensity (level : Nat) : Nat := (level * 100) / 32

/-- The state reached from `p` after `k` calls of `apply_fade`. -/
def fade_steps : Nat → PwmState → PwmState
  | 0, p => p
  | k + 1, p => fade_steps k (apply_fade p)

/-! ## Definitions for the override, interrupt-submit, sampler and trigger claims -/

/-- The node `node_nine_cycles` right after the mesh command
`ecolumiere_handle_mesh_command(20, true)` received at clock value 0: the
override is active until 30000 ms. -/
def node_override : Sys :=
  ecolumiere_handle_mesh_command crc_zero 0 20 true (node_nine_cycles crc_zero)

/-- The call `xQueueSendFromISR`: the item is appended when there is room,
else the send fails at once. -/
def xQueueSendFromISR (c : SchedulerContext) (ev : SchedulerEvent) : Option SchedulerContext :=
  if c.event_queue.length < c.queue_size then
    some { c with event_queue := c.event_queue ++ [ev] }
  else none

/-- The function `scheduler_put_event_isr`: `p_event_data` is the address of
the producer's buffer (`none` for NULL), `event_size` a `uint16_t`,
`malloc_ok` tells whether `pvPortMalloc` returns a block, `tick` is
`xTaskGetTickCountFromISR()`. -/
def scheduler_put_event_isr (p_event_data : Option Nat) (event_size : Nat) (type : Nat)
    (handler : Option Nat) (malloc_ok : Bool) (tick : Nat) (w : SchedWorld) :
    SchedWorld × EspErr :=
  let size := event_size % 65536
  if size > 0 ∧ p_event_data.isSome ∧ malloc_ok = false then (w, EspErr.ESP_ERR_NO_MEM)
  else
    let event_data_copy : Option (List Nat) := copy_payload w.mem p_event_data size
    let event : SchedulerEvent :=
      { type := type, timestamp := tick % 4294967296, p_event_data := event_data_copy,
        event_size := size, handler := handler }
    match xQueueSendFromISR w.ctx event with
    | some c => ({ w with ctx := c }, EspErr.ESP_OK)
    | none => (w, EspErr.ESP_FAIL)

/-- The function `light_code_timer_callback`, `pin_state` being the value
returned by `gpio_get_level`: the sample is stored through `queue_ptr` (set by
`light_code_init` before the timer is created) only while `queue_index` is
below `SENSE_QUEUE_SIZE`. -/
def light_code_timer_callback (pin_state : Nat) (lc : LightCodeState) : LightCodeState :=
  if lc.queue_index < SENSE_QUEUE_SIZE then
    { lc with
      queue := fun i => if i = lc.queue_index then pin_state % 256 else lc.queue i
      queue_index := (lc.queue_index + 1) % 4294967296 }
  else lc

/-- The function `light_code_reset_queue`. -/
def light_code_reset_queue (lc : LightCodeState) : LightCodeState :=
  if lc.mean_buffer_initialized = false then
    { lc with queue_index := 0, mean_buffer := List.replicate MEAN_SIZE 0,
              mean_buffer_initialized := true }
  else { lc with queue_index := 0 }

/-- Sampler ticks in a row, one per pin value of the list. -/
def sample_run : List Nat → LightCodeState → LightCodeState
  | [], lc => lc
  | pin_state :: rest, lc => sample_run rest (light_code_timer_callback pin_state lc)

/-- A sample buffer whose 120 entries are all 0 and all stored
(`queue_index` = 120). -/
def lc_full_zero : LightCodeState :=
  { queue := fun _ => 0, queue_ptr_null := false, queue_index := SENSE_QUEUE_SIZE,
    mean_buffer := [0, 0, 0, 0], mean_buffer_initialized := true }

/-- Number of calls of `ecolumiere_algo_process` made while
`handle_env_light_slot` handles the reading of `env`: none for the invalid
sentinel; else one inside `ecolumiere_update_lux` when the environment rolling
average completes its window (`count` back at 0), and one made by the handler
itself. -/
def env_slot_algo_calls (env : TickEnv) (s : Sys) : Nat :=
  let env_lux := env.env_lux % 4294967296
  if env_lux ≠ MEASURE_INVALID then
    (if (measure_avg_update s.eco.env_avg env_lux).count = 0 then 1 else 0) + 1
  else 0

/-- The state `s` once the environment rolling average has taken the sample
`v`. -/
def with_env_sample (v : Nat) (s : Sys) : Sys :=
  { s with eco := { s.eco with env_avg := measure_avg_update s.eco.env_avg v } }

/-- The node `node_fresh` whose environment rolling average holds 49 of its 50
samples (150 lux each). -/
def node_env_window_49 : Sys :=
  { node_fresh crc_zero with
    eco := { (node_fresh crc_zero).eco with
      env_avg := { sum := 49 * 150, size := ENV_LUX_AVG_ORDER, count := 49, measure := 150 } } }

/-- A slot-timer environment with valid lux readings of 150 at clock value 0. -/
def tick_env_150 : TickEnv :=
  { timer_valid := true, natural_lux := 100, env_lux := 150, now_us := 0 }

/-- The condition `received_code == LIGHT_CODE_ONE` of the master-signal
branch of `handle_device_id_slot` on the state `s`. -/
def master_signal_detected (s : Sys) : Bool :=
  decide (light_code_check (light_code_pickup s.lc).queue = LIGHT_CODE_ONE)

/-- The bookkeeping of the slot timer kept in the statics of
`pwmcontroller.c`: `pwm_initialized`, the skip counter, the slot index and the
three per-slot counters of the switch. -/
def slot_bookkeeping (p : PwmState) : Bool × Nat × Nat × Nat × Nat × Nat :=
  (p.pwm_initialized, p.skip_counter, p.current_slot, p.device_id_counter,
    p.natural_measure_counter, p.env_measure_counter)

/-- The node after `pwmcontroller_init` at boot followed by slot-timer ticks
only, one per environment of the list. -/
def ticks_from_init (esp_rom_crc16_le : Nat → AlgoConfigData → Nat) (init : InitEnv)
    (e : EcoState) (lc : LightCodeState) (envs : List TickEnv) : Sys :=
  sys_run esp_rom_crc16_le (sys_pwmcontroller_init init (sys_boot e lc))
    (envs.map SysOp.slot_tick)

/-! ## Definitions for the monotonicity claim -/

/-- The slow window left by the control cycle run on `s` at clock value
`now_us`: after a committing cycle its fields `enatural` and `eenv` hold the
normalised illuminances that `ecolumiuere_avg_calulator` computed at the
flush. -/
def committed_window (esp_rom_crc16_le : Nat → AlgoConfigData → Nat) (now_us : Nat)
    (s : Sys) : AlgoAvg :=
  (ecolumiere_algo_process esp_rom_crc16_le now_us s).eco.algo_avg

/-- The node `node_nine_cycles` after nine cycles in which the environment
average was 0: the environment sum of the slow window is 0. -/
def node_dark_environment : Sys :=
  { node_nine_cycles crc_zero with
    eco := { (node_nine_cycles crc_zero).eco with
      algo_avg := { (node_nine_cycles crc_zero).eco.algo_avg with env_sum := 0 } } }

/-- The state `eco_nine_cycles` with the lamp model at `pnew` = 32 and a stored
configuration whose target is 2000 lux (checksum valid for `crc_zero`). -/
def eco_at_ceiling : EcoState :=
  { eco_nine_cycles crc_zero with
    algo_config_data := { default_config with target_lux := 2000 }
    algo_data := { (eco_nine_cycles crc_zero).algo_data with pnew := 32 } }

/-- The node right after a successful `pwmcontroller_init`, with the
algorithm state `eco_at_ceiling`. -/
def node_at_ceiling : Sys :=
  sys_pwmcontroller_init init_ok (sys_boot eco_at_ceiling lc_boot)

end Ecolumiere

namespace Ecolumiere

/-! ## Optical decoder: lemmas -/

theorem check_loop_break (q : Nat → Nat) (n i : Nat) (st : CheckState)
    (h : i ≥ SENSE_QUEUE_SIZE) : check_loop q n i st = st := by
  cases n with
  | zero => rfl
  | succ n => simp [check_loop, h]

theorem check_loop_congr (q q' : Nat → Nat) (n i : Nat) (st : CheckState)
    (h : ∀ j, i ≤ j → j < i + n → q j = q' j) :
    check_loop q n i st = check_loop q' n i st := by
  induction n generalizing i st with
  | zero => rfl
  | succ n ih =>
    simp only [check_loop]
    split
    · rfl
    · have h0 : q i = q' i := h i (le_refl _) (by omega)
      have hs : check_step q st i = check_step q' st i := by simp [check_step, h0]
      rw [hs]
      exact ih (i + 1) _ (fun j h1 h2 => h j (by omega) (by omega))

theorem check_loop_add (q : Nat → Nat) (m n i : Nat) (st : CheckState) :
    check_loop q (m + n) i st = check_loop q n (i + m) (check_loop q m i st) := by
  induction m generalizing i st with
  | zero => simp [check_loop]
  | succ m ih =>
    rw [Nat.succ_add]
    simp only [check_loop]
    split
    · rename_i hi
      rw [check_loop_break q n (i + (m + 1)) st (by omega)]
    · rw [ih]
      congr 1
      omega

theorem check_step_bits (q : Nat → Nat) (st : CheckState) (i : Nat) :
    ((check_step q st i).bits = st.bits ∧ (check_step q st i).code = st.code) ∨
      (check_step q st i).bits = st.bits + 1 := by
  unfold check_step
  by_cases h1 : q i % 256 = st.bit_value <;> simp only [h1, if_true, if_false]
  · by_cases h2 : st.count + 1 ≥ 5 <;> simp [h2]
  · simp

theorem check_loop_bits_le (q : Nat → Nat) (n i : Nat) (st : CheckState) :
    st.bits ≤ (check_loop q n i st).bits := by
  induction n generalizing i st with
  | zero => simp [check_loop]
  | succ n ih =>
    simp only [check_loop]
    split
    · exact le_refl _
    · have h1 := ih (i + 1) (check_step q st i)
      rcases check_step_bits q st i with h | h <;> omega

theorem check_loop_code_eq (q : Nat → Nat) (n i : Nat) (st : CheckState)
    (h : (check_loop q n i st).bits = st.bits) : (check_loop q n i st).code = st.code := by
  induction n generalizing i st with
  | zero => simp [check_loop]
  | succ n ih =>
    simp only [check_loop] at h ⊢
    split
    · rfl
    · rename_i hi
      simp only [hi, if_false] at h
      have h1 := check_loop_bits_le q n (i + 1) (check_step q st i)
      rcases check_step_bits q st i with h2 | h2
      · rw [ih (i + 1) (check_step q st i) (by omega)]
        exact h2.2
      · omega

theorem check_loop_spec (q : Nat → Nat) (n i : Nat) (st : CheckState)
    (hi : i + n ≤ SENSE_QUEUE_SIZE) (hc : st.count < 5) :
    (check_loop q n i st).bits =
        st.bits + (spec_scan ((List.range' i n).map (fun j => q j % 256))
          st.bit_value st.count).length ∧
      (check_loop q n i st).code =
        pack_msb_from st.bits st.code
          (spec_scan ((List.range' i n).map (fun j => q j % 256)) st.bit_value st.count) := by
  induction n generalizing i st with
  | zero => simp [check_loop, spec_scan, pack_msb_from]
  | succ n ih =>
    have hlt : ¬ i ≥ SENSE_QUEUE_SIZE := by omega
    simp only [check_loop, hlt, if_false, List.range'_succ, List.map_cons, spec_scan]
    by_cases h1 : q i % 256 = st.bit_value
    · by_cases h2 : st.count + 1 = 5
      · have hs : check_step q st i =
            { count := 0, bits := st.bits + 1,
              code := if st.bits < 8 then (st.code ||| (st.bit_value <<< (7 - st.bits))) % 256
                      else st.code,
              bit_value := if st.bit_value ≠ 0 then 0 else 1 } := by
          simp [check_step, h1, h2]
        have := ih (i + 1) (check_step q st i) (by omega) (by simp [hs])
        rw [this.1, this.2, hs]
        simp only [h1, h2, if_true, List.length_cons, pack_msb_from]
        have hflip : (if st.bit_value = 0 then 1 else 0) =
            (if st.bit_value ≠ 0 then 0 else 1) := by
          by_cases hb : st.bit_value = 0 <;> simp [hb]
        rw [hflip]
        constructor
        · omega
        · trivial
      · have hs : check_step q st i = { st with count := st.count + 1 } := by
          have : ¬ st.count + 1 ≥ 5 := by omega
          simp [check_step, h1, this]
        have := ih (i + 1) (check_step q st i) (by omega) (by simp [hs]; omega)
        rw [this.1, this.2, hs]
        simp [h1, h2]
    · have hs : check_step q st i = { st with count := 0, bit_value := q i % 256 } := by
        simp [check_step, h1]
      have := ih (i + 1) (check_step q st i) (by omega) (by simp [hs])
      rw [this.1, this.2, hs]
      simp [h1]

theorem pack_msb_from_lt (bs : List Nat) (k acc : Nat) (h : acc < 256) :
    pack_msb_from k acc bs < 256 := by
  induction bs generalizing k acc with
  | nil => simpa [pack_msb_from] using h
  | cons b bs ih =>
    simp only [pack_msb_from]
    apply ih
    split
    · exact Nat.mod_lt _ (by norm_num)
    · exact h

theorem check_loop_runs_from_zero (q : Nat → Nat) (h : alternating_runs q 0) :
    check_loop q 35 20 check_init = { count := 0, bits := 7, code := 0x54, bit_value := 1 } := by
  have hq : check_loop q 35 20 check_init = check_loop runs_from_zero 35 20 check_init := by
    apply check_loop_congr
    intro j h1 h2
    have hk := h ((j - 20) / 5) (by omega) ((j - 20) % 5) (by omega)
    have hj : 20 + 5 * ((j - 20) / 5) + (j - 20) % 5 = j := by omega
    rw [hj] at hk
    have hr : runs_from_zero j = ((j - 20) / 5) % 2 := by
      simp only [runs_from_zero]
      rw [if_pos ⟨h1, by omega⟩]
    rw [hk, hr, Nat.zero_add]
  rw [hq]
  decide

/-! ## Optical decoder: claims C6, C7, C8 -/

/-- C6 (as amended): for every sample buffer whose indices 20..54 hold 7
alternating runs of 5 identical bits, the first run at level 0, and whose
remaining scanned samples (indices 55..79) make the scan emit no further bit,
`light_code_check` returns the 7 run levels packed MSB-first (run `k` at bit
`7 - k`) and masked with `LIGHT_CODE_MASK`, that is 0x54. -/
theorem light_code_check_round_trip (q : Nat → Nat) (h : alternating_runs q 0)
    (hno : scan_bits q 60 = scan_bits q 35) :
    light_code_check q =
        pack_msb ((List.range 7).map (fun k => (0 + k) % 2)) &&& LIGHT_CODE_MASK ∧
      light_code_check q = 0x54 := by
  have h35 := check_loop_runs_from_zero q h
  have hsplit : check_loop q 60 20 check_init =
      check_loop q 25 55 (check_loop q 35 20 check_init) := check_loop_add q 35 25 20 check_init
  have hbits : (check_loop q 60 20 check_init).bits = 7 := by
    have := hno
    simp only [scan_bits] at this
    rw [this, h35]
  have hcode : (check_loop q 60 20 check_init).code = 0x54 := by
    rw [hsplit]
    have hb : (check_loop q 25 55 (check_loop q 35 20 check_init)).bits =
        (check_loop q 35 20 check_init).bits := by
      rw [← hsplit, hbits, h35]
    rw [check_loop_code_eq q 25 55 _ hb, h35]
  have hres : light_code_check q = 0x54 := by
    simp only [light_code_check, hbits, hcode]
    decide
  refine ⟨?_, hres⟩
  rw [hres]
  decide

/-- Witness for C6 (as amended): the buffer `runs_from_zero`. -/
theorem light_code_check_round_trip_witness :
    alternating_runs runs_from_zero 0 ∧ scan_bits runs_from_zero 60 = scan_bits runs_from_zero 35 ∧
      light_code_check runs_from_zero = 0x54 :=
  ⟨by decide, by decide,
    (light_code_check_round_trip runs_from_zero (by decide) (by decide)).2⟩

/-- C6 (as stated) fails when the first run is at level 1: the buffer
`runs_from_one` holds 7 alternating runs of 5 from index 20, the samples
55..79 emit no further bit (the scan emits none at all), and the decoder
returns 0 where the packed and masked run levels are 0x2A. -/
theorem first_run_one_not_decoded :
    alternating_runs runs_from_one 1 ∧
      scan_bits runs_from_one 60 = scan_bits runs_from_one 35 ∧
      light_code_check runs_from_one = 0 ∧
      pack_msb ((List.range 7).map (fun k => (1 + k) % 2)) &&& LIGHT_CODE_MASK = 0x2A ∧
      light_code_check runs_from_one ≠
        pack_msb ((List.range 7).map (fun k => (1 + k) % 2)) &&& LIGHT_CODE_MASK := by
  refine ⟨by decide, by decide, by decide, by decide, by decide⟩

/-- C7: for a sample buffer that is all zeros and for one that is all ones,
`light_code_check` returns 0. -/
theorem light_code_check_constant_buffer (q : Nat → Nat)
    (h : (∀ i, i < SENSE_QUEUE_SIZE → q i = 0) ∨ (∀ i, i < SENSE_QUEUE_SIZE → q i = 1)) :
    light_code_check q = 0 := by
  rcases h with h | h
  · have hq : check_loop q 60 20 check_init = check_loop (fun _ => 0) 60 20 check_init :=
      check_loop_congr q _ 60 20 _ (fun j _ h2 => h j (by simp only [SENSE_QUEUE_SIZE]; omega))
    simp only [light_code_check, hq]
    decide
  · have hq : check_loop q 60 20 check_init = check_loop (fun _ => 1) 60 20 check_init :=
      check_loop_congr q _ 60 20 _ (fun j _ h2 => h j (by simp only [SENSE_QUEUE_SIZE]; omega))
    simp only [light_code_check, hq]
    decide

/-- Witness for C7: the all-zero buffer and the all-one buffer. -/
theorem light_code_check_constant_buffer_witness :
    light_code_check (fun _ => 0) = 0 ∧ light_code_check (fun _ => 1) = 0 :=
  ⟨light_code_check_constant_buffer (fun _ => 0) (Or.inl (fun _ _ => rfl)),
    light_code_check_constant_buffer (fun _ => 1) (Or.inr (fun _ _ => rfl))⟩

/-- C8: for every sample buffer `light_code_check` equals the specified
decoder: 0 when the run-length scan over the indices 20..79 emits fewer than
6 or more than 7 bits, the MSB-first accumulated code AND 0x7E when it emits 6
or 7; it is total and its value is a byte. -/
theorem light_code_check_refines_spec (q : Nat → Nat) :
    light_code_check q = spec_light_code q ∧ light_code_check q < 256 := by
  have hs := check_loop_spec q 60 20 check_init (by decide) (by decide)
  have heq : light_code_check q = spec_light_code q := by
    simp only [light_code_check, spec_light_code, scanned_samples, pack_msb, LIGHT_CODE_MASK]
    rw [hs.1, hs.2]
    simp [check_init]
  refine ⟨heq, ?_⟩
  simp only [light_code_check]
  split
  · norm_num
  · exact lt_of_le_of_lt Nat.and_le_right (by decide)

/-! ## PWM controller: safety invariant -/

theorem PwmInv_congr {p q : PwmState} (h : PwmInv p) (h1 : q.target_duty = p.target_duty)
    (h2 : q.light_level = p.light_level) (h3 : q.ledc_duty_writes = p.ledc_duty_writes) :
    PwmInv q := by
  unfold PwmInv at *
  rw [h1, h2, h3]
  exact h

theorem sum_on_le (p : PwmState) : sum_on p ≤ PWM_SEQUENCE_LEN := by
  unfold sum_on
  exact le_trans (List.length_filter_le _ _) (by simp)

theorem pwm_set_duty_cycle_inv (d : Nat) (p : PwmState) (h : PwmInv p) :
    PwmInv (pwm_set_duty_cycle d p) := by
  unfold pwm_set_duty_cycle
  split
  · exact h
  · refine ⟨?_, h.2.1, h.2.2⟩
    simp only [LIGHT_MAX_LEVEL]
    split <;> omega

theorem apply_fade_inv (p : PwmState) (h : PwmInv p) : PwmInv (apply_fade p) := by
  obtain ⟨h1, h2, h3⟩ := h
  simp only [LIGHT_MAX_LEVEL] at h1 h2
  unfold apply_fade
  by_cases hlt : p.light_level < p.target_duty
  · simp only [hlt, if_true]
    split
    · refine ⟨h1, ?_, h3⟩
      simp only [LIGHT_MAX_LEVEL]
      omega
    · refine ⟨h1, ?_, h3⟩
      simp only [LIGHT_MAX_LEVEL]
      omega
  · simp only [hlt, if_false]
    split
    · refine ⟨h1, ?_, h3⟩
      simp only [LIGHT_MAX_LEVEL]
      omega
    · exact ⟨h1, h2, h3⟩

theorem write_sequence_inv (p : PwmState) (l : List Nat) (h : PwmInv p) :
    PwmInv (write_sequence p l) := by
  unfold write_sequence
  split <;> exact h

theorem pwm_sequence_update_inv (ev : Nat) (p : PwmState) (h : PwmInv p) :
    PwmInv (pwm_sequence_update ev p) :=
  write_sequence_inv p _ h

theorem pwm_apply_current_sequence_inv (p : PwmState) (h : PwmInv p) :
    PwmInv (pwm_apply_current_sequence p) := by
  unfold pwm_apply_current_sequence
  split
  · exact h
  · dsimp only
    split
    · refine ⟨h.1, h.2.1, ?_⟩
      intro d hd
      simp only [List.mem_append, List.mem_singleton] at hd
      rcases hd with hd | hd
      · exact h.2.2 d hd
      · have hs := sum_on_le p
        simp only [PWM_SEQUENCE_LEN] at hs
        have hm : (sum_on p * PWM_MAX_VALUE) % 4294967296 = sum_on p * PWM_MAX_VALUE :=
          Nat.mod_eq_of_lt (by simp only [PWM_MAX_VALUE]; omega)
        rw [hd, hm]
        simp only [PWM_SEQUENCE_LEN, PWM_MAX_VALUE]
        omega
    · exact h

theorem pwm_apply_phase_controlled_duty_inv (p : PwmState) (h : PwmInv p) :
    PwmInv (pwm_apply_phase_controlled_duty p) := by
  unfold pwm_apply_phase_controlled_duty
  split
  · exact h
  · exact pwm_apply_current_sequence_inv p h

theorem pwm_advance_slot_inv (p : PwmState) (h : PwmInv p) : PwmInv (pwm_advance_slot p) :=
  h

theorem tick_fade_inv (p : PwmState) (h : PwmInv p) : PwmInv (tick_fade p) := by
  unfold tick_fade
  dsimp only
  split
  · exact apply_fade_inv _ (by exact h)
  · exact h

theorem tick_sequence_inv (p : PwmState) (h : PwmInv p) : PwmInv (tick_sequence p) := by
  unfold tick_sequence
  dsimp only
  split
  · exact pwm_apply_current_sequence_inv _ (pwm_sequence_update_inv _ _ (by exact h))
  · exact h

theorem tick_log_inv (p : PwmState) (h : PwmInv p) : PwmInv (tick_log p) := by
  unfold tick_log
  dsimp only
  split <;> exact h

theorem ecolumiere_algo_process_pwm (f : Nat → AlgoConfigData → Nat) (now : Nat) (s : Sys) :
    (ecolumiere_algo_process f now s).pwm = s.pwm ∨
      ∃ d, (ecolumiere_algo_process f now s).pwm = pwm_set_duty_cycle d s.pwm := by
  unfold ecolumiere_algo_process
  dsimp only
  split
  · exact Or.inl rfl
  · split
    · exact Or.inl rfl
    · exact Or.inr ⟨_, rfl⟩

theorem ecolumiere_algo_process_inv (f : Nat → AlgoConfigData → Nat) (now : Nat) (s : Sys)
    (h : PwmInv s.pwm) : PwmInv (ecolumiere_algo_process f now s).pwm := by
  rcases ecolumiere_algo_process_pwm f now s with h1 | ⟨d, h1⟩
  · rw [h1]; exact h
  · rw [h1]; exact pwm_set_duty_cycle_inv d _ h

theorem ecolumiere_update_lux_inv (f : Nat → AlgoConfigData → Nat) (now : Nat)
    (ev : AlgoSchedEvent) (s : Sys) (h : PwmInv s.pwm) :
    PwmInv (ecolumiere_update_lux f now ev s).pwm := by
  unfold ecolumiere_update_lux
  dsimp only
  split_ifs
  all_goals first
    | exact h
    | exact ecolumiere_algo_process_inv f now _ (by exact h)

theorem pwmcontroller_set_level_inv (f : Nat → AlgoConfigData → Nat) (l : Nat) (s : Sys)
    (h : PwmInv s.pwm) : PwmInv (pwmcontroller_set_level f l s).pwm :=
  pwm_set_duty_cycle_inv _ _ (by exact h)

theorem handle_natural_light_slot_inv (f : Nat → AlgoConfigData → Nat) (env : TickEnv)
    (s : Sys) (h : PwmInv s.pwm) : PwmInv (handle_natural_light_slot f env s).pwm := by
  unfold handle_natural_light_slot
  dsimp only
  split
  · exact ecolumiere_update_lux_inv f _ _ _ (by exact h)
  · exact h

theorem handle_env_light_slot_inv (f : Nat → AlgoConfigData → Nat) (env : TickEnv)
    (s : Sys) (h : PwmInv s.pwm) : PwmInv (handle_env_light_slot f env s).pwm := by
  unfold handle_env_light_slot
  dsimp only
  split
  · exact ecolumiere_algo_process_inv f _ _ (ecolumiere_update_lux_inv f _ _ _ (by exact h))
  · exact h

theorem handle_device_id_slot_inv (f : Nat → AlgoConfigData → Nat) (env : TickEnv)
    (s : Sys) (h : PwmInv s.pwm) : PwmInv (handle_device_id_slot f env s).pwm := by
  unfold handle_device_id_slot
  exact ecolumiere_update_lux_inv f _ _ _ (by exact h)

theorem tick_switch_inv (f : Nat → AlgoConfigData → Nat) (env : TickEnv) (slot : Nat) (s : Sys)
    (h : PwmInv s.pwm) : PwmInv (tick_switch f env slot s).pwm := by
  unfold tick_switch
  dsimp only
  split_ifs
  all_goals first
    | exact h
    | exact handle_device_id_slot_inv f env _ (by exact h)
    | exact handle_natural_light_slot_inv f env _ (by exact h)
    | exact handle_env_light_slot_inv f env _ (by exact h)

theorem slot_timer_callback_inv (f : Nat → AlgoConfigData → Nat) (env : TickEnv) (s : Sys)
    (h : PwmInv s.pwm) : PwmInv (slot_timer_callback f env s).pwm := by
  unfold slot_timer_callback
  dsimp only
  split
  · exact h
  · split
    · exact h
    · apply tick_log_inv
      apply pwm_advance_slot_inv
      apply tick_sequence_inv
      apply tick_switch_inv
      apply tick_fade_inv
      exact h

theorem zero_cross_isr_inv (now : Nat) (s : Sys) (h : PwmInv s.pwm) :
    PwmInv (zero_cross_isr now s).pwm := by
  unfold zero_cross_isr
  dsimp only
  split
  · exact h
  · split
    · exact h
    · split
      · exact pwm_apply_phase_controlled_duty_inv _ (by exact h)
      · exact h

theorem phase_timer_fire_inv (s : Sys) (h : PwmInv s.pwm) : PwmInv (phase_timer_fire s).pwm := by
  unfold phase_timer_fire
  split
  · exact h
  · exact pwm_apply_phase_controlled_duty_inv _ (by exact h)

theorem sys_step_inv (f : Nat → AlgoConfigData → Nat) (s : Sys) (op : SysOp)
    (h : PwmInv s.pwm) : PwmInv (sys_step f s op).pwm := by
  cases op with
  | set_duty_cycle d => exact pwm_set_duty_cycle_inv d _ h
  | set_level l => exact pwmcontroller_set_level_inv f l s h
  | fade => exact apply_fade_inv _ h
  | slot_tick env => exact slot_timer_callback_inv f env s h
  | zero_cross t => exact zero_cross_isr_inv t s h
  | phase_timer_expiry => exact phase_timer_fire_inv s h

theorem sys_run_inv (f : Nat → AlgoConfigData → Nat) (ops : List SysOp) (s : Sys)
    (h : PwmInv s.pwm) : PwmInv (sys_run f s ops).pwm := by
  induction ops generalizing s with
  | nil => exact h
  | cons op ops ih => exact ih _ (sys_step_inv f s op h)

theorem pwmcontroller_init_inv (env : InitEnv) : PwmInv (pwmcontroller_init env pwm_state_boot) := by
  unfold pwmcontroller_init
  simp only [pwm_state_boot]
  split_ifs <;> simp [PwmInv]

/-! ## PWM controller: claim C1 -/

/-- C1: in every state reachable from `pwmcontroller_init` (whatever the
outcome of its driver calls) by any sequence of `pwm_set_duty_cycle(d)`,
`pwmcontroller_set_level`, `pwm_fade` and slot-timer ticks (and of zero-cross
edges and phase-timer expiries), `target_duty` and `light_level` are at most
`LIGHT_MAX_LEVEL` = 32 and every duty value written to the PWM hardware by
`pwm_apply_current_sequence` is at most `PWM_MAX_VALUE` = 8191. -/
theorem pwm_levels_and_hardware_duty_bounded (esp_rom_crc16_le : Nat → AlgoConfigData → Nat)
    (env : InitEnv) (e : EcoState) (lc : LightCodeState) (ops : List SysOp) :
    (sys_run esp_rom_crc16_le (sys_pwmcontroller_init env (sys_boot e lc)) ops).pwm.target_duty
        ≤ 32 ∧
      (sys_run esp_rom_crc16_le (sys_pwmcontroller_init env (sys_boot e lc)) ops).pwm.light_level
        ≤ 32 ∧
      ∀ d ∈ (sys_run esp_rom_crc16_le
          (sys_pwmcontroller_init env (sys_boot e lc)) ops).pwm.ledc_duty_writes, d ≤ 8191 :=
  sys_run_inv esp_rom_crc16_le ops _ (pwmcontroller_init_inv env)

/-! ## Event scheduler: lemmas -/

theorem pending_calls_append (q : List SchedulerEvent) (ev : SchedulerEvent) :
    pending_calls (q ++ [ev]) = pending_calls q ++ handler_call ev := by
  simp [pending_calls, List.flatMap_append]

theorem pending_calls_cons (q : List SchedulerEvent) (ev : SchedulerEvent) :
    pending_calls (ev :: q) = handler_call ev ++ pending_calls q := by
  simp [pending_calls, List.flatMap_cons]

theorem scheduler_task_function_spec (q : List SchedulerEvent) (n : Nat) (w : SchedWorld)
    (hq : w.ctx.event_queue = q) (hn : q.length ≤ n) :
    (scheduler_task_function n w).calls = w.calls ++ pending_calls q ∧
      (scheduler_task_function n w).ctx.event_queue = [] ∧
      (scheduler_task_function n w).ctx.events_dropped = w.ctx.events_dropped ∧
      (scheduler_task_function n w).ctx.initialized = w.ctx.initialized := by
  induction q generalizing n w with
  | nil =>
    cases n with
    | zero => simp [scheduler_task_function, pending_calls, hq]
    | succ n => simp [scheduler_task_function, xQueueReceive, pending_calls, hq]
  | cons ev q ih =>
    cases n with
    | zero => simp at hn
    | succ n =>
      have hr : xQueueReceive w.ctx = some (ev, { w.ctx with event_queue := q }) := by
        simp [xQueueReceive, hq]
      simp only [scheduler_task_function, hr]
      have := ih n (process_event ev { w with ctx := { w.ctx with event_queue := q } }) rfl
        (by simpa using hn)
      obtain ⟨h1, h2, h5, h6⟩ := this
      refine ⟨?_, h2, ?_, ?_⟩
      · rw [h1, pending_calls_cons]
        simp [process_event, List.append_assoc]
      · rw [h5]; rfl
      · rw [h6]; rfl

theorem scheduler_task_function_processed (q : List SchedulerEvent) (n : Nat) (w : SchedWorld)
    (hq : w.ctx.event_queue = q) (hn : q.length ≤ n)
    (hp : w.ctx.events_processed + q.length < 4294967296) :
    (scheduler_task_function n w).ctx.events_processed = w.ctx.events_processed + q.length := by
  induction q generalizing n w with
  | nil =>
    cases n with
    | zero => simp [scheduler_task_function]
    | succ n => simp [scheduler_task_function, xQueueReceive, hq]
  | cons ev q ih =>
    cases n with
    | zero => simp at hn
    | succ n =>
      have hr : xQueueReceive w.ctx = some (ev, { w.ctx with event_queue := q }) := by
        simp [xQueueReceive, hq]
      simp only [scheduler_task_function, hr]
      simp only [List.length_cons] at hp hn
      have hm : (w.ctx.events_processed + 1) % 4294967296 = w.ctx.events_processed + 1 :=
        Nat.mod_eq_of_lt (by omega)
      rw [ih n (process_event ev { w with ctx := { w.ctx with event_queue := q } }) rfl
        (by omega) (by simp only [process_event]; rw [hm]; omega)]
      simp only [process_event, List.length_cons]
      rw [hm]
      omega

theorem put_invalid_state (p : Option Nat) (n t : Nat) (h : Option Nat) (m : Bool) (k : Nat)
    (w : SchedWorld) (hi : w.ctx.initialized = false) :
    scheduler_put_event p n t h m k w = (w, EspErr.ESP_ERR_INVALID_STATE) := by
  simp [scheduler_put_event, hi]

theorem put_invalid_size (p : Option Nat) (n t : Nat) (h : Option Nat) (m : Bool) (k : Nat)
    (w : SchedWorld) (hi : w.ctx.initialized = true) (hs : n % 65536 > w.ctx.max_event_size) :
    scheduler_put_event p n t h m k w = (w, EspErr.ESP_ERR_INVALID_SIZE) := by
  simp [scheduler_put_event, hi, hs]

theorem put_no_mem (p : Option Nat) (n t : Nat) (h : Option Nat) (m : Bool) (k : Nat)
    (w : SchedWorld) (hi : w.ctx.initialized = true) (hs : ¬ n % 65536 > w.ctx.max_event_size)
    (hm : n % 65536 > 0 ∧ p.isSome ∧ m = false) :
    scheduler_put_event p n t h m k w = (w, EspErr.ESP_ERR_NO_MEM) := by
  unfold scheduler_put_event
  simp only [hi, hs, hm, if_false, if_true, and_self]
  simp

theorem put_queued (p : Option Nat) (n t : Nat) (h : Option Nat) (m : Bool) (k : Nat)
    (w : SchedWorld) (hi : w.ctx.initialized = true) (hs : ¬ n % 65536 > w.ctx.max_event_size)
    (hm : ¬ (n % 65536 > 0 ∧ p.isSome ∧ m = false))
    (hq : w.ctx.event_queue.length < w.ctx.queue_size) :
    scheduler_put_event p n t h m k w =
      ({ w with ctx := { w.ctx with event_queue := w.ctx.event_queue ++
          [{ type := t, timestamp := k % 4294967296,
             p_event_data := copy_payload w.mem p (n % 65536),
             event_size := n % 65536, handler := h }] } }, EspErr.ESP_OK) := by
  unfold scheduler_put_event
  simp only [hi, hs, hm, if_false, xQueueSend, hq, if_true]
  simp

theorem put_dropped (p : Option Nat) (n t : Nat) (h : Option Nat) (m : Bool) (k : Nat)
    (w : SchedWorld) (hi : w.ctx.initialized = true) (hs : ¬ n % 65536 > w.ctx.max_event_size)
    (hm : ¬ (n % 65536 > 0 ∧ p.isSome ∧ m = false))
    (hq : ¬ w.ctx.event_queue.length < w.ctx.queue_size) :
    scheduler_put_event p n t h m k w =
      ({ w with ctx := { w.ctx with
          events_dropped := (w.ctx.events_dropped + 1) % 4294967296 } }, EspErr.ESP_FAIL) := by
  unfold scheduler_put_event
  simp only [hi, hs, hm, if_false, xQueueSend, hq]
  simp

theorem read_bytes_eq_take (buf : List Nat) (n : Nat) :
    read_bytes buf n = List.take n (buf.map (fun b => b % 256) ++ List.replicate n 0) := by
  unfold read_bytes
  apply List.ext_getElem?
  intro i
  by_cases hi : i < n
  · by_cases hb : i < buf.length
    · simp [List.getElem?_take, List.getElem?_append, hi, hb, List.getD_eq_getElem?_getD]
      rw [List.getElem_append_left (by simpa using hb)]
      simp
    · have hb2 : buf.length ≤ i := by omega
      have h3 : i - buf.length < n := by omega
      simp [List.getElem?_take, List.getElem?_append, hi, hb, hb2, h3,
        List.getD_eq_getElem?_getD, List.getElem?_eq_none hb2]
      rw [List.getElem_append_right (by simpa using hb2)]
      simp
  · have hn : n ≤ i := by omega
    simp [List.getElem?_take, hi, hn]

theorem copy_payload_eq (mem : Nat → List Nat) (p : Option Nat) (n : Nat) :
    copy_payload mem p n = submitted_payload mem p n := by
  unfold copy_payload submitted_payload
  cases p with
  | none => rfl
  | some a =>
    by_cases h : n = 0
    · simp [h]
    · have h2 : n > 0 := by omega
      simp only [h2, if_true, h, if_false]
      rw [read_bytes_eq_take]

theorem submitted_payload_take (mem : Nat → List Nat) (a size : Nat) (h0 : 0 < size)
    (hlen : size ≤ (mem a).length) (hb : ∀ b ∈ mem a, b < 256) :
    submitted_payload mem (some a) size = some ((mem a).take size) := by
  unfold submitted_payload
  have h : ¬ size = 0 := by omega
  simp only [h, if_false]
  have hm : (mem a).map (fun b => b % 256) = mem a := by
    conv_rhs => rw [← List.map_id (mem a)]
    apply List.map_congr_left
    intro b hbm
    exact Nat.mod_eq_of_lt (hb b hbm)
  rw [hm, List.take_append_of_le_length hlen]

theorem owed_calls_step (w : SchedWorld) (op : SchedOp) :
    owed_calls (sched_step w op) = owed_calls w ++ accepted_calls w [op] := by
  cases op with
  | put p n t h m k =>
    simp only [sched_step, accepted_calls, List.append_nil]
    by_cases hi : w.ctx.initialized = true
    · by_cases hs : n % 65536 > w.ctx.max_event_size
      · simp [put_invalid_size p n t h m k w hi hs]
      · by_cases hm : n % 65536 > 0 ∧ p.isSome ∧ m = false
        · simp [put_no_mem p n t h m k w hi hs hm]
        · by_cases hq : w.ctx.event_queue.length < w.ctx.queue_size
          · rw [put_queued p n t h m k w hi hs hm hq]
            simp only [owed_calls, pending_calls_append, if_true, List.append_assoc,
              handler_call, copy_payload_eq]
          · simp [put_dropped p n t h m k w hi hs hm hq, owed_calls]
    · simp [put_invalid_state p n t h m k w (by simpa using hi)]
  | write a bs => simp [sched_step, accepted_calls, owed_calls]
  | dispatch =>
    simp only [sched_step, accepted_calls, List.append_nil, scheduler_task_function]
    cases hq : w.ctx.event_queue with
    | nil => simp [xQueueReceive, hq]
    | cons ev q =>
      simp [xQueueReceive, hq, owed_calls, process_event, pending_calls_cons, List.append_assoc]

theorem accepted_calls_cons (w : SchedWorld) (op : SchedOp) (ops : List SchedOp) :
    accepted_calls w (op :: ops) = accepted_calls w [op] ++ accepted_calls (sched_step w op) ops := by
  cases op <;> simp [accepted_calls]

theorem owed_calls_run (ops : List SchedOp) (w : SchedWorld) :
    owed_calls (sched_run w ops) = owed_calls w ++ accepted_calls w ops := by
  induction ops generalizing w with
  | nil => simp [sched_run, accepted_calls]
  | cons op ops ih =>
    have : sched_run w (op :: ops) = sched_run (sched_step w op) ops := rfl
    rw [this, ih, owed_calls_step, accepted_calls_cons w op ops, List.append_assoc]

theorem scheduler_drain_calls (w : SchedWorld) : (scheduler_drain w).calls = owed_calls w :=
  (scheduler_task_function_spec _ _ w rfl (le_refl _)).1

theorem drained_calls_eq_accepted (queue_size max_event_size : Nat)
    (mem : Nat → List Nat) (ops : List SchedOp) :
    (scheduler_drain (sched_run (sched_boot queue_size max_event_size mem) ops)).calls =
      accepted_calls (sched_boot queue_size max_event_size mem) ops := by
  have h := owed_calls_run ops (sched_boot queue_size max_event_size mem)
  have h0 : owed_calls (sched_boot queue_size max_event_size mem) = [] := by
    simp [owed_calls, sched_boot, scheduler_init, scheduler_context_boot, pending_calls]
  rw [h0, List.nil_append] at h
  rw [scheduler_drain_calls, h]

theorem sched_run_cons (w : SchedWorld) (op : SchedOp) (ops : List SchedOp) :
    sched_run w (op :: ops) = sched_run (sched_step w op) ops := rfl

theorem sched_run_counts (ops : List SchedOp) (w : SchedWorld) (M : Nat)
    (hi : w.ctx.initialized = true) (hM : w.ctx.max_event_size = M % 4294967296)
    (hd : w.ctx.events_dropped = 0)
    (hcap : w.ctx.event_queue.length + submissions ops ≤ w.ctx.queue_size)
    (hlt : w.ctx.events_processed + w.ctx.event_queue.length + submissions ops < 4294967296)
    (hsz : sizes_within M ops) (hal : allocations_succeed ops) :
    (sched_run w ops).ctx.events_dropped = 0 ∧
      (sched_run w ops).ctx.events_processed + (sched_run w ops).ctx.event_queue.length =
        w.ctx.events_processed + w.ctx.event_queue.length + submissions ops ∧
      accepted_calls w ops = submitted_calls w.mem ops := by
  induction ops generalizing w with
  | nil => simp [sched_run, submissions, accepted_calls, submitted_calls, hd]
  | cons op ops ih =>
    rw [sched_run_cons]
    cases op with
    | put p n t h m k =>
      simp only [submissions, sizes_within, allocations_succeed] at hcap hlt hsz hal
      have hs : ¬ n % 65536 > w.ctx.max_event_size := by rw [hM]; omega
      have hm : ¬ (n % 65536 > 0 ∧ p.isSome ∧ m = false) := by simp [hal.1]
      have hq : w.ctx.event_queue.length < w.ctx.queue_size := by omega
      have hput := put_queued p n t h m k w hi hs hm hq
      have hstep : sched_step w (SchedOp.put p n t h m k) = _ := congrArg Prod.fst hput
      have := ih (sched_step w (SchedOp.put p n t h m k))
        (by rw [hstep]; exact hi) (by rw [hstep]; exact hM) (by rw [hstep]; exact hd)
        (by rw [hstep]; simp only [List.length_append, List.length_singleton]; omega)
        (by rw [hstep]; simp only [List.length_append, List.length_singleton]; omega)
        hsz.2 hal.2
      obtain ⟨h1, h2, h3⟩ := this
      refine ⟨h1, ?_, ?_⟩
      · rw [h2, hstep]
        simp only [List.length_append, List.length_singleton, submissions]
        omega
      · simp only [accepted_calls, submitted_calls, hput, if_true]
        rw [h3, hstep]
    | write a bs =>
      simp only [submissions, sizes_within, allocations_succeed] at hcap hlt hsz hal
      have := ih (sched_step w (SchedOp.write a bs)) hi hM hd hcap hlt hsz hal
      obtain ⟨h1, h2, h3⟩ := this
      refine ⟨h1, ?_, ?_⟩
      · rw [h2]; simp [sched_step, submissions]
      · simp only [accepted_calls, submitted_calls]
        rw [h3]; rfl
    | dispatch =>
      simp only [submissions, sizes_within, allocations_succeed] at hcap hlt hsz hal
      cases hq : w.ctx.event_queue with
      | nil =>
        have hstep : sched_step w SchedOp.dispatch = w := by
          simp [sched_step, scheduler_task_function, xQueueReceive, hq]
        have := ih w hi hM hd hcap hlt hsz hal
        rw [hstep]
        obtain ⟨h1, h2, h3⟩ := this
        refine ⟨h1, ?_, ?_⟩
        · rw [h2]; simp [submissions, hq]
        · simp only [accepted_calls, submitted_calls, hstep]
          exact h3
      | cons ev q =>
        rw [hq] at hcap hlt
        simp only [List.length_cons] at hcap hlt
        have hstep : sched_step w SchedOp.dispatch =
            process_event ev { w with ctx := { w.ctx with event_queue := q } } := by
          simp [sched_step, scheduler_task_function, xQueueReceive, hq]
        have hm : (w.ctx.events_processed + 1) % 4294967296 = w.ctx.events_processed + 1 :=
          Nat.mod_eq_of_lt (by omega)
        have := ih (sched_step w SchedOp.dispatch)
          (by rw [hstep]; exact hi) (by rw [hstep]; exact hM) (by rw [hstep]; exact hd)
          (by rw [hstep]; simp only [process_event]; omega)
          (by rw [hstep]; simp only [process_event]; rw [hm]; omega)
          hsz hal
        obtain ⟨h1, h2, h3⟩ := this
        refine ⟨h1, ?_, ?_⟩
        · rw [h2, hstep]
          simp only [process_event, List.length_cons, submissions]
          rw [hm]
          omega
        · simp only [accepted_calls, submitted_calls]
          rw [h3, hstep]
          rfl

/-! ## Event scheduler: claims C2 to C5 -/

/-- C2 (as amended): for every sequence of `scheduler_put_event` calls on a
freshly initialised scheduler whose number does not exceed the queue capacity,
each payload within `max_event_size` and each payload copy allocated, after
the dispatcher has drained the queue `events_processed + events_dropped`
equals the number of submissions (nothing was dropped), and the handler of
every submitted event has been invoked exactly once, in order, with a payload
byte-for-byte equal to the one passed at submission: `submitted_payload`, the
first `size` bytes its buffer held when it was submitted (for a buffer of
bytes that is long enough, the list `take size` of the buffer).  On the
operations `demo_ops` the handlers receive 1, 2, 3, 4 and then 9, 9. -/
theorem scheduler_counts_after_drain (queue_size max_event_size : Nat) (mem : Nat → List Nat)
    (ops : List SchedOp) (hcap : submissions ops ≤ queue_size % 4294967296)
    (hsz : sizes_within max_event_size ops) (hal : allocations_succeed ops) :
    (scheduler_drain (sched_run (sched_boot queue_size max_event_size mem) ops)).ctx.events_processed
        + (scheduler_drain
            (sched_run (sched_boot queue_size max_event_size mem) ops)).ctx.events_dropped
        = submissions ops ∧
      (scheduler_drain (sched_run (sched_boot queue_size max_event_size mem) ops)).ctx.events_dropped
        = 0 ∧
      (scheduler_drain (sched_run (sched_boot queue_size max_event_size mem) ops)).ctx.event_queue
        = [] ∧
      (scheduler_drain (sched_run (sched_boot queue_size max_event_size mem) ops)).calls
        = submitted_calls mem ops ∧
      (∀ (m : Nat → List Nat) (a size : Nat), 0 < size → size ≤ (m a).length →
        (∀ b ∈ m a, b < 256) → submitted_payload m (some a) size = some ((m a).take size)) ∧
      (scheduler_drain (sched_run (sched_boot 2 4 demo_mem) demo_ops)).calls
        = [{ handler := 7, data := some [1, 2, 3, 4], size := 4 },
           { handler := 8, data := some [9, 9], size := 2 }] := by
  have hlt : queue_size % 4294967296 < 4294967296 := Nat.mod_lt _ (by norm_num)
  have hc := sched_run_counts ops (sched_boot queue_size max_event_size mem) max_event_size
    rfl rfl rfl
    (by simp only [sched_boot, scheduler_init, scheduler_context_boot]; simpa using hcap)
    (by simp only [sched_boot, scheduler_init, scheduler_context_boot]; simp; omega)
    hsz hal
  obtain ⟨h1, h2, h3⟩ := hc
  have hb : (sched_boot queue_size max_event_size mem).ctx.events_processed +
      (sched_boot queue_size max_event_size mem).ctx.event_queue.length = 0 := by
    simp [sched_boot, scheduler_init, scheduler_context_boot]
  rw [hb, Nat.zero_add] at h2
  have hs := scheduler_task_function_spec _ _
    (sched_run (sched_boot queue_size max_event_size mem) ops) rfl (le_refl _)
  have hp := scheduler_task_function_processed _ _
    (sched_run (sched_boot queue_size max_event_size mem) ops) rfl (le_refl _) (by omega)
  have hdrop : (scheduler_drain
      (sched_run (sched_boot queue_size max_event_size mem) ops)).ctx.events_dropped = 0 := by
    unfold scheduler_drain
    rw [hs.2.2.1, h1]
  refine ⟨?_, hdrop, hs.2.1, ?_, submitted_payload_take, by decide⟩
  · rw [hdrop]
    unfold scheduler_drain
    rw [hp, h2]
    rfl
  · have hf := (drained_calls_eq_accepted queue_size
      max_event_size mem ops)
    rw [hf, h3]
    rfl

/-- C3: the dispatcher delivers events in strict FIFO order.  From a freshly
initialised scheduler and along any interleaving of submissions, producer
writes and receptions, the handler invocations made at any moment are an
initial segment of the list of accepted submissions (in submission order,
each with `submitted_payload`, the first `size` bytes its buffer held at
submit time), and once the queue is drained they are exactly that list: the
event submitted first is handled first, none is delivered twice, and a later
change of the producer's buffer is not observed.  For a buffer of bytes that
is long enough the payload is the list `take size` of the buffer; on the
operations `demo_ops` (4 bytes submitted from a buffer holding 1, 2, 3, 4, the
buffer overwritten with 9, 9, 9, 9, then 2 bytes submitted from it) the
handlers receive 1, 2, 3, 4 and then 9, 9. -/
theorem scheduler_delivers_fifo_once_with_submit_time_copy (queue_size max_event_size : Nat)
    (mem : Nat → List Nat) (ops : List SchedOp) :
    (sched_run (sched_boot queue_size max_event_size mem) ops).calls <+:
        accepted_calls (sched_boot queue_size max_event_size mem) ops ∧
      (scheduler_drain (sched_run (sched_boot queue_size max_event_size mem) ops)).calls =
        accepted_calls (sched_boot queue_size max_event_size mem) ops ∧
      (scheduler_drain (sched_run (sched_boot queue_size max_event_size mem) ops)).ctx.event_queue
        = [] ∧
      (∀ (m : Nat → List Nat) (a size : Nat), 0 < size → size ≤ (m a).length →
        (∀ b ∈ m a, b < 256) → submitted_payload m (some a) size = some ((m a).take size)) ∧
      (scheduler_drain (sched_run (sched_boot 2 4 demo_mem) demo_ops)).calls
        = [{ handler := 7, data := some [1, 2, 3, 4], size := 4 },
           { handler := 8, data := some [9, 9], size := 2 }] := by
  have h := owed_calls_run ops (sched_boot queue_size max_event_size mem)
  have h0 : owed_calls (sched_boot queue_size max_event_size mem) = [] := by
    simp [owed_calls, sched_boot, scheduler_init, scheduler_context_boot, pending_calls]
  rw [h0, List.nil_append] at h
  refine ⟨?_, ?_, ?_, submitted_payload_take, by decide⟩
  · rw [← h]
    exact List.prefix_append _ _
  · rw [scheduler_drain_calls, h]
  · exact (scheduler_task_function_spec _ _ _ rfl (le_refl _)).2.1

/-- Witness for C3: on the operations `demo_ops` the calls made after the
drain are the accepted submissions, and the payload owed to a 4-byte
submission from the buffer at address 0 is the list of its first 4 bytes. -/
theorem scheduler_delivers_fifo_once_with_submit_time_copy_witness :
    (scheduler_drain (sched_run (sched_boot 2 4 demo_mem) demo_ops)).calls =
        accepted_calls (sched_boot 2 4 demo_mem) demo_ops ∧
      submitted_payload demo_mem (some 0) 4 = some ((demo_mem 0).take 4) ∧
      accepted_calls (sched_boot 2 4 demo_mem) demo_ops
        = [{ handler := 7, data := some [1, 2, 3, 4], size := 4 },
           { handler := 8, data := some [9, 9], size := 2 }] :=
  ⟨(scheduler_delivers_fifo_once_with_submit_time_copy 2 4 demo_mem demo_ops).2.1,
    (scheduler_delivers_fifo_once_with_submit_time_copy 2 4 demo_mem demo_ops).2.2.2.1
      demo_mem 0 4 (by decide) (by decide) (by decide),
    by decide⟩

/-- Witness for C2 (as amended): two submissions to a queue of capacity 2, the
producer's buffer being overwritten between them; the handlers receive the
bytes 1, 2, 3, 4 and then 9, 9. -/
theorem scheduler_counts_after_drain_witness :
    submissions demo_ops ≤ 2 % 4294967296 ∧ sizes_within 4 demo_ops ∧
      allocations_succeed demo_ops ∧
      (scheduler_drain (sched_run (sched_boot 2 4 demo_mem) demo_ops)).ctx.events_processed
        + (scheduler_drain (sched_run (sched_boot 2 4 demo_mem) demo_ops)).ctx.events_dropped
        = submissions demo_ops ∧
      (scheduler_drain (sched_run (sched_boot 2 4 demo_mem) demo_ops)).calls
        = submitted_calls demo_mem demo_ops ∧
      submitted_calls demo_mem demo_ops
        = [{ handler := 7, data := some [1, 2, 3, 4], size := 4 },
           { handler := 8, data := some [9, 9], size := 2 }] :=
  ⟨by decide, by simp [sizes_within, demo_ops], by simp [allocations_succeed, demo_ops],
    (scheduler_counts_after_drain 2 4 demo_mem demo_ops (by decide)
      (by simp [sizes_within, demo_ops]) (by simp [allocations_succeed, demo_ops])).1,
    (scheduler_counts_after_drain 2 4 demo_mem demo_ops (by decide)
      (by simp [sizes_within, demo_ops]) (by simp [allocations_succeed, demo_ops])).2.2.2.1,
    by decide⟩

/-- C2 (as stated) fails when `malloc` returns NULL: one submission of 4
bytes to a fresh scheduler of capacity 2 (`max_event_size` 4) is within the
capacity and the size limit, yet it returns `ESP_ERR_NO_MEM` and after the
drain `events_processed + events_dropped` is 0, not 1. -/
theorem scheduler_counts_miss_allocation_failure :
    submissions demo_ops_no_mem = 1 ∧ submissions demo_ops_no_mem ≤ 2 % 4294967296 ∧
      (4 % 65536 ≤ 4 % 4294967296) ∧
      (scheduler_put_event (some 0) 4 0 (some 7) false 0 (sched_boot 2 4 demo_mem)).2
        = EspErr.ESP_ERR_NO_MEM ∧
      (scheduler_drain (sched_run (sched_boot 2 4 demo_mem) demo_ops_no_mem)).ctx.events_processed
        + (scheduler_drain
            (sched_run (sched_boot 2 4 demo_mem) demo_ops_no_mem)).ctx.events_dropped = 0 ∧
      (scheduler_drain (sched_run (sched_boot 2 4 demo_mem) demo_ops_no_mem)).ctx.events_processed
        + (scheduler_drain
            (sched_run (sched_boot 2 4 demo_mem) demo_ops_no_mem)).ctx.events_dropped
        ≠ submissions demo_ops_no_mem := by
  refine ⟨by decide, by decide, by decide, by decide, by decide, by decide⟩

/-- C4 (as amended): `scheduler_put_event` on an initialised scheduler whose
queue is full, for a payload within `max_event_size` whose copy is allocated,
returns `ESP_FAIL`, increments `events_dropped` by exactly one (as a
`uint32_t`) and leaves the queued events, `events_processed`, the producers'
memory and the handler invocations unchanged. -/
theorem scheduler_put_event_full_queue (p : Option Nat) (n t : Nat) (h : Option Nat)
    (m : Bool) (k : Nat) (w : SchedWorld) (hi : w.ctx.initialized = true)
    (hfull : w.ctx.queue_size ≤ w.ctx.event_queue.length)
    (hsize : n % 65536 ≤ w.ctx.max_event_size)
    (halloc : ¬ (n % 65536 > 0 ∧ p.isSome ∧ m = false)) :
    (scheduler_put_event p n t h m k w).2 = EspErr.ESP_FAIL ∧
      (scheduler_put_event p n t h m k w).1.ctx.events_dropped
        = (w.ctx.events_dropped + 1) % 4294967296 ∧
      (w.ctx.events_dropped + 1 < 4294967296 →
        (scheduler_put_event p n t h m k w).1.ctx.events_dropped = w.ctx.events_dropped + 1) ∧
      (scheduler_put_event p n t h m k w).1.ctx.event_queue = w.ctx.event_queue ∧
      (scheduler_put_event p n t h m k w).1.ctx.events_processed = w.ctx.events_processed ∧
      (scheduler_put_event p n t h m k w).1.calls = w.calls ∧
      (scheduler_put_event p n t h m k w).1.mem = w.mem := by
  rw [put_dropped p n t h m k w hi (by omega) halloc (by omega)]
  refine ⟨rfl, rfl, ?_, rfl, rfl, rfl, rfl⟩
  intro hlt
  exact Nat.mod_eq_of_lt hlt

/-- Witness for C4 (as amended): a second 4-byte submission to the full queue
of capacity 1. -/
theorem scheduler_put_event_full_queue_witness :
    demo_full.ctx.initialized = true ∧
      demo_full.ctx.queue_size ≤ demo_full.ctx.event_queue.length ∧
      (scheduler_put_event (some 0) 4 0 (some 7) true 1 demo_full).2 = EspErr.ESP_FAIL ∧
      (scheduler_put_event (some 0) 4 0 (some 7) true 1 demo_full).1.ctx.events_dropped = 1 :=
  ⟨by decide, by decide,
    (scheduler_put_event_full_queue (some 0) 4 0 (some 7) true 1 demo_full (by decide)
      (by decide) (by decide) (by decide)).1,
    by decide⟩

/-- C4 (as stated) fails for a payload above `max_event_size`: on the full
queue of capacity 1 a 5-byte submission returns `ESP_ERR_INVALID_SIZE`, not
`ESP_FAIL`, and `events_dropped` keeps its value. -/
theorem full_queue_oversized_not_counted :
    demo_full.ctx.initialized = true ∧
      demo_full.ctx.queue_size ≤ demo_full.ctx.event_queue.length ∧
      (scheduler_put_event (some 0) 5 0 (some 7) true 1 demo_full).2
        = EspErr.ESP_ERR_INVALID_SIZE ∧
      (scheduler_put_event (some 0) 5 0 (some 7) true 1 demo_full).2 ≠ EspErr.ESP_FAIL ∧
      (scheduler_put_event (some 0) 5 0 (some 7) true 1 demo_full).1.ctx.events_dropped
        = demo_full.ctx.events_dropped := by
  refine ⟨by decide, by decide, by decide, by decide, by decide⟩

/-- C5 (as amended): a submission rejected because its payload is too large
(`event_size > max_event_size`) is reported to the caller as
`ESP_ERR_INVALID_SIZE` and leaves the scheduler as it was: the queue is
unchanged and so are the counters returned by `scheduler_get_stats` (the
rejection is not counted). -/
theorem scheduler_put_event_too_large (p : Option Nat) (n t : Nat) (h : Option Nat)
    (m : Bool) (k : Nat) (w : SchedWorld) (hi : w.ctx.initialized = true)
    (hsize : n % 65536 > w.ctx.max_event_size) :
    (scheduler_put_event p n t h m k w).2 = EspErr.ESP_ERR_INVALID_SIZE ∧
      (scheduler_put_event p n t h m k w).1.ctx = w.ctx ∧
      (scheduler_put_event p n t h m k w).1.ctx.event_queue = w.ctx.event_queue ∧
      scheduler_get_stats (scheduler_put_event p n t h m k w).1 = scheduler_get_stats w ∧
      (scheduler_put_event p n t h m k w).1.calls = w.calls := by
  rw [put_invalid_size p n t h m k w hi hsize]
  exact ⟨rfl, rfl, rfl, rfl, rfl⟩

/-- Witness for C5 (as amended): a 5-byte submission with `max_event_size` 4. -/
theorem scheduler_put_event_too_large_witness :
    (sched_boot 2 4 demo_mem).ctx.initialized = true ∧
      5 % 65536 > (sched_boot 2 4 demo_mem).ctx.max_event_size ∧
      (scheduler_put_event (some 0) 5 0 (some 7) true 0 (sched_boot 2 4 demo_mem)).2
        = EspErr.ESP_ERR_INVALID_SIZE ∧
      scheduler_get_stats
          (scheduler_put_event (some 0) 5 0 (some 7) true 0 (sched_boot 2 4 demo_mem)).1
        = scheduler_get_stats (sched_boot 2 4 demo_mem) :=
  ⟨by decide, by decide,
    (scheduler_put_event_too_large (some 0) 5 0 (some 7) true 0 (sched_boot 2 4 demo_mem)
      (by decide) (by decide)).1,
    (scheduler_put_event_too_large (some 0) 5 0 (some 7) true 0 (sched_boot 2 4 demo_mem)
      (by decide) (by decide)).2.2.2.1⟩

/-- C5 (as stated) fails: after the rejected 5-byte submission the drop
counter returned by `scheduler_get_stats` is still 0, it has not increased. -/
theorem too_large_rejection_not_in_stats :
    (scheduler_put_event (some 0) 5 0 (some 7) true 0 (sched_boot 2 4 demo_mem)).2
        = EspErr.ESP_ERR_INVALID_SIZE ∧
      (scheduler_get_stats (sched_boot 2 4 demo_mem)).2.1 = 0 ∧
      (scheduler_get_stats
        (scheduler_put_event (some 0) 5 0 (some 7) true 0 (sched_boot 2 4 demo_mem)).1).2.1 = 0 ∧
      ¬ ((scheduler_get_stats
        (scheduler_put_event (some 0) 5 0 (some 7) true 0 (sched_boot 2 4 demo_mem)).1).2.1 >
          (scheduler_get_stats (sched_boot 2 4 demo_mem)).2.1) := by
  refine ⟨by decide, by decide, by decide, by decide⟩

/-! ## Zero-cross interrupt: claim C10 -/

theorem zc_delay_us_eq (l : Nat) :
    zc_delay_us l = if l > 0 ∧ l < 32 then (32 - l) * 312 else 0 := by
  unfold zc_delay_us
  split
  · have : (32 - l) * (10000 / 32) < 4294967296 := by
      have : 32 - l ≤ 32 := Nat.sub_le _ _
      omega
    rw [Nat.mod_eq_of_lt this]
  · rfl

theorem zc_delay_us_antitone (l1 l2 : Nat) (h1 : 0 < l1) (h2 : l1 ≤ l2) :
    zc_delay_us l2 ≤ zc_delay_us l1 := by
  rw [zc_delay_us_eq, zc_delay_us_eq]
  split_ifs <;> omega

/-- C10 (as amended): on an accepted edge `zero_cross_isr` records the edge
time and, for a current level of 32 as well as for a current level of 0,
computes a delay of 0 and applies the duty pattern immediately, leaving the
phase timer alone; for a level strictly between 0 and 32 it arms the phase
timer with `(32 - level) * 312` microseconds and applies nothing itself; this
delay decreases as the level grows and never exceeds 9672 microseconds
(level 1), below the half-cycle of 10000 microseconds. -/
theorem zero_cross_isr_phase_delay (now_us : Nat) (s : Sys) (hacc : edge_accepted now_us s) :
    (zero_cross_isr now_us s).last_cross_time = now_us % 18446744073709551616 ∧
      ((s.pwm.light_level = 32 ∨ s.pwm.light_level = 0) →
        zc_delay_us s.pwm.light_level = 0 ∧
        (zero_cross_isr now_us s).pwm = pwm_apply_phase_controlled_duty s.pwm ∧
        (zero_cross_isr now_us s).phase_timer = s.phase_timer) ∧
      ((0 < s.pwm.light_level ∧ s.pwm.light_level < 32) →
        zc_delay_us s.pwm.light_level = (32 - s.pwm.light_level) * 312 ∧
        (zero_cross_isr now_us s).phase_timer = some ((32 - s.pwm.light_level) * 312) ∧
        (zero_cross_isr now_us s).pwm = s.pwm ∧
        (32 - s.pwm.light_level) * 312 ≤ 9672 ∧ 9672 < SEMI_PERIOD_US) ∧
      (∀ l1 l2, 0 < l1 → l1 ≤ l2 → zc_delay_us l2 ≤ zc_delay_us l1) := by
  unfold edge_accepted at hacc
  refine ⟨?_, ?_, ?_, zc_delay_us_antitone⟩
  · unfold zero_cross_isr
    simp only [hacc, if_false]
    split_ifs <;> rfl
  · intro hl
    have hd : zc_delay_us s.pwm.light_level = 0 := by
      unfold zc_delay_us
      rcases hl with hl | hl <;> simp [hl]
    refine ⟨hd, ?_, ?_⟩
    · unfold zero_cross_isr
      simp only [hacc, if_false, pwmcontroller_get_current_level, hd]
      simp
    · unfold zero_cross_isr
      simp only [hacc, if_false, pwmcontroller_get_current_level, hd]
      simp
  · intro hl
    have hd : zc_delay_us s.pwm.light_level = (32 - s.pwm.light_level) * 312 := by
      unfold zc_delay_us
      rw [if_pos hl]
      have : (32 - s.pwm.light_level) * (10000 / 32) < 4294967296 := by
        have : 32 - s.pwm.light_level ≤ 32 := Nat.sub_le _ _
        omega
      rw [Nat.mod_eq_of_lt this]
    have hpos : (32 - s.pwm.light_level) * 312 > 0 ∧ (32 - s.pwm.light_level) * 312 < 10000 := by
      omega
    refine ⟨hd, ?_, ?_, by omega, by decide⟩
    · unfold zero_cross_isr
      simp only [hacc, if_false, pwmcontroller_get_current_level, hd, hpos, and_self, if_true]
    · unfold zero_cross_isr
      simp only [hacc, if_false, pwmcontroller_get_current_level, hd, hpos, and_self, if_true]

/-- Witness for C10 (as amended): an edge 20 ms after start on the freshly
initialised node (level 0). -/
theorem zero_cross_isr_phase_delay_witness :
    edge_accepted 20000 (node_nine_cycles crc_zero) ∧
      (zero_cross_isr 20000 (node_nine_cycles crc_zero)).last_cross_time
        = 20000 % 18446744073709551616 :=
  ⟨by decide, (zero_cross_isr_phase_delay 20000 (node_nine_cycles crc_zero) (by decide)).1⟩

/-- C10 (as stated) fails at level 0: the delay computed there is 0, smaller
than the delay at level 1 and different from the half-cycle, and on the
freshly initialised node (level 0) an accepted edge applies the pattern at
once (a duty of 0 is written to the hardware) without arming the phase
timer. -/
theorem level_zero_delay_is_zero :
    zc_delay_us 32 = 0 ∧ zc_delay_us 0 = 0 ∧ zc_delay_us 1 = 9672 ∧
      ¬ (∀ l, l ≤ 32 → zc_delay_us l ≤ zc_delay_us 0) ∧
      zc_delay_us 0 ≠ SEMI_PERIOD_US ∧
      (node_nine_cycles crc_zero).pwm.light_level = 0 ∧
      edge_accepted 20000 (node_nine_cycles crc_zero) ∧
      (zero_cross_isr 20000 (node_nine_cycles crc_zero)).phase_timer = none ∧
      (node_nine_cycles crc_zero).pwm.ledc_duty_writes = [] ∧
      (zero_cross_isr 20000 (node_nine_cycles crc_zero)).pwm.ledc_duty_writes = [0] := by
  refine ⟨by decide, by decide, by decide, ?_, by decide, by decide, by decide, by decide,
    by decide, by decide⟩
  intro h
  exact absurd (h 1 (by decide)) (by decide)

/-! ## Mesh override: claim C9 -/

theorem algo_process_override_expired (f : Nat → AlgoConfigData → Nat) (now : Nat) (s : Sys)
    (h1 : s.eco.mesh_override_active = true)
    (h2 : (now / 1000) % 4294967296 > s.eco.mesh_override_timeout) :
    ecolumiere_algo_process f now s =
      ecolumiere_algo_process f now
        { s with eco := { s.eco with mesh_override_active := false } } := by
  have hl : algo_override_check now s.eco =
      ({ s.eco with mesh_override_active := false }, true) := by
    simp [algo_override_check, h1, h2]
  have hr : algo_override_check now { s.eco with mesh_override_active := false } =
      ({ s.eco with mesh_override_active := false }, true) := by
    simp [algo_override_check]
  unfold ecolumiere_algo_process
  simp only [hl, hr]
  rfl

theorem algo_process_override_pending (f : Nat → AlgoConfigData → Nat) (now : Nat) (s : Sys)
    (h1 : s.eco.mesh_override_active = true)
    (h2 : (now / 1000) % 4294967296 ≤ s.eco.mesh_override_timeout) :
    ecolumiere_algo_process f now s = s := by
  have hl : algo_override_check now s.eco = (s.eco, false) := by
    have : ¬ (now / 1000) % 4294967296 > s.eco.mesh_override_timeout := by omega
    simp [algo_override_check, h1, this]
  unfold ecolumiere_algo_process
  simp only [hl]
  simp

theorem mesh_override_fields (f : Nat → AlgoConfigData → Nat) (now level : Nat) (s : Sys) :
    (ecolumiere_handle_mesh_command f now level true s).eco.mesh_override_active = true ∧
      (ecolumiere_handle_mesh_command f now level true s).eco.mesh_override_timeout =
        (now / 1000 + MESH_OVERRIDE_DURATION_MS) % 4294967296 := by
  unfold ecolumiere_handle_mesh_command slave_node_update_lampada_data pwmcontroller_set_level
    ecolumiere_save_current_pwm ecolumiere_save_algo_config
  simp only [if_true]
  split_ifs <;> simp

/-- C9 (the code departs from it): when `ecolumiere_handle_mesh_command(20,
true)` runs at a millisecond clock of 4294967295 (the largest 32-bit value),
the stored expiry time wraps to 29999, so that a control cycle at that very
time (inside the 30 s of the override) already finds the override expired: for
every checksum routine and every state it behaves exactly as a cycle with no
override.  On the node `node_nine_cycles` the command sets fade target and
stored duty to 20, and the cycle that follows clears the override and moves
both to 5. -/
theorem mesh_override_lost_at_clock_wrap (f : Nat → AlgoConfigData → Nat) (s : Sys) :
    (ecolumiere_handle_mesh_command f clock_near_wrap_us 20 true s).eco.mesh_override_active
        = true ∧
      (ecolumiere_handle_mesh_command f clock_near_wrap_us 20 true s).eco.mesh_override_timeout
        = 29999 ∧
      ecolumiere_algo_process f clock_near_wrap_us
          (ecolumiere_handle_mesh_command f clock_near_wrap_us 20 true s) =
        ecolumiere_algo_process f clock_near_wrap_us
          { ecolumiere_handle_mesh_command f clock_near_wrap_us 20 true s with
            eco := { (ecolumiere_handle_mesh_command f clock_near_wrap_us 20 true s).eco with
                     mesh_override_active := false } } ∧
      (ecolumiere_handle_mesh_command crc_zero clock_near_wrap_us 20 true
        (node_nine_cycles crc_zero)).pwm.target_duty = 20 ∧
      (ecolumiere_handle_mesh_command crc_zero clock_near_wrap_us 20 true
        (node_nine_cycles crc_zero)).eco.algo_config_data.current_pwm_level = 20 ∧
      (ecolumiere_algo_process crc_zero clock_near_wrap_us
        (ecolumiere_handle_mesh_command crc_zero clock_near_wrap_us 20 true
          (node_nine_cycles crc_zero))).eco.mesh_override_active = false ∧
      (ecolumiere_algo_process crc_zero clock_near_wrap_us
        (ecolumiere_handle_mesh_command crc_zero clock_near_wrap_us 20 true
          (node_nine_cycles crc_zero))).pwm.target_duty = 5 ∧
      (ecolumiere_algo_process crc_zero clock_near_wrap_us
        (ecolumiere_handle_mesh_command crc_zero clock_near_wrap_us 20 true
          (node_nine_cycles crc_zero))).eco.algo_config_data.current_pwm_level = 5 := by
  have hf := mesh_override_fields f clock_near_wrap_us 20 s
  have ht : (clock_near_wrap_us / 1000 + MESH_OVERRIDE_DURATION_MS) % 4294967296 = 29999 := by
    decide
  rw [ht] at hf
  refine ⟨hf.1, hf.2, ?_, by decide!, by decide!, by decide!, by decide!, by decide!⟩
  apply algo_process_override_expired
  · exact hf.1
  · rw [hf.2]
    decide

/-! ## Fade step: claim C15 -/

/-- C15: one fade step (`apply_fade`, and `pwm_fade` which is the same
function) leaves `target_duty` unmodified, leaves `light_level` unchanged when
it equals `target_duty`, otherwise decreases the distance
`|target_duty - light_level|` by exactly 1, and changes `light_level` by at
most one unit. -/
theorem apply_fade_one_unit_towards_target (p : PwmState) (hl : p.light_level < 65536)
    (ht : p.target_duty < 65536) :
    (apply_fade p).target_duty = p.target_duty ∧
      (p.light_level = p.target_duty → (apply_fade p).light_level = p.light_level) ∧
      (p.light_level ≠ p.target_duty →
        level_distance (apply_fade p) + 1 = level_distance p) ∧
      (apply_fade p).light_level ≤ p.light_level + 1 ∧
      p.light_level ≤ (apply_fade p).light_level + 1 ∧
      pwm_fade p = apply_fade p := by
  unfold level_distance pwm_fade apply_fade
  by_cases h1 : p.light_level < p.target_duty
  · have hm : (p.light_level + 1) % 65536 = p.light_level + 1 := Nat.mod_eq_of_lt (by omega)
    have h2 : ¬ p.light_level + 1 > p.target_duty := by omega
    simp only [h1, if_true, hm, h2, if_false]
    refine ⟨trivial, ?_, ?_, ?_, ?_, trivial⟩
    · intro h; omega
    · intro h; omega
    · omega
    · omega
  · by_cases h3 : p.light_level > p.target_duty
    · have hm : (p.light_level + 65535) % 65536 = p.light_level - 1 := by omega
      simp only [h1, if_false, h3, if_true, hm]
      refine ⟨trivial, ?_, ?_, ?_, ?_, trivial⟩
      · intro h; omega
      · intro h; omega
      · omega
      · omega
    · simp only [h1, if_false, h3]
      refine ⟨trivial, ?_, ?_, ?_, ?_, trivial⟩
      · intro h; trivial
      · intro h; omega
      · omega
      · omega

/-- Witness for C15: level 3, target 7 on the boot state. -/
theorem apply_fade_one_unit_towards_target_witness :
    (3 : Nat) < 65536 ∧ (7 : Nat) < 65536 ∧
      (apply_fade { pwm_state_boot with light_level := 3, target_duty := 7 }).light_level = 4 ∧
      (apply_fade { pwm_state_boot with light_level := 3, target_duty := 7 }).target_duty = 7 :=
  ⟨by decide, by decide, by decide,
    (apply_fade_one_unit_towards_target
      { pwm_state_boot with light_level := 3, target_duty := 7 } (by decide) (by decide)).1⟩

/-! ## Debounce: claim C17 -/

theorem zero_cross_isr_last_cross_time (now_us : Nat) (s : Sys)
    (hacc : edge_accepted now_us s) :
    (zero_cross_isr now_us s).last_cross_time = now_us % 18446744073709551616 := by
  unfold edge_accepted at hacc
  unfold zero_cross_isr
  simp only [hacc, if_false]
  split_ifs <;> rfl

theorem zero_cross_isr_discarded (now_us : Nat) (s : Sys) (hrej : ¬ edge_accepted now_us s) :
    zero_cross_isr now_us s = s := by
  unfold edge_accepted at hrej
  simp only [not_not] at hrej
  unfold zero_cross_isr
  simp only [hrej, if_true]

theorem accepted_edges_chain (ts : List Nat) (s : Sys) :
    List.Chain (fun a b => DEBOUNCE_TIME_US ≤ edge_gap a b) s.last_cross_time
      (accepted_edges s ts) := by
  induction ts generalizing s with
  | nil => exact List.Chain.nil
  | cons t ts ih =>
    simp only [accepted_edges]
    by_cases hacc : edge_accepted t s
    · simp only [hacc, if_true]
      refine List.Chain.cons ?_ ?_
      · unfold edge_accepted at hacc
        unfold edge_gap
        omega
      · have := ih (zero_cross_isr t s)
        rw [zero_cross_isr_last_cross_time t s hacc] at this
        exact this
    · simp only [hacc, if_false]
      have := ih (zero_cross_isr t s)
      rw [zero_cross_isr_discarded t s hacc] at this ⊢
      exact this

/-- C17: a zero-cross edge at time `t` with `t - last_cross_time` (the
`uint64_t` difference) below `DEBOUNCE_TIME_US` = 1000 is discarded with no
effect at all (the whole state, `last_cross_time`, phase timer and PWM
included, is unchanged); an edge with a difference of at least 1000 is
accepted and sets `last_cross_time` to `t`.  Consequently, for any sequence of
edges, each accepted edge is at least 1000 microseconds after the previous
accepted one (a difference which is the plain difference of the two times
when the clock has not wrapped). -/
theorem zero_cross_debounce (now_us : Nat) (s : Sys) :
    (edge_gap s.last_cross_time (now_us % 18446744073709551616) < DEBOUNCE_TIME_US →
        zero_cross_isr now_us s = s) ∧
      (DEBOUNCE_TIME_US ≤ edge_gap s.last_cross_time (now_us % 18446744073709551616) →
        (zero_cross_isr now_us s).last_cross_time = now_us % 18446744073709551616) ∧
      (∀ ts : List Nat, List.Chain (fun a b => DEBOUNCE_TIME_US ≤ edge_gap a b)
        s.last_cross_time (accepted_edges s ts)) ∧
      (∀ a b : Nat, a ≤ b → b < 18446744073709551616 → edge_gap a b = b - a) := by
  refine ⟨?_, ?_, fun ts => accepted_edges_chain ts s, ?_⟩
  · intro h
    apply zero_cross_isr_discarded
    unfold edge_accepted
    unfold edge_gap at h
    simpa using h
  · intro h
    apply zero_cross_isr_last_cross_time
    unfold edge_accepted
    unfold edge_gap at h
    omega
  · intro a b hab hb
    unfold edge_gap
    omega

/-- Witness for C17: on the freshly initialised node (last edge at 0) an edge
at 500 is discarded and an edge at 20000 is accepted. -/
theorem zero_cross_debounce_witness :
    edge_gap (node_nine_cycles crc_zero).last_cross_time (500 % 18446744073709551616)
        < DEBOUNCE_TIME_US ∧
      zero_cross_isr 500 (node_nine_cycles crc_zero) = node_nine_cycles crc_zero ∧
      DEBOUNCE_TIME_US ≤
        edge_gap (node_nine_cycles crc_zero).last_cross_time (20000 % 18446744073709551616) ∧
      (zero_cross_isr 20000 (node_nine_cycles crc_zero)).last_cross_time
        = 20000 % 18446744073709551616 ∧
      accepted_edges (node_nine_cycles crc_zero) [500, 20000, 20400, 21000, 30000]
        = [20000, 21000, 30000] :=
  ⟨by decide, (zero_cross_debounce 500 (node_nine_cycles crc_zero)).1 (by decide),
    by decide, (zero_cross_debounce 20000 (node_nine_cycles crc_zero)).2.1 (by decide),
    by decide⟩

/-! ## Invalid lux samples: claim C18 -/

/-- C18: when the lux source returns the invalid sentinel `MEASURE_INVALID` =
0xFFFF, `handle_natural_light_slot` and `handle_env_light_slot` return the
state as it was: the rolling averages `natural_avg` and `env_avg` (sum, count
and measure) are unchanged and the control algorithm is not run. -/
theorem invalid_lux_sample_ignored (f : Nat → AlgoConfigData → Nat) (env : TickEnv) (s : Sys) :
    (env.natural_lux % 4294967296 = MEASURE_INVALID →
        handle_natural_light_slot f env s = s ∧
        (handle_natural_light_slot f env s).eco.natural_avg = s.eco.natural_avg ∧
        (handle_natural_light_slot f env s).eco.env_avg = s.eco.env_avg) ∧
      (env.env_lux % 4294967296 = MEASURE_INVALID →
        handle_env_light_slot f env s = s ∧
        (handle_env_light_slot f env s).eco.natural_avg = s.eco.natural_avg ∧
        (handle_env_light_slot f env s).eco.env_avg = s.eco.env_avg) := by
  constructor
  · intro h
    have : handle_natural_light_slot f env s = s := by
      unfold handle_natural_light_slot
      simp only [h, ne_eq, not_true_eq_false, if_false]
    rw [this]
    exact ⟨rfl, rfl, rfl⟩
  · intro h
    have : handle_env_light_slot f env s = s := by
      unfold handle_env_light_slot
      simp only [h, ne_eq, not_true_eq_false, if_false]
    rw [this]
    exact ⟨rfl, rfl, rfl⟩

/-- Witness for C18: both readings invalid on the node `node_nine_cycles`. -/
theorem invalid_lux_sample_ignored_witness :
    tick_env_invalid.natural_lux % 4294967296 = MEASURE_INVALID ∧
      tick_env_invalid.env_lux % 4294967296 = MEASURE_INVALID ∧
      handle_natural_light_slot crc_zero tick_env_invalid (node_nine_cycles crc_zero)
        = node_nine_cycles crc_zero ∧
      handle_env_light_slot crc_zero tick_env_invalid (node_nine_cycles crc_zero)
        = node_nine_cycles crc_zero :=
  ⟨by decide, by decide,
    ((invalid_lux_sample_ignored crc_zero tick_env_invalid (node_nine_cycles crc_zero)).1
      (by decide)).1,
    ((invalid_lux_sample_ignored crc_zero tick_env_invalid (node_nine_cycles crc_zero)).2
      (by decide)).1⟩

/-! ## Moving-average filter: claim C20 -/

/-- C20 (the code departs from it): on the buffer `lc_single_one` (first sample
1, all others 0) `light_code_pickup` leaves 1 at position 3, whereas the
rounded mean of the samples 0..3 is 0; and it leaves the same value at
position 3 whatever the sample at position 3 is. -/
theorem pickup_filter_ignores_newest_sample :
    lc_single_one.queue_index ≠ 0 ∧ lc_single_one.queue_ptr_null = false ∧
      (light_code_pickup lc_single_one).queue 3 = 1 ∧
      rounded_mean4 lc_single_one.queue 3 = 0 ∧
      (light_code_pickup lc_single_one).queue 3 ≠ rounded_mean4 lc_single_one.queue 3 ∧
      (light_code_pickup
        { lc_single_one with queue := fun i => if i = 0 ∨ i = 3 then 1 else 0 }).queue 3 = 1 := by
  refine ⟨by decide, by decide, by decide, by decide, by decide, by decide⟩

/-! ## Slot driver: parity of the processed slots, claim C16 -/

theorem tick_switch_other_slot (f : Nat → AlgoConfigData → Nat) (env : TickEnv) (slot : Nat)
    (s : Sys) (h : slot % 2 = 1) : tick_switch f env slot s = s := by
  have h0 : slot ≠ DEVICE_ID_SLOT := by simp only [DEVICE_ID_SLOT]; omega
  have h2 : slot ≠ NATURAL_MEASURE_SLOT := by simp only [NATURAL_MEASURE_SLOT]; omega
  have h6 : slot ≠ ENV_MEASURE_SLOT := by simp only [ENV_MEASURE_SLOT]; omega
  unfold tick_switch
  simp only [h0, h2, h6, if_false]

theorem pwm_set_duty_cycle_slot (d : Nat) (p : PwmState) :
    (pwm_set_duty_cycle d p).skip_counter = p.skip_counter ∧
      (pwm_set_duty_cycle d p).current_slot = p.current_slot := by
  unfold pwm_set_duty_cycle
  split <;> exact ⟨rfl, rfl⟩

theorem apply_fade_slot (p : PwmState) :
    (apply_fade p).skip_counter = p.skip_counter ∧
      (apply_fade p).current_slot = p.current_slot := by
  unfold apply_fade
  dsimp only
  split_ifs <;> exact ⟨rfl, rfl⟩

theorem pwm_apply_current_sequence_slot (p : PwmState) :
    (pwm_apply_current_sequence p).skip_counter = p.skip_counter ∧
      (pwm_apply_current_sequence p).current_slot = p.current_slot := by
  unfold pwm_apply_current_sequence
  dsimp only
  split_ifs <;> exact ⟨rfl, rfl⟩

theorem pwm_apply_phase_controlled_duty_slot (p : PwmState) :
    (pwm_apply_phase_controlled_duty p).skip_counter = p.skip_counter ∧
      (pwm_apply_phase_controlled_duty p).current_slot = p.current_slot := by
  unfold pwm_apply_phase_controlled_duty
  split
  · exact ⟨rfl, rfl⟩
  · exact pwm_apply_current_sequence_slot p

theorem pwm_sequence_update_slot (ev : Nat) (p : PwmState) :
    (pwm_sequence_update ev p).skip_counter = p.skip_counter ∧
      (pwm_sequence_update ev p).current_slot = p.current_slot := by
  unfold pwm_sequence_update write_sequence
  split <;> exact ⟨rfl, rfl⟩

theorem tick_fade_slot (p : PwmState) :
    (tick_fade p).skip_counter = p.skip_counter ∧
      (tick_fade p).current_slot = p.current_slot := by
  unfold tick_fade
  dsimp only
  split
  · exact apply_fade_slot _
  · exact ⟨rfl, rfl⟩

theorem tick_sequence_slot (p : PwmState) :
    (tick_sequence p).skip_counter = p.skip_counter ∧
      (tick_sequence p).current_slot = p.current_slot := by
  unfold tick_sequence
  dsimp only
  split
  · have h1 := pwm_apply_current_sequence_slot (pwm_sequence_update DEFAULT_EVENT
      { p with sequence_update_counter := (p.sequence_update_counter + 1) % 256 })
    have h2 := pwm_sequence_update_slot DEFAULT_EVENT
      { p with sequence_update_counter := (p.sequence_update_counter + 1) % 256 }
    exact ⟨h1.1.trans h2.1, h1.2.trans h2.2⟩
  · exact ⟨rfl, rfl⟩

theorem tick_log_slot (p : PwmState) :
    (tick_log p).skip_counter = p.skip_counter ∧
      (tick_log p).current_slot = p.current_slot := by
  unfold tick_log
  dsimp only
  split <;> exact ⟨rfl, rfl⟩

theorem slot_timer_callback_parity (f : Nat → AlgoConfigData → Nat) (env : TickEnv) (s : Sys)
    (h : SlotParity s.pwm) :
    SlotParity (slot_timer_callback f env s).pwm ∧
      (slot_timer_callback f env s).eco = s.eco ∧
      (slot_timer_callback f env s).lc = s.lc ∧
      (∀ k, slot_at_switch env s = some k → k % 2 = 1) := by
  unfold slot_at_switch pwm_get_current_slot
  unfold slot_timer_callback
  by_cases hg : s.pwm.pwm_initialized = false ∨ env.timer_valid = false
  · rw [if_pos hg, if_pos hg]
    exact ⟨h, rfl, rfl, fun k hk => by simp at hk⟩
  · rw [if_neg hg, if_neg hg]
    rcases h with ⟨hs, hp⟩ | ⟨hs, hp⟩
    · have hskip : (s.pwm.skip_counter + 1) % 256 < 2 := by rw [hs]; decide
      dsimp only
      rw [if_pos hskip, if_pos hskip]
      refine ⟨?_, rfl, rfl, fun k hk => by simp at hk⟩
      right
      constructor
      · show (s.pwm.skip_counter + 1) % 256 = 1
        rw [hs]
      · show (s.pwm.current_slot + 1) % SLOT_COUNT % 256 % 2 = 1
        simp only [SLOT_COUNT]
        omega
    · have hskip : ¬ (s.pwm.skip_counter + 1) % 256 < 2 := by rw [hs]; decide
      dsimp only
      rw [if_neg hskip, if_neg hskip]
      have hsw : tick_switch f env s.pwm.current_slot
          { s with pwm := tick_fade { s.pwm with skip_counter := 0 } } =
          { s with pwm := tick_fade { s.pwm with skip_counter := 0 } } :=
        tick_switch_other_slot f env s.pwm.current_slot _ hp
      simp only [pwm_get_current_slot]
      rw [hsw]
      have h1 := tick_fade_slot { s.pwm with skip_counter := 0 }
      have h2 := tick_sequence_slot (tick_fade { s.pwm with skip_counter := 0 })
      have h3 := tick_log_slot
        (pwm_advance_slot (tick_sequence (tick_fade { s.pwm with skip_counter := 0 })))
      refine ⟨?_, rfl, rfl, ?_⟩
      · left
        constructor
        · show (tick_log (pwm_advance_slot
            (tick_sequence (tick_fade { s.pwm with skip_counter := 0 })))).skip_counter = 0
          rw [h3.1]
          show (tick_sequence (tick_fade { s.pwm with skip_counter := 0 })).skip_counter = 0
          rw [h2.1, h1.1]
        · show (tick_log (pwm_advance_slot
            (tick_sequence (tick_fade { s.pwm with skip_counter := 0 })))).current_slot % 2 = 0
          rw [h3.2]
          show ((tick_sequence (tick_fade { s.pwm with skip_counter := 0 })).current_slot + 1)
            % SLOT_COUNT % 256 % 2 = 0
          rw [h2.2, h1.2]
          show (s.pwm.current_slot + 1) % SLOT_COUNT % 256 % 2 = 0
          simp only [SLOT_COUNT]
          omega
      · intro k hk
        simp only [Option.some.injEq] at hk
        omega

theorem sys_step_parity (f : Nat → AlgoConfigData → Nat) (s : Sys) (op : SysOp)
    (h : SlotParity s.pwm) : SlotParity (sys_step f s op).pwm := by
  unfold SlotParity at *
  cases op with
  | set_duty_cycle d =>
    have := pwm_set_duty_cycle_slot d s.pwm
    simp only [sys_step]
    rw [this.1, this.2]; exact h
  | set_level l =>
    have := pwm_set_duty_cycle_slot (l % 256) s.pwm
    simp only [sys_step, pwmcontroller_set_level]
    rw [this.1, this.2]; exact h
  | fade =>
    have := apply_fade_slot s.pwm
    simp only [sys_step, pwm_fade]
    rw [this.1, this.2]; exact h
  | slot_tick env => exact (slot_timer_callback_parity f env s h).1
  | zero_cross t =>
    have := pwm_apply_phase_controlled_duty_slot s.pwm
    simp only [sys_step, zero_cross_isr]
    split_ifs
    · exact h
    · exact h
    · simp only []
      rw [this.1, this.2]; exact h
    · exact h
  | phase_timer_expiry =>
    have := pwm_apply_phase_controlled_duty_slot s.pwm
    simp only [sys_step, phase_timer_fire]
    split
    · exact h
    · simp only [phase_timer_callback]
      rw [this.1, this.2]; exact h

theorem sys_run_parity (f : Nat → AlgoConfigData → Nat) (ops : List SysOp) (s : Sys)
    (h : SlotParity s.pwm) : SlotParity (sys_run f s ops).pwm := by
  induction ops generalizing s with
  | nil => exact h
  | cons op ops ih => exact ih _ (sys_step_parity f s op h)

theorem sys_run_ticks_eco (f : Nat → AlgoConfigData → Nat) (envs : List TickEnv) (s : Sys)
    (h : SlotParity s.pwm) :
    (sys_run f s (envs.map SysOp.slot_tick)).eco = s.eco := by
  induction envs generalizing s with
  | nil => rfl
  | cons env envs ih =>
    have hs := slot_timer_callback_parity f env s h
    have : sys_run f s ((env :: envs).map SysOp.slot_tick) =
        sys_run f (slot_timer_callback f env s) (envs.map SysOp.slot_tick) := rfl
    rw [this, ih _ hs.1, hs.2.1]

/-- C16 (the code departs from it): from the state set by `pwmcontroller_init`
and after any sequence of operations, the slot index handed to the switch of
`slot_timer_callback` is always odd (the skipped callbacks advance the slot
too), so the switch never sees the environment-measure slot 6, nor slot 0 nor
slot 2: a tick never changes the algorithm state, and after any number of
ticks with valid lux readings the rolling averages and the whole algorithm
state are as they were at start. -/
theorem env_measure_slot_never_served (f : Nat → AlgoConfigData → Nat) (init : InitEnv)
    (e : EcoState) (lc : LightCodeState) (ops : List SysOp) (env : TickEnv)
    (envs : List TickEnv) :
    slot_at_switch env (sys_run f (sys_pwmcontroller_init init (sys_boot e lc)) ops)
        ≠ some ENV_MEASURE_SLOT ∧
      slot_at_switch env (sys_run f (sys_pwmcontroller_init init (sys_boot e lc)) ops)
        ≠ some DEVICE_ID_SLOT ∧
      slot_at_switch env (sys_run f (sys_pwmcontroller_init init (sys_boot e lc)) ops)
        ≠ some NATURAL_MEASURE_SLOT ∧
      (slot_timer_callback f env
          (sys_run f (sys_pwmcontroller_init init (sys_boot e lc)) ops)).eco
        = (sys_run f (sys_pwmcontroller_init init (sys_boot e lc)) ops).eco ∧
      (sys_run f (sys_pwmcontroller_init init (sys_boot e lc))
          (envs.map SysOp.slot_tick)).eco = e ∧
      (sys_run f (sys_pwmcontroller_init init_ok (sys_boot e lc))
          ((List.replicate (2 * SLOT_COUNT) tick_env_500).map SysOp.slot_tick)).eco.env_avg
        = e.env_avg := by
  have h0 : ∀ i : InitEnv, SlotParity (sys_pwmcontroller_init i (sys_boot e lc)).pwm := by
    intro i
    left
    simp only [sys_pwmcontroller_init, sys_boot, pwmcontroller_init, pwm_state_boot]
    split_ifs <;> exact ⟨rfl, rfl⟩
  have hp := sys_run_parity f ops _ (h0 init)
  have ht := slot_timer_callback_parity f env _ hp
  have hodd := ht.2.2.2
  refine ⟨?_, ?_, ?_, ht.2.1, ?_, ?_⟩
  · intro hk
    have := hodd _ hk
    simp [ENV_MEASURE_SLOT] at this
  · intro hk
    have := hodd _ hk
    simp [DEVICE_ID_SLOT] at this
  · intro hk
    have := hodd _ hk
    simp [NATURAL_MEASURE_SLOT] at this
  · rw [sys_run_ticks_eco f envs _ (h0 init)]
    rfl
  · rw [sys_run_ticks_eco f _ _ (h0 init_ok)]
    rfl

/-! ## Rolling average, claim C12 -/

theorem algo_override_check_avgs (now_us : Nat) (e : EcoState) :
    (algo_override_check now_us e).1.natural_avg = e.natural_avg ∧
      (algo_override_check now_us e).1.env_avg = e.env_avg := by
  unfold algo_override_check
  dsimp only
  split_ifs <;> exact ⟨rfl, rfl⟩

theorem algo_accumulate_avgs (f : Nat → AlgoConfigData → Nat) (e : EcoState) :
    (algo_accumulate f e).natural_avg = e.natural_avg ∧
      (algo_accumulate f e).env_avg = e.env_avg := by
  unfold algo_accumulate
  dsimp only
  split_ifs <;> exact ⟨rfl, rfl⟩

theorem ecolumiere_save_current_pwm_avgs (f : Nat → AlgoConfigData → Nat) (l : Nat)
    (e : EcoState) :
    (ecolumiere_save_current_pwm f l e).natural_avg = e.natural_avg ∧
      (ecolumiere_save_current_pwm f l e).env_avg = e.env_avg := by
  unfold ecolumiere_save_current_pwm
  split_ifs <;> exact ⟨rfl, rfl⟩

theorem algo_process_avgs (f : Nat → AlgoConfigData → Nat) (now_us : Nat) (s : Sys) :
    (ecolumiere_algo_process f now_us s).eco.natural_avg = s.eco.natural_avg ∧
      (ecolumiere_algo_process f now_us s).eco.env_avg = s.eco.env_avg := by
  have h1 := algo_override_check_avgs now_us s.eco
  have h2 := algo_accumulate_avgs f (algo_override_check now_us s.eco).1
  unfold ecolumiere_algo_process
  dsimp only
  split_ifs
  · exact ⟨rfl, rfl⟩
  · exact ⟨h2.1.trans h1.1, h2.2.trans h1.2⟩
  · have h3 := ecolumiere_save_current_pwm_avgs f
      (float_to_uint 16 (algo_compute
        { algo_accumulate f (algo_override_check now_us s.eco).1 with
          algo_avg := { (algo_accumulate f (algo_override_check now_us s.eco).1).algo_avg with
            count := ((algo_accumulate f (algo_override_check now_us s.eco).1).algo_avg.count
              + 1) % 256 } }).algo_data.pnew)
      (algo_compute
        { algo_accumulate f (algo_override_check now_us s.eco).1 with
          algo_avg := { (algo_accumulate f (algo_override_check now_us s.eco).1).algo_avg with
            count := ((algo_accumulate f (algo_override_check now_us s.eco).1).algo_avg.count
              + 1) % 256 } })
    constructor
    · show (ecolumiere_save_current_pwm f _ _).natural_avg = _
      rw [h3.1]
      exact h2.1.trans h1.1
    · show (ecolumiere_save_current_pwm f _ _).env_avg = _
      rw [h3.2]
      exact h2.2.trans h1.2

theorem update_lux_natural (f : Nat → AlgoConfigData → Nat) (now_us v : Nat) (s : Sys) :
    (ecolumiere_update_lux f now_us { value := v, source := LUX_SOURCE_NATURAL } s).eco.natural_avg
      = measure_avg_update s.eco.natural_avg v := by
  rfl

theorem update_lux_environment (f : Nat → AlgoConfigData → Nat) (now_us v : Nat) (s : Sys) :
    (ecolumiere_update_lux f now_us { value := v, source := LUX_SOURCE_ENVIRONMENT }
        s).eco.env_avg
      = measure_avg_update s.eco.env_avg v := by
  unfold ecolumiere_update_lux
  have hs : (2 : Nat) % 256 = 2 := rfl
  simp only [LUX_SOURCE_ENVIRONMENT, LUX_SOURCE_NATURAL, LUX_SOURCE_DEVICE_ID, hs]
  simp only [show ¬ ((2 : Nat) = 3) by decide, show ¬ ((2 : Nat) = 1) by decide, if_false,
    if_true]
  split
  · rw [(algo_process_avgs f now_us _).2]
  · rfl

theorem feed_lux_natural (f : Nat → AlgoConfigData → Nat) (v : Nat) (nows : List Nat)
    (s : Sys) :
    (feed_lux f LUX_SOURCE_NATURAL v nows s).eco.natural_avg
      = Nat.iterate (fun m => measure_avg_update m v) nows.length s.eco.natural_avg := by
  induction nows generalizing s with
  | nil => rfl
  | cons t ts ih =>
    show (feed_lux f LUX_SOURCE_NATURAL v ts _).eco.natural_avg = _
    rw [ih, update_lux_natural]
    rfl

theorem feed_lux_environment (f : Nat → AlgoConfigData → Nat) (v : Nat) (nows : List Nat)
    (s : Sys) :
    (feed_lux f LUX_SOURCE_ENVIRONMENT v nows s).eco.env_avg
      = Nat.iterate (fun m => measure_avg_update m v) nows.length s.eco.env_avg := by
  induction nows generalizing s with
  | nil => rfl
  | cons t ts ih =>
    show (feed_lux f LUX_SOURCE_ENVIRONMENT v ts _).eco.env_avg = _
    rw [ih, update_lux_environment]
    rfl

theorem measure_avg_below_size (n v : Nat) (m0 : Int) (hn : n ≤ 255) (hv : n * v < 4294967296)
    (k : Nat) (hk : k < n) :
    Nat.iterate (fun m => measure_avg_update m v) k
        { sum := 0, size := n, count := 0, measure := m0 }
      = { sum := k * v, size := n, count := k, measure := m0 } := by
  induction k with
  | zero => simp
  | succ k ih =>
    rw [Function.iterate_succ_apply', ih (by omega)]
    have hkv : k * v + v ≤ n * v := by
      calc k * v + v = (k + 1) * v := by ring
        _ ≤ n * v := Nat.mul_le_mul_right v (by omega)
    have hvv : v ≤ n * v := by
      calc v = 1 * v := by ring
        _ ≤ n * v := Nat.mul_le_mul_right v (by omega)
    have h1 : v % 4294967296 = v := Nat.mod_eq_of_lt (by omega)
    have h2 : (k * v + v) % 4294967296 = k * v + v := Nat.mod_eq_of_lt (by omega)
    have h3 : (k + 1) % 256 = k + 1 := Nat.mod_eq_of_lt (by omega)
    have h4 : ¬ (k + 1 = n) := by omega
    unfold measure_avg_update
    simp only [h1, h2, h3, h4, if_false]
    congr 1
    ring

theorem measure_avg_full (n v : Nat) (m0 : Int) (h1 : 1 ≤ n) (hn : n ≤ 255)
    (hv : n * v < 4294967296) (hs : v < 2147483648) :
    Nat.iterate (fun m => measure_avg_update m v) n
        { sum := 0, size := n, count := 0, measure := m0 }
      = { sum := 0, size := n, count := 0, measure := (v : Int) } := by
  obtain ⟨k, rfl⟩ : ∃ k, n = k + 1 := ⟨n - 1, by omega⟩
  rw [Function.iterate_succ_apply', measure_avg_below_size (k + 1) v m0 hn hv k (by omega)]
  have hkv : k * v + v = (k + 1) * v := by ring
  have h2 : v % 4294967296 = v := Nat.mod_eq_of_lt (by omega)
  have h3 : (k * v + v) % 4294967296 = k * v + v := Nat.mod_eq_of_lt (by omega)
  have h4 : (k + 1) % 256 = k + 1 := Nat.mod_eq_of_lt (by omega)
  have h5 : (k * v + v) / (k + 1) = v := by
    rw [hkv]
    exact Nat.mul_div_cancel_left v (by omega)
  unfold measure_avg_update
  simp only [h2, h3, h4, h5, if_true]
  congr 1
  unfold to_i32
  simp only [h2, hs, if_true]

/-- C12 (counterexample): with window size 1 the sample 3000000000 gives the
averaged output -1294967296 (the `int32_t` field `measure` cannot hold it), and
with window size 50 (`NATURAL_LUX_AVG_ORDER`) fifty samples of 100000000 give
14100654 (the `uint32_t` sum wraps), on the natural and on the environment
accumulator. -/
theorem rolling_average_not_idempotent_for_large_samples :
    (feed_lux crc_zero LUX_SOURCE_NATURAL 3000000000 [0]
        (sys_empty_avg 1)).eco.natural_avg
      = { sum := 0, size := 1, count := 0, measure := -1294967296 } ∧
    (feed_lux crc_zero LUX_SOURCE_NATURAL 100000000 (List.replicate 50 0)
        (sys_empty_avg NATURAL_LUX_AVG_ORDER)).eco.natural_avg
      = { sum := 0, size := 50, count := 0, measure := 14100654 } ∧
    Nat.iterate (fun m => measure_avg_update m 100000000) ENV_LUX_AVG_ORDER
        (empty_avg ENV_LUX_AVG_ORDER)
      = { sum := 0, size := 50, count := 0, measure := 14100654 } := by
  refine ⟨?_, ?_, ?_⟩
  · rw [feed_lux_natural]; decide
  · rw [feed_lux_natural]; decide
  · decide

/-- C12 (amended): for a window size `1 ≤ n ≤ 255` (the size is a `uint8_t`)
and a sample `v < 2^31` with `n * v < 2^32`, feeding `n` identical samples `v`
through `ecolumiere_update_lux` into an empty accumulator (sum 0, count 0) of
size `n` yields the averaged output `measure = v`, with sum and count back at
0; this holds for the natural and for the environment source. -/
theorem rolling_average_idempotent (f : Nat → AlgoConfigData → Nat) (v : Nat) (m0 : Int)
    (nows : List Nat) (s : Sys) (h1 : 1 ≤ nows.length) (hn : nows.length ≤ 255)
    (hv : nows.length * v < 4294967296) (hs : v < 2147483648) :
    (s.eco.natural_avg = { sum := 0, size := nows.length, count := 0, measure := m0 } →
      (feed_lux f LUX_SOURCE_NATURAL v nows s).eco.natural_avg
        = { sum := 0, size := nows.length, count := 0, measure := (v : Int) }) ∧
    (s.eco.env_avg = { sum := 0, size := nows.length, count := 0, measure := m0 } →
      (feed_lux f LUX_SOURCE_ENVIRONMENT v nows s).eco.env_avg
        = { sum := 0, size := nows.length, count := 0, measure := (v : Int) }) := by
  constructor
  · intro h0
    rw [feed_lux_natural, h0]
    exact measure_avg_full nows.length v m0 h1 hn hv hs
  · intro h0
    rw [feed_lux_environment, h0]
    exact measure_avg_full nows.length v m0 h1 hn hv hs

theorem rolling_average_idempotent_witness :
    1 ≤ (List.replicate 50 0).length ∧ (List.replicate 50 0).length ≤ 255 ∧
      (List.replicate 50 0).length * 500 < 4294967296 ∧ 500 < 2147483648 ∧
      (sys_empty_avg 50).eco.natural_avg
        = { sum := 0, size := (List.replicate 50 0).length, count := 0, measure := 0 } ∧
      (feed_lux crc_zero LUX_SOURCE_NATURAL 500 (List.replicate 50 0)
          (sys_empty_avg 50)).eco.natural_avg
        = { sum := 0, size := (List.replicate 50 0).length, count := 0, measure := 500 } ∧
      (feed_lux crc_zero LUX_SOURCE_ENVIRONMENT 500 (List.replicate 50 0)
          (sys_empty_avg 50)).eco.env_avg
        = { sum := 0, size := (List.replicate 50 0).length, count := 0, measure := 500 } :=
  ⟨by decide, by decide, by decide, by decide, by decide,
    (rolling_average_idempotent crc_zero 500 0 (List.replicate 50 0) (sys_empty_avg 50)
      (by decide) (by decide) (by decide) (by decide)).1 (by decide),
    (rolling_average_idempotent crc_zero 500 0 (List.replicate 50 0) (sys_empty_avg 50)
      (by decide) (by decide) (by decide) (by decide)).2 (by decide)⟩

/-! ## Configuration storage, claim C11 -/

theorem storage_load_config_accept (nvs_crc32 : List Nat → Nat) (st : StorageState)
    (e : NvsEntry) (hh : st.nvs_handle_val ≠ 0) (hb : st.nvs_config = some e)
    (hlen : e.data.length = CONFIG_RECORD_SIZE) (hcrc : nvs_crc32 e.data = e.data_crc32) :
    storage_load_config nvs_crc32 true st = (true, e.data, st) := by
  have h32 : e.data.length = 32 := hlen
  unfold storage_load_config storage_key_exists nvs_get_blob_size nvs_get_blob
  simp [hh, hb, h32, hcrc, CONFIG_RECORD_SIZE]

theorem storage_load_config_reject (nvs_crc32 : List Nat → Nat) (read_ok : Bool)
    (st : StorageState)
    (h : ¬ (st.nvs_handle_val ≠ 0 ∧ read_ok = true ∧
        ∃ e, st.nvs_config = some e ∧ e.data.length = CONFIG_RECORD_SIZE ∧
          nvs_crc32 e.data = e.data_crc32)) :
    (storage_load_config nvs_crc32 read_ok st).1 = false ∧
      (storage_load_config nvs_crc32 read_ok st).2.1 = List.replicate CONFIG_RECORD_SIZE 0 := by
  unfold storage_load_config storage_key_exists nvs_get_blob_size nvs_get_blob
  by_cases hh : st.nvs_handle_val = 0
  · simp [hh]
  · cases hb : st.nvs_config with
    | none => simp [hh]
    | some e =>
      by_cases h0 : e.data.length > 0
      · by_cases h4 : e.data.length = 4
        · simp [hh, h4]
        · by_cases hg : read_ok = true ∧ nvs_crc32 e.data = e.data_crc32
          · have h32 : ¬ e.data.length = CONFIG_RECORD_SIZE := by
              intro h32
              exact h ⟨hh, hg.1, e, hb, h32, hg.2⟩
            simp [hh, h0, h4, hg, h32]
          · simp [hh, h0, h4, hg]
      · have h00 : e.data.length = 0 := by omega
        simp [hh, h00]

theorem storage_load_config_true_iff (nvs_crc32 : List Nat → Nat) (read_ok : Bool)
    (st : StorageState) :
    (storage_load_config nvs_crc32 read_ok st).1 = true ↔
      st.nvs_handle_val ≠ 0 ∧ read_ok = true ∧
        ∃ e, st.nvs_config = some e ∧ e.data.length = CONFIG_RECORD_SIZE ∧
          nvs_crc32 e.data = e.data_crc32 := by
  constructor
  · intro h
    by_contra hc
    have := (storage_load_config_reject nvs_crc32 read_ok st hc).1
    rw [this] at h
    exact Bool.false_ne_true h
  · rintro ⟨hh, hg, e, hb, hlen, hcrc⟩
    subst hg
    rw [storage_load_config_accept nvs_crc32 st e hh hb hlen hcrc]

theorem storage_save_config_stored (nvs_crc32 : List Nat → Nat) (commit_ok : Bool)
    (r : List Nat) (st : StorageState)
    (hlen : r.length = CONFIG_RECORD_SIZE) (hh : st.nvs_handle_val ≠ 0)
    (hm : st.storage_pending_mask &&& STORAGE_WRITE_CONFIG_MASK = 0) :
    (storage_save_config nvs_crc32 true commit_ok r st).1 = true ∧
      (storage_save_config nvs_crc32 true commit_ok r st).2.nvs_config
        = some { data := r, data_crc32 := nvs_crc32 r } ∧
      (storage_save_config nvs_crc32 true commit_ok r st).2.nvs_handle_val
        = st.nvs_handle_val := by
  have ht : r.take CONFIG_RECORD_SIZE = r := by
    rw [← hlen]; exact List.take_length r
  unfold storage_save_config
  rw [if_neg (not_not.mpr hm)]
  refine ⟨rfl, ?_, ?_⟩
  · unfold storage_write_config storage_fds_evt_handler_write_ok nvs_set_blob
    dsimp only
    rw [if_neg hh, ht]
    simp only [if_true, true_and]
    split_ifs <;> rfl
  · unfold storage_write_config storage_fds_evt_handler_write_ok nvs_set_blob
    dsimp only
    rw [if_neg hh]
    simp only [if_true, true_and]
    split_ifs <;> rfl

/-- The load itself does not examine the bytes: whatever record of
`sizeof(algo_config_data_t)` bytes has been written by `nvs_set_blob` is
returned by the next successful read. -/
theorem storage_load_config_after_set_blob (nvs_crc32 : List Nat → Nat) (data : List Nat)
    (st : StorageState) (hh : st.nvs_handle_val ≠ 0)
    (hlen : data.length = CONFIG_RECORD_SIZE) :
    storage_load_config nvs_crc32 true (nvs_set_blob nvs_crc32 data st)
      = (true, data, nvs_set_blob nvs_crc32 data st) :=
  storage_load_config_accept nvs_crc32 (nvs_set_blob nvs_crc32 data st)
    { data := data, data_crc32 := nvs_crc32 data } hh rfl hlen rfl

/-- C11: if a configuration record (of `sizeof(algo_config_data_t)` bytes) is
saved with `storage_save_config` (valid handle, no write pending, `nvs_set_blob`
succeeds) and one byte of the stored record is then changed in flash, a change
that the CRC32 kept by the NVS library with the blob tells from the record as
saved, the following `storage_load_config` returns `false` and leaves an
all-zero record in the caller's buffer, whatever else the read does: the
corrupted bytes are never handed over as a loaded configuration.  Without the
change the load returns `true` with the record as saved; in general it
returns `true` exactly when the handle is valid, the reading `nvs_get_blob`
succeeds (stored bytes matching their CRC32) and the stored record has
`sizeof(algo_config_data_t)` bytes. -/
theorem corrupted_record_not_loaded (nvs_crc32 : List Nat → Nat) (commit_ok read_ok : Bool)
    (r : List Nat) (i b : Nat) (st : StorageState) (hlen : r.length = CONFIG_RECORD_SIZE)
    (hh : st.nvs_handle_val ≠ 0)
    (hm : st.storage_pending_mask &&& STORAGE_WRITE_CONFIG_MASK = 0)
    (hdet : nvs_crc32 (r.set i (b % 256)) ≠ nvs_crc32 r) :
    (storage_save_config nvs_crc32 true commit_ok r st).1 = true ∧
      (storage_load_config nvs_crc32 read_ok
        (corrupt_stored_byte i b (storage_save_config nvs_crc32 true commit_ok r st).2)).1
        = false ∧
      (storage_load_config nvs_crc32 read_ok
        (corrupt_stored_byte i b (storage_save_config nvs_crc32 true commit_ok r st).2)).2.1
        = List.replicate CONFIG_RECORD_SIZE 0 ∧
      (storage_load_config nvs_crc32 true
          (storage_save_config nvs_crc32 true commit_ok r st).2).1 = true ∧
      (storage_load_config nvs_crc32 true
          (storage_save_config nvs_crc32 true commit_ok r st).2).2.1 = r ∧
      (∀ (ok : Bool) (st1 : StorageState),
        (storage_load_config nvs_crc32 ok st1).1 = true ↔
          st1.nvs_handle_val ≠ 0 ∧ ok = true ∧
            ∃ e, st1.nvs_config = some e ∧ e.data.length = CONFIG_RECORD_SIZE ∧
              nvs_crc32 e.data = e.data_crc32) := by
  have hs := storage_save_config_stored nvs_crc32 commit_ok r st hlen hh hm
  have hc : (corrupt_stored_byte i b
      (storage_save_config nvs_crc32 true commit_ok r st).2).nvs_config
      = some { data := r.set i (b % 256), data_crc32 := nvs_crc32 r } := by
    unfold corrupt_stored_byte
    simp only [hs.2.1, Option.map_some']
  have hrej := storage_load_config_reject nvs_crc32 read_ok
    (corrupt_stored_byte i b (storage_save_config nvs_crc32 true commit_ok r st).2) (by
      rintro ⟨_, _, e, he, _, hcrc⟩
      rw [hc] at he
      have he2 := Option.some.inj he
      rw [← he2] at hcrc
      exact hdet hcrc)
  have hacc := storage_load_config_accept nvs_crc32
    (storage_save_config nvs_crc32 true commit_ok r st).2
    { data := r, data_crc32 := nvs_crc32 r } (by rw [hs.2.2]; exact hh) hs.2.1 hlen rfl
  refine ⟨hs.1, hrej.1, hrej.2, ?_, ?_, ?_⟩
  · rw [hacc]
  · rw [hacc]
  · intro ok st1
    exact storage_load_config_true_iff nvs_crc32 ok st1

/-- Witness for C11: the record `record_bytes` is saved, the byte at offset 3
is changed from 4 to 255 (the byte sum standing for the CRC32), and the load
that follows returns `false` with an all-zero record. -/
theorem corrupted_record_not_loaded_witness :
    record_bytes.length = CONFIG_RECORD_SIZE ∧ storage_ready.nvs_handle_val ≠ 0 ∧
      storage_ready.storage_pending_mask &&& STORAGE_WRITE_CONFIG_MASK = 0 ∧
      crc_byte_sum (record_bytes.set 3 (255 % 256)) ≠ crc_byte_sum record_bytes ∧
      (storage_load_config crc_byte_sum true
        (corrupt_stored_byte 3 255
          (storage_save_config crc_byte_sum true true record_bytes storage_ready).2)).1
        = false ∧
      (storage_load_config crc_byte_sum true
        (corrupt_stored_byte 3 255
          (storage_save_config crc_byte_sum true true record_bytes storage_ready).2)).2.1
        = List.replicate CONFIG_RECORD_SIZE 0 ∧
      (storage_load_config crc_byte_sum true
          (storage_save_config crc_byte_sum true true record_bytes storage_ready).2).2.1
        = record_bytes :=
  ⟨by decide, by decide, by decide, by decide,
    (corrupted_record_not_loaded crc_byte_sum true true record_bytes 3 255 storage_ready
      (by decide) (by decide) (by decide) (by decide)).2.1,
    (corrupted_record_not_loaded crc_byte_sum true true record_bytes 3 255 storage_ready
      (by decide) (by decide) (by decide) (by decide)).2.2.1,
    (corrupted_record_not_loaded crc_byte_sum true true record_bytes 3 255 storage_ready
      (by decide) (by decide) (by decide) (by decide)).2.2.2.2.1⟩

/-! ## Optical decoder: the filter pass -/

theorem pickup_loop_value (q : Nat → Nat) (j : Nat) :
    ∀ (n i : Nat) (mb : List Nat), j + 4 ≤ n →
      (pickup_loop q n i mb).2.getD (j + 3) 0
        = (((((q (i + j) % 256 + q (i + j + 1) % 256) % 256 + q (i + j + 2) % 256) % 256
            + q (i + j) % 256) % 256 + 2) / 4) % 256 := by
  induction j with
  | zero =>
    intro n i mb hn
    obtain ⟨k, rfl⟩ : ∃ k, n = k + 4 := ⟨n - 4, by omega⟩
    simp [pickup_loop, pickup_step]
  | succ j ih =>
    intro n i mb hn
    obtain ⟨k, rfl⟩ : ∃ k, n = k + 1 := ⟨n - 1, by omega⟩
    have h := ih k (i + 1) (pickup_step mb (q i)).1 (by omega)
    have e1 : i + 1 + j = i + (j + 1) := by omega
    rw [e1] at h
    show (pickup_loop q k (i + 1) (pickup_step mb (q i)).1).2.getD (j + 3) 0 = _
    exact h

theorem light_code_pickup_value (lc : LightCodeState) (i : Nat)
    (hq : lc.queue_ptr_null = false) (hn : lc.queue_index ≠ 0) (h3 : 3 ≤ i)
    (hi : i < SENSE_QUEUE_SIZE) :
    (light_code_pickup lc).queue i = pickup_value lc.queue i := by
  have hg : ¬ (lc.queue_ptr_null = true ∨ lc.queue_index = 0) := by
    rw [hq]
    simp [hn]
  unfold light_code_pickup
  rw [if_neg hg]
  dsimp only
  rw [if_pos hi]
  have h := pickup_loop_value lc.queue (i - 3) SENSE_QUEUE_SIZE 0 lc.mean_buffer
    (by simp only [SENSE_QUEUE_SIZE] at hi ⊢; omega)
  have e0 : i - 3 + 3 = i := by omega
  have e1 : 0 + (i - 3) + 1 = i - 2 := by omega
  have e2 : 0 + (i - 3) + 2 = i - 1 := by omega
  have e3 : 0 + (i - 3) = i - 3 := by omega
  rw [e0, e1, e2, e3] at h
  exact h

/-! ## Control cycle: the committing cycle and the lamp model -/

theorem algo_process_commit (f : Nat → AlgoConfigData → Nat) (now_us : Nat) (s : Sys)
    (h : cycle_commits f now_us s) :
    (ecolumiere_algo_process f now_us s).eco =
      algo_finish (ecolumiere_save_current_pwm f
        (float_to_uint 16 (algo_compute (algo_precommit f now_us s)).algo_data.pnew)
        (algo_compute (algo_precommit f now_us s))) := by
  obtain ⟨h1, h2⟩ := h
  unfold ecolumiere_algo_process
  have hg : ¬ ((algo_override_check now_us s.eco).2 = false) := by
    rw [h1]; decide
  dsimp only
  rw [if_neg hg]
  unfold algo_precommit at h2
  dsimp only at h2
  rw [if_neg h2]
  rfl

theorem ecolumiere_save_current_pwm_algo (f : Nat → AlgoConfigData → Nat) (l : Nat)
    (e : EcoState) :
    (ecolumiere_save_current_pwm f l e).algo_data = e.algo_data ∧
      (ecolumiere_save_current_pwm f l e).algo_avg = e.algo_avg ∧
      (ecolumiere_save_current_pwm f l e).algo_avg_live = e.algo_avg_live := by
  unfold ecolumiere_save_current_pwm
  split_ifs <;> exact ⟨rfl, rfl, rfl⟩

theorem algo_process_commit_data (f : Nat → AlgoConfigData → Nat) (now_us : Nat) (s : Sys)
    (h : cycle_commits f now_us s) :
    (ecolumiere_algo_process f now_us s).eco.algo_data =
      { (algo_compute (algo_precommit f now_us s)).algo_data with
        enatural := (algo_compute (algo_precommit f now_us s)).algo_avg_live.enatural
        eenv := (algo_compute (algo_precommit f now_us s)).algo_avg_live.eenv } := by
  rw [algo_process_commit f now_us s h]
  have hs := ecolumiere_save_current_pwm_algo f
    (float_to_uint 16 (algo_compute (algo_precommit f now_us s)).algo_data.pnew)
    (algo_compute (algo_precommit f now_us s))
  unfold algo_finish
  dsimp only
  rw [hs.1, hs.2.2]

theorem ite_lt_eq_max (a b : ℚ) : (if a < b then b else a) = max a b := by
  rw [max_def]
  split_ifs with h1 h2 h2
  · rfl
  · exact absurd (le_of_lt h1) h2
  · exact le_antisymm (not_lt.mp h1) h2 |>.symm ▸ rfl
  · rfl

theorem ite_gt_eq_min (a b : ℚ) : (if a > b then b else a) = min a b := by
  rw [min_def]
  split_ifs with h1 h2 h2
  · exact absurd h2 (not_le.mpr h1)
  · rfl
  · rfl
  · exact absurd (le_of_not_lt h1) h2

theorem algo_compute_data (e : EcoState) :
    (algo_compute e).algo_data = lamp_model e.algo_data e.algo_avg.natural_sum e.algo_avg.env_sum
      ∧ (algo_compute e).algo_avg_live = e.algo_avg_live := by
  refine ⟨?_, rfl⟩
  unfold lamp_model
  simp only [← ite_lt_eq_max, ← ite_gt_eq_min]
  unfold algo_compute ecolumiuere_avg_calulator
  dsimp only
  split_ifs <;> rfl

theorem duty_formula_antitone (T dimm tr eff dist emin elamp en top x1 x2 : ℚ) (hx : x1 ≤ x2)
    (hT : 0 ≤ T) (hen : 0 ≤ en) (htr : 0 ≤ tr) (heff : 0 ≤ eff) (hdimm : 0 ≤ dimm) :
    min ((max (elamp + (if en ≠ 0 then (T - (elamp + max x2 en)) * ((en / T) * dimm)
          else (T - (elamp + max x2 en)) * dimm)) emin * dist * dist) / (eff * tr)) top
      ≤ min ((max (elamp + (if en ≠ 0 then (T - (elamp + max x1 en)) * ((en / T) * dimm)
          else (T - (elamp + max x1 en)) * dimm)) emin * dist * dist) / (eff * tr)) top := by
  have hm : max x1 en ≤ max x2 en := max_le_max hx le_rfl
  have hv : (if en ≠ 0 then (T - (elamp + max x2 en)) * ((en / T) * dimm)
        else (T - (elamp + max x2 en)) * dimm)
      ≤ (if en ≠ 0 then (T - (elamp + max x1 en)) * ((en / T) * dimm)
        else (T - (elamp + max x1 en)) * dimm) := by
    split_ifs
    · exact mul_le_mul_of_nonneg_right (by linarith) (mul_nonneg (div_nonneg hen hT) hdimm)
    · exact mul_le_mul_of_nonneg_right (by linarith) hdimm
  have he := max_le_max (add_le_add_left hv elamp) (le_refl emin)
  have hd : 0 ≤ dist * dist := mul_self_nonneg dist
  apply min_le_min _ le_rfl
  apply div_le_div_of_nonneg_right _ (mul_nonneg heff htr)
  rw [mul_assoc, mul_assoc]
  exact mul_le_mul_of_nonneg_right he hd

theorem lamp_model_pnew_antitone (d : AlgoData) (n e1 e2 : Nat) (h : e1 ≤ e2)
    (htr : 0 ≤ d.transparency) (heff : 0 ≤ d.power_efficiency) (hdimm : 0 ≤ d.dimm_step) :
    (lamp_model d n e2).pnew ≤ (lamp_model d n e1).pnew := by
  have hq : ((e1 / ALGO_AVG_LAST : Nat) : ℚ) ≤ ((e2 / ALGO_AVG_LAST : Nat) : ℚ) :=
    Nat.cast_le.mpr (Nat.div_le_div_right h)
  have hdd : 0 ≤ d.distance * d.distance := mul_self_nonneg d.distance
  have hen : 0 ≤ ((n / ALGO_AVG_LAST : Nat) : ℚ) / d.transparency :=
    div_nonneg (Nat.cast_nonneg _) htr
  have hT : (0 : ℚ) ≤ (d.target_lux : ℚ) := Nat.cast_nonneg _
  have henv : (if d.in_pl = 2 then
        ((e1 / ALGO_AVG_LAST : Nat) : ℚ) / ((d.distance * d.distance) * d.transparency)
      else ((e1 / ALGO_AVG_LAST : Nat) : ℚ) * ((d.distance * d.distance) / d.transparency))
      ≤ (if d.in_pl = 2 then
        ((e2 / ALGO_AVG_LAST : Nat) : ℚ) / ((d.distance * d.distance) * d.transparency)
      else ((e2 / ALGO_AVG_LAST : Nat) : ℚ) * ((d.distance * d.distance) / d.transparency)) := by
    split_ifs
    · exact div_le_div_of_nonneg_right hq (mul_nonneg hdd htr)
    · exact mul_le_mul_of_nonneg_right hq (div_nonneg hdd htr)
  unfold lamp_model
  dsimp only
  exact duty_formula_antitone _ _ _ _ _ _ _ _ _ _ _ henv hT hen htr heff hdimm

theorem lamp_model_pnew_congr (d1 d2 : AlgoData) (n m : Nat)
    (h1 : d1.target_lux = d2.target_lux) (h2 : d1.perc_min = d2.perc_min)
    (h3 : d1.distance = d2.distance) (h4 : d1.in_pl = d2.in_pl)
    (h5 : d1.power_efficiency = d2.power_efficiency) (h6 : d1.transparency = d2.transparency)
    (h7 : d1.dimm_step = d2.dimm_step) (h8 : d1.emax = d2.emax) (h9 : d1.pnew = d2.pnew) :
    (lamp_model d1 n m).pnew = (lamp_model d2 n m).pnew := by
  unfold lamp_model
  dsimp only
  rw [h1, h2, h3, h4, h5, h6, h7, h8, h9]

theorem lamp_model_bounds (d : AlgoData) (n m : Nat) (hp : 0 ≤ d.perc_min) (hm : 0 ≤ d.emax)
    (he : 0 < d.power_efficiency * d.transparency) :
    0 ≤ (lamp_model d n m).pnew ∧ (lamp_model d n m).pnew ≤ (LIGHT_MAX_LEVEL : ℚ) := by
  unfold lamp_model
  dsimp only
  constructor
  · apply le_min
    · apply div_nonneg _ (le_of_lt he)
      rw [mul_assoc]
      exact mul_nonneg (le_trans (mul_nonneg hp hm) (le_max_right _ _)) (mul_self_nonneg _)
    · simp [LIGHT_MAX_LEVEL]
  · exact min_le_right _ _

theorem algo_override_check_fields (now_us : Nat) (e : EcoState) :
    (algo_override_check now_us e).1.algo_avg = e.algo_avg ∧
      (algo_override_check now_us e).1.algo_avg_live = e.algo_avg_live ∧
      (algo_override_check now_us e).1.algo_data = e.algo_data ∧
      (algo_override_check now_us e).1.algo_config_data = e.algo_config_data ∧
      (algo_override_check now_us e).1.test_on = e.test_on := by
  unfold algo_override_check
  dsimp only
  split_ifs <;> exact ⟨rfl, rfl, rfl, rfl, rfl⟩

theorem update_algo_data_congr (f : Nat → AlgoConfigData → Nat) (e1 e2 : EcoState)
    (hd : e1.algo_data = e2.algo_data) (hc : e1.algo_config_data = e2.algo_config_data)
    (ht : e1.test_on = e2.test_on) :
    (ecolumiere_update_algo_data f e1).algo_data = (ecolumiere_update_algo_data f e2).algo_data := by
  unfold ecolumiere_update_algo_data ecolumiere_has_valid_config
  dsimp only
  rw [hd, hc, ht]

theorem update_algo_data_keeps (f : Nat → AlgoConfigData → Nat) (e : EcoState) :
    (ecolumiere_update_algo_data f e).algo_avg = e.algo_avg ∧
      (ecolumiere_update_algo_data f e).algo_avg_live = e.algo_avg_live ∧
      (ecolumiere_update_algo_data f e).natural_avg = e.natural_avg ∧
      (ecolumiere_update_algo_data f e).env_avg = e.env_avg ∧
      (ecolumiere_update_algo_data f e).algo_data.pnew = e.algo_data.pnew := by
  refine ⟨rfl, rfl, rfl, rfl, ?_⟩
  unfold ecolumiere_update_algo_data
  dsimp only
  split_ifs <;> rfl

theorem algo_precommit_window (f : Nat → AlgoConfigData → Nat) (now_us : Nat) (s : Sys) :
    (algo_precommit f now_us s).algo_avg.natural_sum
        = to_u32 (s.eco.algo_avg.natural_sum + s.eco.natural_avg.measure) ∧
      (algo_precommit f now_us s).algo_avg.env_sum
        = to_u32 (s.eco.algo_avg.env_sum + s.eco.env_avg.measure) ∧
      (algo_precommit f now_us s).algo_avg.count = (s.eco.algo_avg.count + 1) % 256 ∧
      (algo_precommit f now_us s).algo_avg.size = s.eco.algo_avg.size := by
  have h1 := algo_override_check_fields now_us s.eco
  have h2 := algo_override_check_avgs now_us s.eco
  have h3 := update_algo_data_keeps f (algo_override_check now_us s.eco).1
  unfold algo_precommit algo_accumulate
  dsimp only
  split_ifs <;> dsimp only <;> rw [h3.1, h3.2.2.1, h3.2.2.2.1, h1.1, h2.1, h2.2] <;>
    exact ⟨rfl, rfl, rfl, rfl⟩

theorem algo_precommit_params (f : Nat → AlgoConfigData → Nat) (now_us : Nat) (s : Sys) :
    (algo_precommit f now_us s).algo_data.target_lux
        = (ecolumiere_update_algo_data f s.eco).algo_data.target_lux ∧
      (algo_precommit f now_us s).algo_data.perc_min
        = (ecolumiere_update_algo_data f s.eco).algo_data.perc_min ∧
      (algo_precommit f now_us s).algo_data.distance
        = (ecolumiere_update_algo_data f s.eco).algo_data.distance ∧
      (algo_precommit f now_us s).algo_data.in_pl
        = (ecolumiere_update_algo_data f s.eco).algo_data.in_pl ∧
      (algo_precommit f now_us s).algo_data.power_efficiency
        = (ecolumiere_update_algo_data f s.eco).algo_data.power_efficiency ∧
      (algo_precommit f now_us s).algo_data.transparency
        = (ecolumiere_update_algo_data f s.eco).algo_data.transparency ∧
      (algo_precommit f now_us s).algo_data.dimm_step
        = (ecolumiere_update_algo_data f s.eco).algo_data.dimm_step ∧
      (algo_precommit f now_us s).algo_data.emax
        = (ecolumiere_update_algo_data f s.eco).algo_data.emax ∧
      (algo_precommit f now_us s).algo_data.pnew
        = (ecolumiere_update_algo_data f s.eco).algo_data.pnew := by
  have h1 := algo_override_check_fields now_us s.eco
  have h2 := update_algo_data_congr f (algo_override_check now_us s.eco).1 s.eco
    h1.2.2.1 h1.2.2.2.1 h1.2.2.2.2
  unfold algo_precommit algo_accumulate
  dsimp only
  split_ifs <;> dsimp only <;> rw [h2] <;> exact ⟨rfl, rfl, rfl, rfl, rfl, rfl, rfl, rfl, rfl⟩

theorem to_u32_of_range (x : Int) (h0 : 0 ≤ x) (h1 : x < 4294967296) : to_u32 x = x.toNat := by
  unfold to_u32
  rw [Int.emod_eq_of_lt h0 h1]

theorem cycle_commits_with_env_measure (f : Nat → AlgoConfigData → Nat) (now_us : Nat) (s : Sys)
    (m1 m2 : Int) (h : cycle_commits f now_us (with_env_measure m1 s)) :
    cycle_commits f now_us (with_env_measure m2 s) := by
  have w1 := algo_precommit_window f now_us (with_env_measure m1 s)
  have w2 := algo_precommit_window f now_us (with_env_measure m2 s)
  obtain ⟨h1, h2⟩ := h
  have hg : (algo_override_check now_us (with_env_measure m2 s).eco).2
      = (algo_override_check now_us (with_env_measure m1 s).eco).2 := by
    unfold algo_override_check with_env_measure
    dsimp only
    split_ifs <;> rfl
  refine ⟨?_, ?_⟩
  · rw [hg]
    exact h1
  · rw [w2.2.2.1, w2.2.2.2]
    rw [w1.2.2.1, w1.2.2.2] at h2
    exact h2

theorem committed_pnew (f : Nat → AlgoConfigData → Nat) (now_us : Nat) (s : Sys)
    (h : cycle_commits f now_us s) :
    (committed_data f now_us s).pnew =
      (lamp_model (ecolumiere_update_algo_data f s.eco).algo_data
        (to_u32 (s.eco.algo_avg.natural_sum + s.eco.natural_avg.measure))
        (to_u32 (s.eco.algo_avg.env_sum + s.eco.env_avg.measure))).pnew := by
  have hd := algo_process_commit_data f now_us s h
  have hx := (algo_compute_data (algo_precommit f now_us s)).1
  have hw := algo_precommit_window f now_us s
  have hp := algo_precommit_params f now_us s
  unfold committed_data
  rw [hd]
  show (algo_compute (algo_precommit f now_us s)).algo_data.pnew = _
  rw [hx, hw.1, hw.2.1]
  exact lamp_model_pnew_congr _ _ _ _ hp.1 hp.2.1 hp.2.2.1 hp.2.2.2.1 hp.2.2.2.2.1
    hp.2.2.2.2.2.1 hp.2.2.2.2.2.2.1 hp.2.2.2.2.2.2.2.1 hp.2.2.2.2.2.2.2.2

theorem slow_window_commit_value (f : Nat → AlgoConfigData → Nat) (now_us : Nat) (s : Sys)
    (h : cycle_commits f now_us s) :
    (ecolumiere_algo_process f now_us s).eco.algo_avg.enatural =
      (((to_u32 (s.eco.algo_avg.natural_sum + s.eco.natural_avg.measure)) / ALGO_AVG_LAST
          : Nat) : ℚ)
        / (ecolumiere_update_algo_data f s.eco).algo_data.transparency := by
  have hw := algo_precommit_window f now_us s
  have hp := algo_precommit_params f now_us s
  have hs := ecolumiere_save_current_pwm_algo f
    (float_to_uint 16 (algo_compute (algo_precommit f now_us s)).algo_data.pnew)
    (algo_compute (algo_precommit f now_us s))
  rw [algo_process_commit f now_us s h]
  show (ecolumiere_save_current_pwm f _ _).algo_avg.enatural = _
  rw [hs.2.1]
  show (((algo_precommit f now_us s).algo_avg.natural_sum / ALGO_AVG_LAST : Nat) : ℚ)
    / (algo_precommit f now_us s).algo_data.transparency = _
  rw [hw.1, hp.2.2.2.2.2.1]

/-! ## Lamp model, claims C13 and C14 -/

theorem duty_formula_strict (T dimm tr eff dist emin elamp en top x1 x2 : ℚ) (hx : x1 < x2)
    (hn : en < x2) (hT : 0 < T) (hen : 0 ≤ en) (htr : 0 < tr) (heff : 0 < eff)
    (hdimm : 0 < dimm) (hdist : dist ≠ 0) :
    min ((max (elamp + (if en ≠ 0 then (T - (elamp + max x2 en)) * ((en / T) * dimm)
          else (T - (elamp + max x2 en)) * dimm)) emin * dist * dist) / (eff * tr)) top
      < min ((max (elamp + (if en ≠ 0 then (T - (elamp + max x1 en)) * ((en / T) * dimm)
          else (T - (elamp + max x1 en)) * dimm)) emin * dist * dist) / (eff * tr)) top ∨
    min ((max (elamp + (if en ≠ 0 then (T - (elamp + max x2 en)) * ((en / T) * dimm)
          else (T - (elamp + max x2 en)) * dimm)) emin * dist * dist) / (eff * tr)) top
      = (emin * dist * dist) / (eff * tr) ∨
    min ((max (elamp + (if en ≠ 0 then (T - (elamp + max x2 en)) * ((en / T) * dimm)
          else (T - (elamp + max x2 en)) * dimm)) emin * dist * dist) / (eff * tr)) top
      = top := by
  have hm : max x1 en < max x2 en := by
    rw [max_eq_left (le_of_lt hn)]
    exact max_lt hx hn
  have hv : (if en ≠ 0 then (T - (elamp + max x2 en)) * ((en / T) * dimm)
        else (T - (elamp + max x2 en)) * dimm)
      < (if en ≠ 0 then (T - (elamp + max x1 en)) * ((en / T) * dimm)
        else (T - (elamp + max x1 en)) * dimm) := by
    split_ifs with h0
    · have hpos : 0 < en := lt_of_le_of_ne hen (Ne.symm h0)
      exact mul_lt_mul_of_pos_right (by linarith) (mul_pos (div_pos hpos hT) hdimm)
    · exact mul_lt_mul_of_pos_right (by linarith) hdimm
  generalize (if en ≠ 0 then (T - (elamp + max x2 en)) * ((en / T) * dimm)
        else (T - (elamp + max x2 en)) * dimm) = v2 at hv ⊢
  generalize (if en ≠ 0 then (T - (elamp + max x1 en)) * ((en / T) * dimm)
        else (T - (elamp + max x1 en)) * dimm) = v1 at hv ⊢
  have hd : 0 < dist * dist := mul_self_pos.mpr hdist
  have hk : 0 < eff * tr := mul_pos heff htr
  by_cases hfloor : elamp + v2 ≤ emin
  · rw [max_eq_right hfloor]
    by_cases htop : (emin * dist * dist) / (eff * tr) ≤ top
    · right; left
      exact min_eq_left htop
    · right; right
      exact min_eq_right (le_of_lt (not_le.mp htop))
  · have hA : emin < elamp + v2 := not_le.mp hfloor
    rw [max_eq_left (le_of_lt hA)]
    by_cases htop : ((elamp + v2) * dist * dist) / (eff * tr) < top
    · left
      rw [min_eq_left (le_of_lt htop)]
      apply lt_min _ htop
      apply div_lt_div_of_pos_right _ hk
      rw [mul_assoc, mul_assoc]
      apply mul_lt_mul_of_pos_right _ hd
      exact lt_of_lt_of_le (by linarith) (le_max_left _ _)
    · right; right
      exact min_eq_right (not_lt.mp htop)

theorem duty_formula_plateau (T dimm tr eff dist emin elamp en top x1 x2 : ℚ)
    (h : max x1 en = max x2 en) :
    min ((max (elamp + (if en ≠ 0 then (T - (elamp + max x2 en)) * ((en / T) * dimm)
          else (T - (elamp + max x2 en)) * dimm)) emin * dist * dist) / (eff * tr)) top
      = min ((max (elamp + (if en ≠ 0 then (T - (elamp + max x1 en)) * ((en / T) * dimm)
          else (T - (elamp + max x1 en)) * dimm)) emin * dist * dist) / (eff * tr)) top := by
  rw [h]

/-- The normalised environment illuminance of the flushed slow window grows
with the window sum, and strictly so when the integer quotient by
`ALGO_AVG_LAST` grows. -/
theorem slow_eenv_mono (d : AlgoData) (e1 e2 : Nat) (htr : 0 < d.transparency)
    (hdist : d.distance ≠ 0) :
    (e1 ≤ e2 →
      (if d.in_pl = 2 then
          ((e1 / ALGO_AVG_LAST : Nat) : ℚ) / ((d.distance * d.distance) * d.transparency)
        else ((e1 / ALGO_AVG_LAST : Nat) : ℚ) * ((d.distance * d.distance) / d.transparency))
      ≤ (if d.in_pl = 2 then
          ((e2 / ALGO_AVG_LAST : Nat) : ℚ) / ((d.distance * d.distance) * d.transparency)
        else ((e2 / ALGO_AVG_LAST : Nat) : ℚ) * ((d.distance * d.distance) / d.transparency))) ∧
    (e1 / ALGO_AVG_LAST < e2 / ALGO_AVG_LAST ↔
      (if d.in_pl = 2 then
          ((e1 / ALGO_AVG_LAST : Nat) : ℚ) / ((d.distance * d.distance) * d.transparency)
        else ((e1 / ALGO_AVG_LAST : Nat) : ℚ) * ((d.distance * d.distance) / d.transparency))
      < (if d.in_pl = 2 then
          ((e2 / ALGO_AVG_LAST : Nat) : ℚ) / ((d.distance * d.distance) * d.transparency)
        else ((e2 / ALGO_AVG_LAST : Nat) : ℚ) * ((d.distance * d.distance) / d.transparency))) := by
  have hdd : 0 < d.distance * d.distance := mul_self_pos.mpr hdist
  constructor
  · intro h
    have hq : ((e1 / ALGO_AVG_LAST : Nat) : ℚ) ≤ ((e2 / ALGO_AVG_LAST : Nat) : ℚ) :=
      Nat.cast_le.mpr (Nat.div_le_div_right h)
    split_ifs
    · exact div_le_div_of_nonneg_right hq (le_of_lt (mul_pos hdd htr))
    · exact mul_le_mul_of_nonneg_right hq (le_of_lt (div_pos hdd htr))
  · split_ifs
    · rw [div_lt_div_iff_of_pos_right (mul_pos hdd htr), Nat.cast_lt]
    · rw [mul_lt_mul_right (div_pos hdd htr), Nat.cast_lt]

theorem lamp_model_pnew_strict (d : AlgoData) (n e1 e2 : Nat)
    (hx : (if d.in_pl = 2 then
          ((e1 / ALGO_AVG_LAST : Nat) : ℚ) / ((d.distance * d.distance) * d.transparency)
        else ((e1 / ALGO_AVG_LAST : Nat) : ℚ) * ((d.distance * d.distance) / d.transparency))
      < (if d.in_pl = 2 then
          ((e2 / ALGO_AVG_LAST : Nat) : ℚ) / ((d.distance * d.distance) * d.transparency)
        else ((e2 / ALGO_AVG_LAST : Nat) : ℚ) * ((d.distance * d.distance) / d.transparency)))
    (hn : ((n / ALGO_AVG_LAST : Nat) : ℚ) / d.transparency
      < (if d.in_pl = 2 then
          ((e2 / ALGO_AVG_LAST : Nat) : ℚ) / ((d.distance * d.distance) * d.transparency)
        else ((e2 / ALGO_AVG_LAST : Nat) : ℚ) * ((d.distance * d.distance) / d.transparency)))
    (htr : 0 < d.transparency) (heff : 0 < d.power_efficiency) (hdimm : 0 < d.dimm_step)
    (hdist : d.distance ≠ 0) (hT : 0 < d.target_lux) :
    (lamp_model d n e2).pnew < (lamp_model d n e1).pnew ∨
      (lamp_model d n e2).pnew
        = (d.perc_min * d.emax * d.distance * d.distance)
          / (d.power_efficiency * d.transparency) ∨
      (lamp_model d n e2).pnew = (LIGHT_MAX_LEVEL : ℚ) := by
  have hen : 0 ≤ ((n / ALGO_AVG_LAST : Nat) : ℚ) / d.transparency :=
    div_nonneg (Nat.cast_nonneg _) (le_of_lt htr)
  have hT2 : (0 : ℚ) < (d.target_lux : ℚ) := Nat.cast_pos.mpr hT
  unfold lamp_model
  dsimp only
  exact duty_formula_strict _ _ _ _ _ _ _ _ _ _ _ hx hn hT2 hen htr heff hdimm hdist

theorem lamp_model_pnew_plateau (d : AlgoData) (n e1 e2 : Nat)
    (h : max (if d.in_pl = 2 then
          ((e1 / ALGO_AVG_LAST : Nat) : ℚ) / ((d.distance * d.distance) * d.transparency)
        else ((e1 / ALGO_AVG_LAST : Nat) : ℚ) * ((d.distance * d.distance) / d.transparency))
        (((n / ALGO_AVG_LAST : Nat) : ℚ) / d.transparency)
      = max (if d.in_pl = 2 then
          ((e2 / ALGO_AVG_LAST : Nat) : ℚ) / ((d.distance * d.distance) * d.transparency)
        else ((e2 / ALGO_AVG_LAST : Nat) : ℚ) * ((d.distance * d.distance) / d.transparency))
        (((n / ALGO_AVG_LAST : Nat) : ℚ) / d.transparency)) :
    (lamp_model d n e2).pnew = (lamp_model d n e1).pnew := by
  unfold lamp_model
  dsimp only
  exact duty_formula_plateau _ _ _ _ _ _ _ _ _ _ _ h

/-- The slow window left by a committing cycle: the illuminances that
`ecolumiuere_avg_calulator` computed at the flush, from the sums of the window
and the parameters loaded by step 2. -/
theorem committed_window_values (f : Nat → AlgoConfigData → Nat) (now_us : Nat) (s : Sys)
    (h : cycle_commits f now_us s) :
    (committed_window f now_us s).enatural =
        (((to_u32 (s.eco.algo_avg.natural_sum + s.eco.natural_avg.measure)) / ALGO_AVG_LAST
            : Nat) : ℚ)
          / (ecolumiere_update_algo_data f s.eco).algo_data.transparency ∧
      (committed_window f now_us s).eenv =
        (if (ecolumiere_update_algo_data f s.eco).algo_data.in_pl = 2 then
          (((to_u32 (s.eco.algo_avg.env_sum + s.eco.env_avg.measure)) / ALGO_AVG_LAST
              : Nat) : ℚ)
            / (((ecolumiere_update_algo_data f s.eco).algo_data.distance
                * (ecolumiere_update_algo_data f s.eco).algo_data.distance)
              * (ecolumiere_update_algo_data f s.eco).algo_data.transparency)
        else
          (((to_u32 (s.eco.algo_avg.env_sum + s.eco.env_avg.measure)) / ALGO_AVG_LAST
              : Nat) : ℚ)
            * (((ecolumiere_update_algo_data f s.eco).algo_data.distance
                * (ecolumiere_update_algo_data f s.eco).algo_data.distance)
              / (ecolumiere_update_algo_data f s.eco).algo_data.transparency)) := by
  have hw := algo_precommit_window f now_us s
  have hp := algo_precommit_params f now_us s
  have hs := ecolumiere_save_current_pwm_algo f
    (float_to_uint 16 (algo_compute (algo_precommit f now_us s)).algo_data.pnew)
    (algo_compute (algo_precommit f now_us s))
  unfold committed_window
  rw [algo_process_commit f now_us s h]
  constructor
  · show (ecolumiere_save_current_pwm f _ _).algo_avg.enatural = _
    rw [hs.2.1]
    show (((algo_precommit f now_us s).algo_avg.natural_sum / ALGO_AVG_LAST : Nat) : ℚ)
      / (algo_precommit f now_us s).algo_data.transparency = _
    rw [hw.1, hp.2.2.2.2.2.1]
  · show (ecolumiere_save_current_pwm f _ _).algo_avg.eenv = _
    rw [hs.2.1]
    show (if (algo_precommit f now_us s).algo_data.in_pl = 2 then
        (((algo_precommit f now_us s).algo_avg.env_sum / ALGO_AVG_LAST : Nat) : ℚ)
          / (((algo_precommit f now_us s).algo_data.distance
              * (algo_precommit f now_us s).algo_data.distance)
            * (algo_precommit f now_us s).algo_data.transparency)
      else
        (((algo_precommit f now_us s).algo_avg.env_sum / ALGO_AVG_LAST : Nat) : ℚ)
          * (((algo_precommit f now_us s).algo_data.distance
              * (algo_precommit f now_us s).algo_data.distance)
            / (algo_precommit f now_us s).algo_data.transparency)) = _
    rw [hw.2.1, hp.2.2.2.2.2.1, hp.2.2.1, hp.2.2.2.1]

/-- With a valid stored configuration and the test mode off, step 2 loads
`emax = 32 * efficiency * transparency / distance^2`. -/
theorem update_algo_data_emax (f : Nat → AlgoConfigData → Nat) (e : EcoState)
    (hv : ecolumiere_has_valid_config f e = true) (ht : e.test_on = false) :
    (ecolumiere_update_algo_data f e).algo_data.emax
      = ((LIGHT_MAX_LEVEL : ℚ) * (ecolumiere_update_algo_data f e).algo_data.power_efficiency
          * (ecolumiere_update_algo_data f e).algo_data.transparency)
        / ((ecolumiere_update_algo_data f e).algo_data.distance
          * (ecolumiere_update_algo_data f e).algo_data.distance) := by
  unfold ecolumiere_update_algo_data
  dsimp only
  rw [hv, ht]
  simp only [if_true, Bool.false_eq_true, if_false]
  split_ifs <;> rfl

/-- C13 (counterexample): committing cycles from the same state and
configuration that differ only in the environment illuminance, the second
one larger, and compute the same duty, which is not the floor duty
(0.01 * 32 = 8/25 for the default configuration).  On `node_nine_cycles`,
150 and 168 both give 1237/240 (the window sums 1500 and 1518 have the same
integer quotient by 20), while 170 gives the smaller 10307/2000.  On
`node_dark_environment`, 20 and 40 both give 1241/240 (the normalised
environment illuminance, 1 and 2, stays below the natural one, 50, which
replaces it).  On `node_at_ceiling`, 150 and 170 both give the upper clamp
32. -/
theorem duty_not_strictly_decreasing :
    cycle_commits crc_zero 0 (with_env_measure 150 (node_nine_cycles crc_zero)) ∧
      cycle_commits crc_zero 0 (with_env_measure 168 (node_nine_cycles crc_zero)) ∧
      (committed_data crc_zero 0 (with_env_measure 150 (node_nine_cycles crc_zero))).pnew
        = 1237 / 240 ∧
      (committed_data crc_zero 0 (with_env_measure 168 (node_nine_cycles crc_zero))).pnew
        = 1237 / 240 ∧
      (committed_data crc_zero 0 (with_env_measure 168 (node_nine_cycles crc_zero))).perc_min
        * (LIGHT_MAX_LEVEL : ℚ) = 8 / 25 ∧
      cycle_commits crc_zero 0 (with_env_measure 170 (node_nine_cycles crc_zero)) ∧
      (committed_data crc_zero 0 (with_env_measure 170 (node_nine_cycles crc_zero))).pnew
        = 10307 / 2000 ∧
      cycle_commits crc_zero 0 (with_env_measure 20 node_dark_environment) ∧
      cycle_commits crc_zero 0 (with_env_measure 40 node_dark_environment) ∧
      (committed_window crc_zero 0 (with_env_measure 20 node_dark_environment)).eenv = 1 ∧
      (committed_window crc_zero 0 (with_env_measure 40 node_dark_environment)).eenv = 2 ∧
      (committed_window crc_zero 0 (with_env_measure 40 node_dark_environment)).enatural
        = 50 ∧
      (committed_data crc_zero 0 (with_env_measure 20 node_dark_environment)).pnew = 1241 / 240 ∧
      (committed_data crc_zero 0 (with_env_measure 40 node_dark_environment)).pnew = 1241 / 240 ∧
      (committed_data crc_zero 0 (with_env_measure 40 node_dark_environment)).perc_min
        * (LIGHT_MAX_LEVEL : ℚ) = 8 / 25 ∧
      cycle_commits crc_zero 0 (with_env_measure 150 node_at_ceiling) ∧
      cycle_commits crc_zero 0 (with_env_measure 170 node_at_ceiling) ∧
      (committed_window crc_zero 0 (with_env_measure 150 node_at_ceiling)).eenv = 75 ∧
      (committed_window crc_zero 0 (with_env_measure 170 node_at_ceiling)).eenv = 76 ∧
      (committed_data crc_zero 0 (with_env_measure 150 node_at_ceiling)).pnew = 32 ∧
      (committed_data crc_zero 0 (with_env_measure 170 node_at_ceiling)).pnew = 32 ∧
      (committed_data crc_zero 0 (with_env_measure 170 node_at_ceiling)).perc_min
        * (LIGHT_MAX_LEVEL : ℚ) = 8 / 25 := by
  decide!

/-- C13 (amended): for two committing control cycles of
`ecolumiere_algo_process` that start from the same state and configuration and
differ only in the environment illuminance, `m1 ≤ m2` (no wrap of the 32-bit
sum), when the parameters loaded by step 2 have a positive transparency, a
positive efficiency, a non-negative dimming step, a non-zero distance and a
positive target: the second cycle commits too and its duty is not larger than
the duty of the first.  The normalised environment illuminance `eenv` of the
flushed slow window is not smaller in the second cycle, and strictly larger
exactly when the integer quotient by 20 of the window sum is larger, which it
is when `m2` exceeds `m1` by 20 or more.  If `eenv` is the same in both
cycles, or does not exceed the normalised natural illuminance `enatural` in
the second one, the two duties are equal.  If the dimming step is positive,
`eenv` is strictly larger in the second cycle and exceeds `enatural` there,
then the duty of the second cycle is strictly smaller than the duty of the
first, or it equals the floor duty
`perc_min * emax * distance^2 / (efficiency * transparency)`, or it equals
the upper clamp 32.  The floor duty is `perc_min * 32` when the stored
configuration is valid and the test mode is off. -/
theorem duty_antitone_in_environment_lux (f : Nat → AlgoConfigData → Nat) (now_us : Nat)
    (s : Sys) (m1 m2 : Int) (hm : m1 ≤ m2)
    (h0 : 0 ≤ (s.eco.algo_avg.env_sum : Int) + m1)
    (h1 : (s.eco.algo_avg.env_sum : Int) + m2 < 4294967296)
    (hc : cycle_commits f now_us (with_env_measure m1 s))
    (htr : 0 < (ecolumiere_update_algo_data f s.eco).algo_data.transparency)
    (heff : 0 < (ecolumiere_update_algo_data f s.eco).algo_data.power_efficiency)
    (hdimm : 0 ≤ (ecolumiere_update_algo_data f s.eco).algo_data.dimm_step)
    (hdist : (ecolumiere_update_algo_data f s.eco).algo_data.distance ≠ 0)
    (htarget : 0 < (ecolumiere_update_algo_data f s.eco).algo_data.target_lux) :
    cycle_commits f now_us (with_env_measure m2 s) ∧
      (committed_data f now_us (with_env_measure m2 s)).pnew
        ≤ (committed_data f now_us (with_env_measure m1 s)).pnew ∧
      (committed_window f now_us (with_env_measure m1 s)).eenv
        ≤ (committed_window f now_us (with_env_measure m2 s)).eenv ∧
      ((committed_window f now_us (with_env_measure m1 s)).eenv
          < (committed_window f now_us (with_env_measure m2 s)).eenv ↔
        ((s.eco.algo_avg.env_sum : Int) + m1) / 20 < ((s.eco.algo_avg.env_sum : Int) + m2) / 20) ∧
      (m1 + 20 ≤ m2 →
        (committed_window f now_us (with_env_measure m1 s)).eenv
          < (committed_window f now_us (with_env_measure m2 s)).eenv) ∧
      ((committed_window f now_us (with_env_measure m1 s)).eenv
            = (committed_window f now_us (with_env_measure m2 s)).eenv ∨
          (committed_window f now_us (with_env_measure m2 s)).eenv
            ≤ (committed_window f now_us (with_env_measure m2 s)).enatural →
        (committed_data f now_us (with_env_measure m2 s)).pnew
          = (committed_data f now_us (with_env_measure m1 s)).pnew) ∧
      (0 < (ecolumiere_update_algo_data f s.eco).algo_data.dimm_step →
        (committed_window f now_us (with_env_measure m1 s)).eenv
          < (committed_window f now_us (with_env_measure m2 s)).eenv →
        (committed_window f now_us (with_env_measure m2 s)).enatural
          < (committed_window f now_us (with_env_measure m2 s)).eenv →
        (committed_data f now_us (with_env_measure m2 s)).pnew
            < (committed_data f now_us (with_env_measure m1 s)).pnew ∨
          (committed_data f now_us (with_env_measure m2 s)).pnew
            = ((ecolumiere_update_algo_data f s.eco).algo_data.perc_min
                * (ecolumiere_update_algo_data f s.eco).algo_data.emax
                * (ecolumiere_update_algo_data f s.eco).algo_data.distance
                * (ecolumiere_update_algo_data f s.eco).algo_data.distance)
              / ((ecolumiere_update_algo_data f s.eco).algo_data.power_efficiency
                * (ecolumiere_update_algo_data f s.eco).algo_data.transparency) ∨
          (committed_data f now_us (with_env_measure m2 s)).pnew = (LIGHT_MAX_LEVEL : ℚ)) ∧
      (ecolumiere_has_valid_config f s.eco = true → s.eco.test_on = false →
        ((ecolumiere_update_algo_data f s.eco).algo_data.perc_min
            * (ecolumiere_update_algo_data f s.eco).algo_data.emax
            * (ecolumiere_update_algo_data f s.eco).algo_data.distance
            * (ecolumiere_update_algo_data f s.eco).algo_data.distance)
          / ((ecolumiere_update_algo_data f s.eco).algo_data.power_efficiency
            * (ecolumiere_update_algo_data f s.eco).algo_data.transparency)
          = (ecolumiere_update_algo_data f s.eco).algo_data.perc_min
            * (LIGHT_MAX_LEVEL : ℚ)) := by
  have hc2 := cycle_commits_with_env_measure f now_us s m1 m2 hc
  have hu1 : (ecolumiere_update_algo_data f (with_env_measure m1 s).eco).algo_data
      = (ecolumiere_update_algo_data f s.eco).algo_data :=
    update_algo_data_congr f _ _ rfl rfl rfl
  have hu2 : (ecolumiere_update_algo_data f (with_env_measure m2 s).eco).algo_data
      = (ecolumiere_update_algo_data f s.eco).algo_data :=
    update_algo_data_congr f _ _ rfl rfl rfl
  have hp1 := committed_pnew f now_us _ hc
  have hp2 := committed_pnew f now_us _ hc2
  have hw1 := committed_window_values f now_us _ hc
  have hw2 := committed_window_values f now_us _ hc2
  rw [hu1] at hp1 hw1
  rw [hu2] at hp2 hw2
  have he1 : to_u32 ((with_env_measure m1 s).eco.algo_avg.env_sum
      + (with_env_measure m1 s).eco.env_avg.measure)
      = ((s.eco.algo_avg.env_sum : Int) + m1).toNat :=
    to_u32_of_range ((s.eco.algo_avg.env_sum : Int) + m1) h0 (by omega)
  have he2 : to_u32 ((with_env_measure m2 s).eco.algo_avg.env_sum
      + (with_env_measure m2 s).eco.env_avg.measure)
      = ((s.eco.algo_avg.env_sum : Int) + m2).toNat :=
    to_u32_of_range ((s.eco.algo_avg.env_sum : Int) + m2) (by omega) h1
  have hn : to_u32 ((with_env_measure m2 s).eco.algo_avg.natural_sum
      + (with_env_measure m2 s).eco.natural_avg.measure)
      = to_u32 ((with_env_measure m1 s).eco.algo_avg.natural_sum
      + (with_env_measure m1 s).eco.natural_avg.measure) := rfl
  rw [he1] at hp1 hw1
  rw [he2, hn] at hp2 hw2
  rw [hp1, hp2, hw1.2, hw2.2, hw2.1]
  have hle : ((s.eco.algo_avg.env_sum : Int) + m1).toNat
      ≤ ((s.eco.algo_avg.env_sum : Int) + m2).toNat := by omega
  have hmono := slow_eenv_mono (ecolumiere_update_algo_data f s.eco).algo_data
    ((s.eco.algo_avg.env_sum : Int) + m1).toNat ((s.eco.algo_avg.env_sum : Int) + m2).toNat
    htr hdist
  have hq : (((s.eco.algo_avg.env_sum : Int) + m1).toNat / ALGO_AVG_LAST
        < ((s.eco.algo_avg.env_sum : Int) + m2).toNat / ALGO_AVG_LAST) ↔
      ((s.eco.algo_avg.env_sum : Int) + m1) / 20 < ((s.eco.algo_avg.env_sum : Int) + m2) / 20 := by
    unfold ALGO_AVG_LAST
    omega
  refine ⟨hc2, ?_, hmono.1 hle, ?_, ?_, ?_, ?_, ?_⟩
  · exact lamp_model_pnew_antitone _ _ _ _ hle (le_of_lt htr) (le_of_lt heff) hdimm
  · rw [← hmono.2, hq]
  · intro h20
    rw [← hmono.2, hq]
    omega
  · rintro (heq | hnat)
    · apply lamp_model_pnew_plateau
      rw [heq]
    · apply lamp_model_pnew_plateau
      rw [max_eq_right hnat, max_eq_right (le_trans (hmono.1 hle) hnat)]
  · intro hd hx hnat
    exact lamp_model_pnew_strict _ _ _ _ hx hnat htr heff hd hdist htarget
  · intro hv ht
    rw [update_algo_data_emax f s.eco hv ht]
    have hk : (ecolumiere_update_algo_data f s.eco).algo_data.power_efficiency
        * (ecolumiere_update_algo_data f s.eco).algo_data.transparency ≠ 0 :=
      ne_of_gt (mul_pos heff htr)
    have hdd : (ecolumiere_update_algo_data f s.eco).algo_data.distance
        * (ecolumiere_update_algo_data f s.eco).algo_data.distance ≠ 0 :=
      mul_ne_zero hdist hdist
    field_simp
    ring

theorem duty_antitone_in_environment_lux_witness :
    (150 : Int) ≤ 170 ∧
      cycle_commits crc_zero 0 (with_env_measure 170 (node_nine_cycles crc_zero)) ∧
      (committed_data crc_zero 0 (with_env_measure 170 (node_nine_cycles crc_zero))).pnew
        ≤ (committed_data crc_zero 0 (with_env_measure 150 (node_nine_cycles crc_zero))).pnew ∧
      ((committed_data crc_zero 0 (with_env_measure 170 (node_nine_cycles crc_zero))).pnew
          < (committed_data crc_zero 0 (with_env_measure 150 (node_nine_cycles crc_zero))).pnew ∨
        (committed_data crc_zero 0 (with_env_measure 170 (node_nine_cycles crc_zero))).pnew
          = ((ecolumiere_update_algo_data crc_zero (node_nine_cycles crc_zero).eco).algo_data.perc_min
              * (ecolumiere_update_algo_data crc_zero (node_nine_cycles crc_zero).eco).algo_data.emax
              * (ecolumiere_update_algo_data crc_zero (node_nine_cycles crc_zero).eco).algo_data.distance
              * (ecolumiere_update_algo_data crc_zero (node_nine_cycles crc_zero).eco).algo_data.distance)
            / ((ecolumiere_update_algo_data crc_zero
                  (node_nine_cycles crc_zero).eco).algo_data.power_efficiency
              * (ecolumiere_update_algo_data crc_zero
                  (node_nine_cycles crc_zero).eco).algo_data.transparency) ∨
        (committed_data crc_zero 0 (with_env_measure 170 (node_nine_cycles crc_zero))).pnew
          = (LIGHT_MAX_LEVEL : ℚ)) :=
  ⟨by decide,
    (duty_antitone_in_environment_lux crc_zero 0 (node_nine_cycles crc_zero) 150 170 (by decide)
      (by decide) (by decide) (by decide) (by decide!) (by decide!) (by decide!) (by decide!)
      (by decide)).1,
    (duty_antitone_in_environment_lux crc_zero 0 (node_nine_cycles crc_zero) 150 170 (by decide)
      (by decide) (by decide) (by decide) (by decide!) (by decide!) (by decide!) (by decide!)
      (by decide)).2.1,
    (duty_antitone_in_environment_lux crc_zero 0 (node_nine_cycles crc_zero) 150 170 (by decide)
      (by decide) (by decide) (by decide) (by decide!) (by decide!) (by decide!) (by decide!)
      (by decide)).2.2.2.2.2.2.1 (by decide!) (by decide!) (by decide!)⟩

/-- C14 (counterexample): a committing cycle on the state
`node_negative_efficiency` (stored efficiency -18.75, lamp off; distance,
efficiency, transparency and target all non-zero) computes the duty -13/60,
which is negative: the code has no lower clamp, while the clamp to [0, 32] of
the same quotient is 0. -/
theorem committed_duty_can_be_negative :
    cycle_commits crc_zero 0 node_negative_efficiency ∧
      (committed_data crc_zero 0 node_negative_efficiency).enew = 65 / 16 ∧
      (committed_data crc_zero 0 node_negative_efficiency).pnew = -13 / 60 ∧
      (committed_data crc_zero 0 node_negative_efficiency).pnew < 0 ∧
      max 0 (min (((committed_data crc_zero 0 node_negative_efficiency).enew
            * (committed_data crc_zero 0 node_negative_efficiency).distance
            * (committed_data crc_zero 0 node_negative_efficiency).distance)
          / ((committed_data crc_zero 0 node_negative_efficiency).power_efficiency
            * (committed_data crc_zero 0 node_negative_efficiency).transparency))
        (LIGHT_MAX_LEVEL : ℚ)) = 0 ∧
      (committed_data crc_zero 0 node_negative_efficiency).distance = 1 ∧
      (committed_data crc_zero 0 node_negative_efficiency).power_efficiency = -75 / 4 ∧
      (committed_data crc_zero 0 node_negative_efficiency).transparency = 1 ∧
      (committed_data crc_zero 0 node_negative_efficiency).target_lux = 400 := by
  decide!

/-- C14 (amended): for every committing control cycle whose parameters have
a non-zero distance, a non-zero efficiency and a non-zero transparency, and a
non-zero target unless the normalised natural illuminance of the flushed slow
window is zero (so that no quotient of the computation has a zero
denominator), the duty computed by `ecolumiere_algo_process` equals
`min(new_lux * distance^2 / (efficiency * transparency), 32)` with
`new_lux = max(lamp_lux + variation, min_lux)` and
`min_lux = perc_min * emax`: there is an upper clamp only, so the duty is at
most 32.  When moreover `perc_min` and `emax` are non-negative and
`efficiency * transparency` is positive, the duty lies in [0, 32] and
equals the clamp of the quotient to [0, 32]. -/
theorem committed_duty_formula (f : Nat → AlgoConfigData → Nat) (now_us : Nat) (s : Sys)
    (h : cycle_commits f now_us s)
    (_hdist : (committed_data f now_us s).distance ≠ 0)
    (_heff : (committed_data f now_us s).power_efficiency ≠ 0)
    (_htr : (committed_data f now_us s).transparency ≠ 0)
    (_htarget : (committed_data f now_us s).target_lux ≠ 0 ∨
      (committed_window f now_us s).enatural = 0) :
    (committed_data f now_us s).emin
        = (committed_data f now_us s).perc_min * (committed_data f now_us s).emax ∧
      (committed_data f now_us s).enew
        = max ((committed_data f now_us s).elamp + (committed_data f now_us s).variation)
            (committed_data f now_us s).emin ∧
      (committed_data f now_us s).pnew
        = min (((committed_data f now_us s).enew * (committed_data f now_us s).distance
              * (committed_data f now_us s).distance)
            / ((committed_data f now_us s).power_efficiency
              * (committed_data f now_us s).transparency)) (LIGHT_MAX_LEVEL : ℚ) ∧
      (committed_data f now_us s).pnew ≤ (LIGHT_MAX_LEVEL : ℚ) ∧
      (0 ≤ (committed_data f now_us s).perc_min → 0 ≤ (committed_data f now_us s).emax →
        0 < (committed_data f now_us s).power_efficiency
          * (committed_data f now_us s).transparency →
        0 ≤ (committed_data f now_us s).pnew ∧
          (committed_data f now_us s).pnew
            = max 0 (min (((committed_data f now_us s).enew
                  * (committed_data f now_us s).distance
                  * (committed_data f now_us s).distance)
                / ((committed_data f now_us s).power_efficiency
                  * (committed_data f now_us s).transparency)) (LIGHT_MAX_LEVEL : ℚ))) := by
  have hd := algo_process_commit_data f now_us s h
  have hx := (algo_compute_data (algo_precommit f now_us s)).1
  unfold committed_data
  rw [hd, hx]
  have hb := lamp_model_bounds (algo_precommit f now_us s).algo_data
    (algo_precommit f now_us s).algo_avg.natural_sum (algo_precommit f now_us s).algo_avg.env_sum
  refine ⟨rfl, rfl, rfl, min_le_right _ _, ?_⟩
  intro hp hm he
  have hb1 := hb hp hm he
  exact ⟨hb1.1, (max_eq_right hb1.1).symm⟩

theorem committed_duty_formula_witness :
    cycle_commits crc_zero 0 (node_nine_cycles crc_zero) ∧
      (committed_data crc_zero 0 (node_nine_cycles crc_zero)).distance ≠ 0 ∧
      (committed_data crc_zero 0 (node_nine_cycles crc_zero)).power_efficiency ≠ 0 ∧
      (committed_data crc_zero 0 (node_nine_cycles crc_zero)).transparency ≠ 0 ∧
      (committed_data crc_zero 0 (node_nine_cycles crc_zero)).target_lux ≠ 0 ∧
      (committed_data crc_zero 0 (node_nine_cycles crc_zero)).pnew
        ≤ (LIGHT_MAX_LEVEL : ℚ) ∧
      0 ≤ (committed_data crc_zero 0 (node_nine_cycles crc_zero)).pnew :=
  ⟨by decide, by decide!, by decide!, by decide!, by decide!,
    (committed_duty_formula crc_zero 0 (node_nine_cycles crc_zero) (by decide) (by decide!)
      (by decide!) (by decide!) (Or.inl (by decide!))).2.2.2.1,
    ((committed_duty_formula crc_zero 0 (node_nine_cycles crc_zero) (by decide) (by decide!)
      (by decide!) (by decide!) (Or.inl (by decide!))).2.2.2.2
      (by decide!) (by decide!) (by decide!)).1⟩

/-! ## Slow window, claim C19 -/

/-- C19 (the code departs from it): ten control cycles run from the state
after `ecolumiere_init` (default configuration, transparency 1) with constant
averages, natural 100 lux and environment 150 lux.  The tenth cycle commits:
the live window, which divides its sum of 10 samples by its count 10, holds
the normalised natural illuminance 100 = v / transparency, but the slow
window, whose count is forced to `ALGO_AVG_LAST` = 20 before its sum of the
same 10 samples is divided, commits 50 (and 75 for the environment), and the
lamp model computes the variation 65/16 from these halved values. -/
theorem slow_window_commit_halves_average :
    cycle_commits crc_zero 0 (run_cycles crc_zero (List.replicate 9 0) (node_fresh crc_zero)) ∧
      (algo_precommit crc_zero 0
        (run_cycles crc_zero (List.replicate 9 0) (node_fresh crc_zero))).algo_avg.natural_sum
        = 10 * 100 ∧
      (run_cycles crc_zero (List.replicate 10 0) (node_fresh crc_zero)).eco.algo_avg_live.enatural
        = 100 ∧
      (run_cycles crc_zero (List.replicate 10 0) (node_fresh crc_zero)).eco.algo_avg.enatural
        = 50 ∧
      (run_cycles crc_zero (List.replicate 10 0) (node_fresh crc_zero)).eco.algo_avg.eenv
        = 75 ∧
      (run_cycles crc_zero (List.replicate 10 0) (node_fresh crc_zero)).eco.algo_data.variation
        = 65 / 16 ∧
      (100 : ℚ) / (run_cycles crc_zero (List.replicate 10 0)
        (node_fresh crc_zero)).eco.algo_data.transparency = 100 := by
  decide!

/-! ## PWM controller: hardware writes and pattern, claims C21 and C22 -/

theorem sequence_duty_le (s : PwmState) : sequence_duty s ≤ PWM_MAX_VALUE := by
  have hs := sum_on_le s
  unfold sequence_duty
  simp only [PWM_SEQUENCE_LEN, PWM_MAX_VALUE] at hs ⊢
  have hm : (sum_on s * 8191) % 4294967296 = sum_on s * 8191 := Nat.mod_eq_of_lt (by omega)
  rw [hm]
  omega

theorem pwm_apply_current_sequence_same (s : PwmState) (hi : s.pwm_initialized = true)
    (h : sequence_duty s = s.current_pwm_hw) : pwm_apply_current_sequence s = s := by
  unfold pwm_apply_current_sequence
  unfold sequence_duty at h
  simp only [hi, Bool.true_eq_false, if_false, h, ne_eq, not_true_eq_false]

theorem pwm_apply_current_sequence_differs (s : PwmState) (hi : s.pwm_initialized = true)
    (h : sequence_duty s ≠ s.current_pwm_hw) :
    pwm_apply_current_sequence s =
      { s with ledc_duty_writes := s.ledc_duty_writes ++ [sequence_duty s]
               current_pwm_hw := sequence_duty s } := by
  have hle := sequence_duty_le s
  have hm : sequence_duty s % 65536 = sequence_duty s :=
    Nat.mod_eq_of_lt (by simp only [PWM_MAX_VALUE] at hle; omega)
  unfold pwm_apply_current_sequence
  unfold sequence_duty at h hm
  simp only [hi, Bool.true_eq_false, if_false, ne_eq, h, not_false_eq_true, if_true, hm]
  rfl

theorem pwm_apply_current_sequence_hw (s : PwmState) (hi : s.pwm_initialized = true) :
    (pwm_apply_current_sequence s).current_pwm_hw = sequence_duty s := by
  by_cases h : sequence_duty s = s.current_pwm_hw
  · rw [pwm_apply_current_sequence_same s hi h]
    exact h.symm
  · rw [pwm_apply_current_sequence_differs s hi h]

theorem pwm_apply_current_sequence_twice (s : PwmState) :
    pwm_apply_current_sequence (pwm_apply_current_sequence s) = pwm_apply_current_sequence s := by
  by_cases hi : s.pwm_initialized = true
  · by_cases h : sequence_duty s = s.current_pwm_hw
    · rw [pwm_apply_current_sequence_same s hi h, pwm_apply_current_sequence_same s hi h]
    · rw [pwm_apply_current_sequence_differs s hi h]
      exact pwm_apply_current_sequence_same _ hi rfl
  · have hf : s.pwm_initialized = false := by
      cases hb : s.pwm_initialized
      · rfl
      · exact absurd hb hi
    have h1 : pwm_apply_current_sequence s = s := by
      unfold pwm_apply_current_sequence
      simp only [hf, if_true]
    rw [h1, h1]

/-- C21: on an initialised controller `pwm_apply_current_sequence` writes to
the PWM hardware if and only if the duty computed from the current pattern
differs from the last applied value `current_pwm_hw`: when they are equal the
state is returned unchanged, when they differ the duty is handed to the
hardware and stored in `current_pwm_hw`.  A second call in a row performs no
hardware write and leaves the state unchanged (for every state), and the first
call after a successful `pwmcontroller_init` writes: the stored value 0xFFFF
differs from every duty. -/
theorem apply_sequence_writes_iff_duty_differs (s : PwmState)
    (hi : s.pwm_initialized = true) :
    (writes_hardware s ↔ sequence_duty s ≠ s.current_pwm_hw) ∧
      (sequence_duty s = s.current_pwm_hw → pwm_apply_current_sequence s = s) ∧
      (sequence_duty s ≠ s.current_pwm_hw →
        (pwm_apply_current_sequence s).current_pwm_hw = sequence_duty s) ∧
      (∀ t : PwmState,
        pwm_apply_current_sequence (pwm_apply_current_sequence t)
          = pwm_apply_current_sequence t ∧
        ¬ writes_hardware (pwm_apply_current_sequence t)) ∧
      (s.current_pwm_hw = 0xFFFF → writes_hardware s) ∧
      (∀ (env : InitEnv) (p : PwmState), p.pwm_initialized = false →
        (pwmcontroller_init env p).pwm_initialized = true →
        (pwmcontroller_init env p).current_pwm_hw = 0xFFFF ∧
          writes_hardware (pwmcontroller_init env p)) := by
  have key : ∀ u : PwmState, u.pwm_initialized = true →
      (writes_hardware u ↔ sequence_duty u ≠ u.current_pwm_hw) := by
    intro u hu
    unfold writes_hardware
    constructor
    · intro hw hd
      rw [pwm_apply_current_sequence_same u hu hd] at hw
      have := congrArg List.length hw
      simp at this
    · intro hd
      rw [pwm_apply_current_sequence_differs u hu hd]
  have hff : ∀ u : PwmState, u.pwm_initialized = true → u.current_pwm_hw = 0xFFFF →
      writes_hardware u := by
    intro u hu h
    apply (key u hu).2
    have hle := sequence_duty_le u
    simp only [PWM_MAX_VALUE] at hle
    omega
  refine ⟨key s hi, pwm_apply_current_sequence_same s hi, ?_, ?_, hff s hi, ?_⟩
  · intro h
    exact pwm_apply_current_sequence_hw s hi
  · intro t
    refine ⟨pwm_apply_current_sequence_twice t, ?_⟩
    unfold writes_hardware
    rw [pwm_apply_current_sequence_twice t]
    intro hw
    have := congrArg List.length hw
    simp at this
  · intro env p hp hinit
    have hhw : (pwmcontroller_init env p).current_pwm_hw = 0xFFFF := by
      unfold pwmcontroller_init at hinit ⊢
      simp only [hp, Bool.false_eq_true, if_false] at hinit ⊢
      split_ifs at hinit ⊢ <;> first | rfl | (simp only [hp] at hinit; exact absurd hinit (by decide))
    exact ⟨hhw, hff _ hinit hhw⟩

theorem apply_sequence_writes_iff_duty_differs_witness :
    (pwmcontroller_init init_ok pwm_state_boot).pwm_initialized = true ∧
      writes_hardware (pwmcontroller_init init_ok pwm_state_boot) ∧
      (pwm_apply_current_sequence (pwmcontroller_init init_ok pwm_state_boot)).ledc_duty_writes
        = [0] :=
  ⟨by decide,
    (apply_sequence_writes_iff_duty_differs (pwmcontroller_init init_ok pwm_state_boot)
      (by decide)).2.2.2.2.1 (by decide),
    by decide⟩

/-- C29: for every duty level `d` in 0..32,
`convert_intensity_to_pwm((d * 100) / 32)` is `d` or `d - 1`, and it equals `d`
exactly when `d` is a multiple of 8 or `d` = 1; the level that
`slave_node_update_lampada_data` applies on an initialised controller for the
intensity `(d * 100) / 32` is this converted value, so it differs from the
commanded level `d` for every other `d`. -/
theorem intensity_round_trip (d : Nat) (hd : d ≤ 32) :
    (convert_intensity_to_pwm (level_to_intensity d) = d ∨
        convert_intensity_to_pwm (level_to_intensity d) = d - 1) ∧
      (convert_intensity_to_pwm (level_to_intensity d) = d ↔ (d % 8 = 0 ∨ d = 1)) ∧
      (∀ (f : Nat → AlgoConfigData → Nat) (stato : Bool) (s : Sys),
        s.pwm.pwm_initialized = true →
        (slave_node_update_lampada_data f stato (level_to_intensity d) s).pwm.target_duty
          = convert_intensity_to_pwm (level_to_intensity d)) := by
  have hall : ∀ k, k ≤ 32 →
      (convert_intensity_to_pwm (level_to_intensity k) = k ∨
        convert_intensity_to_pwm (level_to_intensity k) = k - 1) ∧
      (convert_intensity_to_pwm (level_to_intensity k) = k ↔ (k % 8 = 0 ∨ k = 1)) ∧
      convert_intensity_to_pwm (level_to_intensity k) ≤ 32 := by
    decide
  refine ⟨(hall d hd).1, (hall d hd).2.1, ?_⟩
  intro f stato s hi
  have hle := (hall d hd).2.2
  unfold slave_node_update_lampada_data pwmcontroller_set_level pwm_set_duty_cycle
  simp only [hi, Bool.true_eq_false, if_false, LIGHT_MAX_LEVEL]
  have h1 : convert_intensity_to_pwm (level_to_intensity d) % 256
      = convert_intensity_to_pwm (level_to_intensity d) := Nat.mod_eq_of_lt (by omega)
  have h2 : convert_intensity_to_pwm (level_to_intensity d) % 4294967296
      = convert_intensity_to_pwm (level_to_intensity d) := Nat.mod_eq_of_lt (by omega)
  have h3 : convert_intensity_to_pwm (level_to_intensity d) % 65536
      = convert_intensity_to_pwm (level_to_intensity d) := Nat.mod_eq_of_lt (by omega)
  have h4 : ¬ convert_intensity_to_pwm (level_to_intensity d) > 32 := by omega
  simp only [h1, h2, h4, if_false, h3]

theorem intensity_round_trip_witness :
    (20 : Nat) ≤ 32 ∧ convert_intensity_to_pwm (level_to_intensity 20) = 19 ∧
      ¬ (convert_intensity_to_pwm (level_to_intensity 20) = 20) :=
  ⟨by decide, by decide,
    fun h => absurd ((intensity_round_trip 20 (by decide)).2.1.1 h) (by decide)⟩

/-! ## Fade convergence, claim C30 -/

theorem apply_fade_step (p : PwmState) (hl : p.light_level < 65536)
    (ht : p.target_duty < 65536) :
    (apply_fade p).target_duty = p.target_duty ∧ (apply_fade p).light_level < 65536 ∧
      level_distance (apply_fade p) = level_distance p - 1 := by
  unfold level_distance apply_fade
  by_cases h1 : p.light_level < p.target_duty
  · have hm : (p.light_level + 1) % 65536 = p.light_level + 1 := Nat.mod_eq_of_lt (by omega)
    have h2 : ¬ p.light_level + 1 > p.target_duty := by omega
    simp only [h1, if_true, hm, h2, if_false]
    refine ⟨trivial, ?_, ?_⟩
    · omega
    · omega
  · by_cases h3 : p.light_level > p.target_duty
    · have hm : (p.light_level + 65535) % 65536 = p.light_level - 1 := by omega
      simp only [h1, if_false, h3, if_true, hm]
      refine ⟨trivial, ?_, ?_⟩
      · omega
      · omega
    · simp only [h1, if_false, h3]
      refine ⟨trivial, ?_, ?_⟩
      · omega
      · omega

theorem fade_steps_distance (k : Nat) :
    ∀ p : PwmState, p.light_level < 65536 → p.target_duty < 65536 →
      (fade_steps k p).target_duty = p.target_duty ∧ (fade_steps k p).light_level < 65536 ∧
        level_distance (fade_steps k p) = level_distance p - k := by
  induction k with
  | zero =>
    intro p hl _
    exact ⟨rfl, hl, rfl⟩
  | succ k ih =>
    intro p hl ht
    have h1 := apply_fade_step p hl ht
    have h2 := ih (apply_fade p) h1.2.1 (by rw [h1.1]; exact ht)
    refine ⟨h2.1.trans h1.1, h2.2.1, ?_⟩
    show level_distance (fade_steps k (apply_fade p)) = _
    rw [h2.2.2, h1.2.2]
    omega

theorem level_distance_zero (p : PwmState) :
    level_distance p = 0 ↔ p.light_level = p.target_duty := by
  unfold level_distance
  omega

/-- C30: with `target_duty` held fixed, after `k` fade steps (`apply_fade`)
the target is unchanged and the distance `|target_duty - light_level|` equals
max(0, d0 - k), `d0` being the initial distance; so after `d0` steps, and
after any larger number of steps, `light_level = target_duty` (no overshoot,
no oscillation), and the distance never increases from one step to the next. -/
theorem fade_converges (p : PwmState) (k : Nat) (hl : p.light_level < 65536)
    (ht : p.target_duty < 65536) :
    (fade_steps k p).target_duty = p.target_duty ∧
      level_distance (fade_steps k p) = level_distance p - k ∧
      (level_distance p ≤ k → (fade_steps k p).light_level = p.target_duty) ∧
      level_distance (fade_steps (k + 1) p) ≤ level_distance (fade_steps k p) ∧
      (k < level_distance p → (fade_steps k p).light_level ≠ p.target_duty) := by
  have h := fade_steps_distance k p hl ht
  have h1 := fade_steps_distance (k + 1) p hl ht
  refine ⟨h.1, h.2.2, ?_, ?_, ?_⟩
  · intro hk
    have h0 : level_distance (fade_steps k p) = 0 := by
      rw [h.2.2]
      omega
    rw [← h.1]
    exact (level_distance_zero _).1 h0
  · rw [h1.2.2, h.2.2]
    omega
  · intro hk heq
    have h0 : level_distance (fade_steps k p) = 0 := by
      apply (level_distance_zero _).2
      rw [h.1]
      exact heq
    rw [h.2.2] at h0
    omega

theorem fade_converges_witness :
    (3 : Nat) < 65536 ∧ (7 : Nat) < 65536 ∧
      (fade_steps 4 { pwm_state_boot with light_level := 3, target_duty := 7 }).light_level = 7 ∧
      (fade_steps 9 { pwm_state_boot with light_level := 3, target_duty := 7 }).light_level = 7 ∧
      level_distance (fade_steps 2 { pwm_state_boot with light_level := 3, target_duty := 7 })
        = level_distance { pwm_state_boot with light_level := 3, target_duty := 7 } - 2 :=
  ⟨by decide, by decide, by decide, by decide,
    (fade_converges { pwm_state_boot with light_level := 3, target_duty := 7 } 2
      (by decide) (by decide)).2.1⟩

/-! ## Mesh override and accumulation, claim C23 -/

/-- C23 (counterexample): on the node `node_override` (override active until
30000 ms, both windows holding 9 samples) a control cycle at 1000 ms leaves the
sums and counts of both windows as they were (900, 1350, 9), whereas the same
cycle with the override flag cleared adds the latest averages: the slow window
hands the sums 1000 and 1500 to the commit and the live window is flushed. -/
theorem override_cycle_does_not_accumulate :
    node_override.eco.mesh_override_active = true ∧
      (1000000 / 1000) % 4294967296 ≤ node_override.eco.mesh_override_timeout ∧
      (ecolumiere_algo_process crc_zero 1000000 node_override).eco.algo_avg.natural_sum = 900 ∧
      (ecolumiere_algo_process crc_zero 1000000 node_override).eco.algo_avg.env_sum = 1350 ∧
      (ecolumiere_algo_process crc_zero 1000000 node_override).eco.algo_avg.count = 9 ∧
      (ecolumiere_algo_process crc_zero 1000000 node_override).eco.algo_avg_live.natural_sum
        = 900 ∧
      (ecolumiere_algo_process crc_zero 1000000 node_override).eco.algo_avg_live.count = 9 ∧
      (algo_precommit crc_zero 1000000
        { node_override with
          eco := { node_override.eco with mesh_override_active := false } }).algo_avg.natural_sum
        = 1000 ∧
      (algo_precommit crc_zero 1000000
        { node_override with
          eco := { node_override.eco with mesh_override_active := false } }).algo_avg.env_sum
        = 1500 ∧
      (ecolumiere_algo_process crc_zero 1000000
        { node_override with
          eco := { node_override.eco with mesh_override_active := false } }).eco.algo_avg_live.count
        = 0 := by
  decide!

/-- C23 (amended): while a mesh override is active and unexpired, a control
cycle (`ecolumiere_algo_process`) returns at once: the whole state is
unchanged, so there is no duty write and neither window accumulator advances.
What still accumulates during the override is the pair of rolling averages fed
by `ecolumiere_update_lux`: a natural sample and an environment sample update
`natural_avg` and `env_avg` as without override. -/
theorem override_suspends_whole_cycle (f : Nat → AlgoConfigData → Nat) (now_us : Nat) (s : Sys)
    (h1 : s.eco.mesh_override_active = true)
    (h2 : (now_us / 1000) % 4294967296 ≤ s.eco.mesh_override_timeout) :
    ecolumiere_algo_process f now_us s = s ∧
      (∀ v : Nat,
        (ecolumiere_update_lux f now_us { value := v, source := LUX_SOURCE_NATURAL }
            s).eco.natural_avg
          = measure_avg_update s.eco.natural_avg v ∧
        (ecolumiere_update_lux f now_us { value := v, source := LUX_SOURCE_ENVIRONMENT }
            s).eco.env_avg
          = measure_avg_update s.eco.env_avg v ∧
        (ecolumiere_update_lux f now_us { value := v, source := LUX_SOURCE_ENVIRONMENT }
            s).eco.algo_avg
          = s.eco.algo_avg ∧
        (ecolumiere_update_lux f now_us { value := v, source := LUX_SOURCE_ENVIRONMENT }
            s).pwm
          = s.pwm) := by
  refine ⟨algo_process_override_pending f now_us s h1 h2, ?_⟩
  intro v
  refine ⟨update_lux_natural f now_us v s, update_lux_environment f now_us v s, ?_, ?_⟩
  · unfold ecolumiere_update_lux
    have hs : (2 : Nat) % 256 = 2 := rfl
    simp only [LUX_SOURCE_ENVIRONMENT, LUX_SOURCE_NATURAL, LUX_SOURCE_DEVICE_ID, hs]
    simp only [show ¬ ((2 : Nat) = 3) by decide, show ¬ ((2 : Nat) = 1) by decide, if_false,
      if_true]
    split
    · have hp := algo_process_override_pending f now_us
        { s with eco := { s.eco with env_avg := measure_avg_update s.eco.env_avg v } } h1 h2
      rw [hp]
    · rfl
  · unfold ecolumiere_update_lux
    have hs : (2 : Nat) % 256 = 2 := rfl
    simp only [LUX_SOURCE_ENVIRONMENT, LUX_SOURCE_NATURAL, LUX_SOURCE_DEVICE_ID, hs]
    simp only [show ¬ ((2 : Nat) = 3) by decide, show ¬ ((2 : Nat) = 1) by decide, if_false,
      if_true]
    split
    · have hp := algo_process_override_pending f now_us
        { s with eco := { s.eco with env_avg := measure_avg_update s.eco.env_avg v } } h1 h2
      rw [hp]
    · rfl

theorem override_suspends_whole_cycle_witness :
    node_override.eco.mesh_override_active = true ∧
      (1000000 / 1000) % 4294967296 ≤ node_override.eco.mesh_override_timeout ∧
      ecolumiere_algo_process crc_zero 1000000 node_override = node_override :=
  ⟨by decide, by decide,
    (override_suspends_whole_cycle crc_zero 1000000 node_override (by decide) (by decide)).1⟩

/-! ## Interrupt-context submit, claim C24 -/

theorem scheduler_put_event_isr_counters (p : Option Nat) (n t : Nat) (h : Option Nat)
    (m : Bool) (k : Nat) (w : SchedWorld) :
    (scheduler_put_event_isr p n t h m k w).1.ctx.events_dropped = w.ctx.events_dropped ∧
      (scheduler_put_event_isr p n t h m k w).1.ctx.events_processed
        = w.ctx.events_processed := by
  unfold scheduler_put_event_isr xQueueSendFromISR
  dsimp only
  split_ifs <;> exact ⟨rfl, rfl⟩

/-- C24 (the code departs from it): `scheduler_put_event_isr` never changes
`events_dropped`, whatever its arguments and the state.  On the full queue
`demo_full` (capacity 1, one event queued) it returns `ESP_FAIL` and leaves the
queue unchanged, but `events_dropped` stays 0, whereas `scheduler_put_event`
with the same arguments on the same state returns `ESP_FAIL` and counts the
drop. -/
theorem isr_submit_does_not_count_drop :
    (∀ (p : Option Nat) (n t : Nat) (h : Option Nat) (m : Bool) (k : Nat) (w : SchedWorld),
      (scheduler_put_event_isr p n t h m k w).1.ctx.events_dropped = w.ctx.events_dropped) ∧
      demo_full.ctx.event_queue.length = demo_full.ctx.queue_size ∧
      (scheduler_put_event_isr (some 0) 4 1 (some 8) true 1 demo_full).2 = EspErr.ESP_FAIL ∧
      (scheduler_put_event_isr (some 0) 4 1 (some 8) true 1 demo_full).1.ctx.event_queue
        = demo_full.ctx.event_queue ∧
      demo_full.ctx.events_dropped = 0 ∧
      (scheduler_put_event_isr (some 0) 4 1 (some 8) true 1 demo_full).1.ctx.events_dropped
        = 0 ∧
      (scheduler_put_event (some 0) 4 1 (some 8) true 1 demo_full).2 = EspErr.ESP_FAIL ∧
      (scheduler_put_event (some 0) 4 1 (some 8) true 1 demo_full).1.ctx.events_dropped = 1 := by
  refine ⟨fun p n t h m k w => (scheduler_put_event_isr_counters p n t h m k w).1,
    by decide, by decide, by decide, by decide, by decide, by decide, by decide⟩

/-! ## Optical sampler, claim C25 -/

theorem sample_run_index (bits : List Nat) :
    ∀ lc : LightCodeState, lc.queue_index ≤ SENSE_QUEUE_SIZE →
      (sample_run bits lc).queue_index = min (lc.queue_index + bits.length) SENSE_QUEUE_SIZE ∧
        ∀ i, (sample_run bits lc).queue i =
          if lc.queue_index ≤ i ∧ i < min (lc.queue_index + bits.length) SENSE_QUEUE_SIZE then
            bits.getD (i - lc.queue_index) 0 % 256
          else lc.queue i := by
  induction bits with
  | nil =>
    intro lc h
    refine ⟨?_, ?_⟩
    · show lc.queue_index = _
      simp only [List.length_nil, Nat.add_zero]
      exact (min_eq_left h).symm
    · intro i
      show lc.queue i = _
      have : ¬ (lc.queue_index ≤ i ∧ i < min (lc.queue_index + ([] : List Nat).length)
          SENSE_QUEUE_SIZE) := by
        simp only [List.length_nil, Nat.add_zero]
        omega
      rw [if_neg this]
  | cons b bs ih =>
    intro lc h
    simp only [SENSE_QUEUE_SIZE] at h
    by_cases hfull : lc.queue_index < SENSE_QUEUE_SIZE
    · simp only [SENSE_QUEUE_SIZE] at hfull
      have hm : (lc.queue_index + 1) % 4294967296 = lc.queue_index + 1 :=
        Nat.mod_eq_of_lt (by omega)
      have hstep : light_code_timer_callback b lc =
          { lc with
            queue := fun i => if i = lc.queue_index then b % 256 else lc.queue i
            queue_index := lc.queue_index + 1 } := by
        unfold light_code_timer_callback
        rw [if_pos (by simp only [SENSE_QUEUE_SIZE]; exact hfull), hm]
      have h2 := ih (light_code_timer_callback b lc) (by
        rw [hstep]
        simp only [SENSE_QUEUE_SIZE]
        omega)
      rw [hstep] at h2
      refine ⟨?_, ?_⟩
      · show (sample_run bs (light_code_timer_callback b lc)).queue_index = _
        rw [hstep, h2.1]
        simp only [List.length_cons]
        congr 1
        omega
      · intro i
        show (sample_run bs (light_code_timer_callback b lc)).queue i = _
        rw [hstep, h2.2 i]
        simp only [List.length_cons, SENSE_QUEUE_SIZE]
        by_cases hi : i = lc.queue_index
        · subst hi
          have c1 : ¬ (lc.queue_index + 1 ≤ lc.queue_index ∧
              lc.queue_index < min (lc.queue_index + 1 + bs.length) 120) := by omega
          have c2 : lc.queue_index ≤ lc.queue_index ∧
              lc.queue_index < min (lc.queue_index + (bs.length + 1)) 120 := by
            constructor
            · exact le_rfl
            · apply lt_min <;> omega
          rw [if_neg c1, if_pos c2]
          simp
        · by_cases hc : lc.queue_index + 1 ≤ i ∧ i < min (lc.queue_index + 1 + bs.length) 120
          · have c2 : lc.queue_index ≤ i ∧ i < min (lc.queue_index + (bs.length + 1)) 120 := by
              constructor
              · omega
              · have : lc.queue_index + 1 + bs.length = lc.queue_index + (bs.length + 1) := by
                  omega
                rw [← this]
                exact hc.2
            rw [if_pos hc, if_pos c2]
            have : i - lc.queue_index = (i - (lc.queue_index + 1)) + 1 := by omega
            rw [this, List.getD_cons_succ]
          · have c2 : ¬ (lc.queue_index ≤ i ∧
                i < min (lc.queue_index + (bs.length + 1)) 120) := by
              intro hh
              apply hc
              constructor
              · omega
              · have : lc.queue_index + 1 + bs.length = lc.queue_index + (bs.length + 1) := by
                  omega
                rw [this]
                exact hh.2
            rw [if_neg hc, if_neg c2]
            simp only [hi, if_false]
    · have hstep : light_code_timer_callback b lc = lc := by
        unfold light_code_timer_callback
        rw [if_neg hfull]
      simp only [SENSE_QUEUE_SIZE] at hfull
      have h2 := ih lc (by simp only [SENSE_QUEUE_SIZE]; omega)
      refine ⟨?_, ?_⟩
      · show (sample_run bs (light_code_timer_callback b lc)).queue_index = _
        rw [hstep, h2.1]
        simp only [List.length_cons, SENSE_QUEUE_SIZE]
        omega
      · intro i
        show (sample_run bs (light_code_timer_callback b lc)).queue i = _
        rw [hstep, h2.2 i]
        simp only [List.length_cons, SENSE_QUEUE_SIZE]
        have c1 : ¬ (lc.queue_index ≤ i ∧ i < min (lc.queue_index + bs.length) 120) := by omega
        have c2 : ¬ (lc.queue_index ≤ i ∧ i < min (lc.queue_index + (bs.length + 1)) 120) := by
          omega
        rw [if_neg c1, if_neg c2]

/-- C25 (counterexample): on the buffer `lc_full_zero`, where 120 samples (all
0) have been stored since the last reset, a sampler tick that reads the bit 1
stores nothing: the write index stays at 120 and every entry, the oldest one
included, is still 0; the same holds after 200 more ticks. -/
theorem full_buffer_tick_stores_nothing :
    lc_full_zero.queue_index = SENSE_QUEUE_SIZE ∧
      (light_code_timer_callback 1 lc_full_zero).queue_index = SENSE_QUEUE_SIZE ∧
      (∀ i, i < SENSE_QUEUE_SIZE → (light_code_timer_callback 1 lc_full_zero).queue i = 0) ∧
      (sample_run (List.replicate 200 1) lc_full_zero).queue_index = SENSE_QUEUE_SIZE ∧
      (∀ i, i < SENSE_QUEUE_SIZE →
        (sample_run (List.replicate 200 1) lc_full_zero).queue i = 0) := by
  refine ⟨rfl, by decide, by decide, by decide, by decide⟩

/-- C25 (amended): the optical sample buffer is filled linearly, once per
reset: a sampler tick (`light_code_timer_callback`) stores the bit just read at
`queue_index` and advances the index only while fewer than `SENSE_QUEUE_SIZE`
(120) samples have been stored since the last reset; once 120 samples are
stored, a tick changes nothing, until `light_code_reset_queue` sets the index
back to 0 (without touching the samples).  So of the bits read after a reset
the first 120 are stored in order and the later ones are dropped. -/
theorem sampler_fills_until_full (pin_state : Nat) (lc : LightCodeState) :
    (lc.queue_index < SENSE_QUEUE_SIZE →
        (light_code_timer_callback pin_state lc).queue lc.queue_index = pin_state % 256 ∧
        (light_code_timer_callback pin_state lc).queue_index = lc.queue_index + 1 ∧
        (∀ i, i ≠ lc.queue_index → (light_code_timer_callback pin_state lc).queue i = lc.queue i)) ∧
      (SENSE_QUEUE_SIZE ≤ lc.queue_index →
        (light_code_timer_callback pin_state lc).queue_index = lc.queue_index ∧
        (∀ i, (light_code_timer_callback pin_state lc).queue i = lc.queue i)) ∧
      (light_code_reset_queue lc).queue_index = 0 ∧
      (∀ i, (light_code_reset_queue lc).queue i = lc.queue i) ∧
      (∀ bits : List Nat,
        (sample_run bits (light_code_reset_queue lc)).queue_index
          = min bits.length SENSE_QUEUE_SIZE ∧
        (∀ i, i < min bits.length SENSE_QUEUE_SIZE →
          (sample_run bits (light_code_reset_queue lc)).queue i = bits.getD i 0 % 256) ∧
        (∀ i, SENSE_QUEUE_SIZE ≤ i →
          (sample_run bits (light_code_reset_queue lc)).queue i = lc.queue i)) := by
  have hr0 : (light_code_reset_queue lc).queue_index = 0 := by
    unfold light_code_reset_queue
    split <;> rfl
  have hrq : ∀ i, (light_code_reset_queue lc).queue i = lc.queue i := by
    intro i
    unfold light_code_reset_queue
    split <;> rfl
  refine ⟨?_, ?_, hr0, hrq, ?_⟩
  · intro h
    have hm : (lc.queue_index + 1) % 4294967296 = lc.queue_index + 1 :=
      Nat.mod_eq_of_lt (by simp only [SENSE_QUEUE_SIZE] at h; omega)
    unfold light_code_timer_callback
    rw [if_pos h]
    refine ⟨by simp, hm, ?_⟩
    intro i hi
    simp only [hi, if_false]
  · intro h
    have hn : ¬ lc.queue_index < SENSE_QUEUE_SIZE := by omega
    unfold light_code_timer_callback
    rw [if_neg hn]
    exact ⟨rfl, fun _ => rfl⟩
  · intro bits
    have hs := sample_run_index bits (light_code_reset_queue lc) (by rw [hr0]; exact Nat.zero_le _)
    rw [hr0] at hs
    simp only [Nat.zero_add, Nat.zero_le, true_and, Nat.sub_zero] at hs
    refine ⟨hs.1, ?_, ?_⟩
    · intro i hi
      rw [hs.2 i, if_pos hi]
    · intro i hi
      have hn : ¬ i < min bits.length SENSE_QUEUE_SIZE := by
        intro hh
        have := lt_of_lt_of_le hh (min_le_right _ _)
        omega
      rw [hs.2 i, if_neg hn, hrq i]

theorem sampler_fills_until_full_witness :
    lc_boot.queue_index < SENSE_QUEUE_SIZE ∧
      (light_code_timer_callback 1 lc_boot).queue lc_boot.queue_index = 1 % 256 ∧
      (light_code_timer_callback 1 lc_boot).queue_index = 1 ∧
      SENSE_QUEUE_SIZE ≤ lc_full_zero.queue_index ∧
      (light_code_timer_callback 1 lc_full_zero).queue_index = lc_full_zero.queue_index :=
  ⟨by decide, ((sampler_fills_until_full 1 lc_boot).1 (by decide)).1, by decide, by decide,
    ((sampler_fills_until_full 1 lc_full_zero).2.1 (by decide)).1⟩

/-! ## Trigger of the control cycle, claim C26 -/

theorem handle_env_light_slot_calls (f : Nat → AlgoConfigData → Nat) (env : TickEnv) (s : Sys) :
    handle_env_light_slot f env s =
      Nat.iterate (ecolumiere_algo_process f env.now_us) (env_slot_algo_calls env s)
        (if env.env_lux % 4294967296 ≠ MEASURE_INVALID then
          with_env_sample (env.env_lux % 4294967296) s
        else s) := by
  unfold handle_env_light_slot env_slot_algo_calls
  dsimp only
  by_cases hv : env.env_lux % 4294967296 ≠ MEASURE_INVALID
  · rw [if_pos hv, if_pos hv, if_pos hv]
    unfold ecolumiere_update_lux
    have hs : (2 : Nat) % 256 = 2 := rfl
    simp only [LUX_SOURCE_ENVIRONMENT, LUX_SOURCE_NATURAL, LUX_SOURCE_DEVICE_ID, hs]
    simp only [show ¬ ((2 : Nat) = 3) by decide, show ¬ ((2 : Nat) = 1) by decide, if_false,
      if_true]
    by_cases hc : (measure_avg_update s.eco.env_avg (env.env_lux % 4294967296)).count = 0
    · rw [if_pos hc, if_pos hc]
      rfl
    · rw [if_neg hc, if_neg hc]
      rfl
  · rw [if_neg hv, if_neg hv, if_neg hv]
    rfl

/-- C26 (the code departs from it): `handle_env_light_slot` runs
`ecolumiere_algo_process` as many times as `env_slot_algo_calls` tells, on the
state whose environment rolling average has taken the sample.  On the node
`node_env_window_49` (49 of 50 environment samples accumulated, both windows
of the algorithm empty) one valid environment sample of 150 completes the
rolling average, and the control cycle runs twice: once inside
`ecolumiere_update_lux` and once more from the handler, so both windows count 2
samples (sums 200 and 300) for this single environment sample.  On `node_fresh`
(rolling average empty) the same sample runs the cycle once. -/
theorem env_sample_triggers_cycle_twice :
    (∀ (f : Nat → AlgoConfigData → Nat) (env : TickEnv) (s : Sys),
      handle_env_light_slot f env s =
        Nat.iterate (ecolumiere_algo_process f env.now_us) (env_slot_algo_calls env s)
          (if env.env_lux % 4294967296 ≠ MEASURE_INVALID then
            with_env_sample (env.env_lux % 4294967296) s
          else s)) ∧
      tick_env_150.env_lux % 4294967296 ≠ MEASURE_INVALID ∧
      env_slot_algo_calls tick_env_150 node_env_window_49 = 2 ∧
      (handle_env_light_slot crc_zero tick_env_150 node_env_window_49).eco.env_avg
        = { sum := 0, size := 50, count := 0, measure := 150 } ∧
      node_env_window_49.eco.algo_avg.count = 0 ∧
      (handle_env_light_slot crc_zero tick_env_150 node_env_window_49).eco.algo_avg.count = 2 ∧
      (handle_env_light_slot crc_zero tick_env_150 node_env_window_49).eco.algo_avg.natural_sum
        = 200 ∧
      (handle_env_light_slot crc_zero tick_env_150 node_env_window_49).eco.algo_avg.env_sum
        = 300 ∧
      (handle_env_light_slot crc_zero tick_env_150 node_env_window_49).eco.algo_avg_live.count
        = 2 ∧
      env_slot_algo_calls tick_env_150 (node_fresh crc_zero) = 1 ∧
      (handle_env_light_slot crc_zero tick_env_150 (node_fresh crc_zero)).eco.algo_avg.count
        = 1 := by
  refine ⟨handle_env_light_slot_calls, by decide, by decide, by decide, by decide, ?_, ?_, ?_,
    ?_, by decide, ?_⟩ <;> decide!

/-! ## Decoder result and the master-signal test, claim C27 -/

theorem land_mask_clears_ends (x : Nat) : (x &&& 0x7E) &&& 0x81 = 0 := by
  rw [Nat.land_assoc]
  have h : (0x7E : Nat) &&& 0x81 = 0 := by decide
  rw [h]
  exact Nat.and_zero x

/-- C27: for every content of the sample buffer, the value returned by
`light_code_check` has bits 0 and 7 clear (`result AND 0x81 = 0`); hence it is
never equal to `LIGHT_CODE_ONE` = 0x55, and the condition
`received_code == LIGHT_CODE_ONE` of the master-signal branch of
`handle_device_id_slot` is false in every state. -/
theorem light_code_check_never_master_code (queue : Nat → Nat) :
    light_code_check queue &&& 0x81 = 0 ∧ light_code_check queue ≠ LIGHT_CODE_ONE ∧
      (∀ s : Sys, master_signal_detected s = false) := by
  have h1 : ∀ q : Nat → Nat, light_code_check q &&& 0x81 = 0 := by
    intro q
    unfold light_code_check
    dsimp only
    split
    · decide
    · exact land_mask_clears_ends _
  have h2 : ∀ q : Nat → Nat, light_code_check q ≠ LIGHT_CODE_ONE := by
    intro q heq
    have := h1 q
    rw [heq] at this
    exact absurd this (by decide)
  refine ⟨h1 queue, h2 queue, ?_⟩
  intro s
  unfold master_signal_detected
  exact decide_eq_false (h2 _)

/-! ## Slot driver: schedule of the processed slots, claim C28 -/

theorem apply_fade_bookkeeping (p : PwmState) :
    slot_bookkeeping (apply_fade p) = slot_bookkeeping p := by
  unfold apply_fade slot_bookkeeping
  dsimp only
  split_ifs <;> rfl

theorem pwm_apply_current_sequence_bookkeeping (p : PwmState) :
    slot_bookkeeping (pwm_apply_current_sequence p) = slot_bookkeeping p := by
  unfold pwm_apply_current_sequence slot_bookkeeping
  dsimp only
  split_ifs <;> rfl

theorem pwm_sequence_update_bookkeeping (ev : Nat) (p : PwmState) :
    slot_bookkeeping (pwm_sequence_update ev p) = slot_bookkeeping p := by
  unfold pwm_sequence_update write_sequence slot_bookkeeping
  split <;> rfl

theorem tick_fade_bookkeeping (p : PwmState) :
    slot_bookkeeping (tick_fade p) = slot_bookkeeping p := by
  have h := apply_fade_bookkeeping { p with fade_counter := (p.fade_counter + 1) % 256 }
  unfold slot_bookkeeping at h ⊢
  unfold tick_fade
  dsimp only at h ⊢
  split
  · exact h
  · rfl

theorem tick_sequence_bookkeeping (p : PwmState) :
    slot_bookkeeping (tick_sequence p) = slot_bookkeeping p := by
  have h1 := pwm_apply_current_sequence_bookkeeping (pwm_sequence_update DEFAULT_EVENT
    { p with sequence_update_counter := (p.sequence_update_counter + 1) % 256 })
  have h2 := pwm_sequence_update_bookkeeping DEFAULT_EVENT
    { p with sequence_update_counter := (p.sequence_update_counter + 1) % 256 }
  have h := h1.trans h2
  unfold slot_bookkeeping at h ⊢
  unfold tick_sequence
  dsimp only at h ⊢
  split
  · exact h
  · rfl

theorem tick_log_bookkeeping (p : PwmState) :
    slot_bookkeeping (tick_log p) = slot_bookkeeping p := by
  unfold tick_log slot_bookkeeping
  dsimp only
  split <;> rfl

theorem slot_timer_callback_bookkeeping (f : Nat → AlgoConfigData → Nat) (env : TickEnv)
    (s : Sys) (h : SlotParity s.pwm) (hi : s.pwm.pwm_initialized = true)
    (hv : env.timer_valid = true) :
    slot_bookkeeping (slot_timer_callback f env s).pwm =
      (true, (s.pwm.skip_counter + 1) % 2, (s.pwm.current_slot + 1) % SLOT_COUNT,
        s.pwm.device_id_counter, s.pwm.natural_measure_counter, s.pwm.env_measure_counter) := by
  have hg : ¬ (s.pwm.pwm_initialized = false ∨ env.timer_valid = false) := by
    rw [hi, hv]
    simp
  have hmod : (s.pwm.current_slot + 1) % SLOT_COUNT % 256 = (s.pwm.current_slot + 1) % SLOT_COUNT := by
    simp only [SLOT_COUNT]
    omega
  unfold slot_timer_callback
  rw [if_neg hg]
  rcases h with ⟨hs, hp⟩ | ⟨hs, hp⟩
  · have hskip : (s.pwm.skip_counter + 1) % 256 < 2 := by rw [hs]; decide
    dsimp only
    rw [if_pos hskip]
    show (s.pwm.pwm_initialized, (s.pwm.skip_counter + 1) % 256,
      (s.pwm.current_slot + 1) % SLOT_COUNT % 256, s.pwm.device_id_counter,
      s.pwm.natural_measure_counter, s.pwm.env_measure_counter) = _
    rw [hi, hs, hmod]
  · have hskip : ¬ (s.pwm.skip_counter + 1) % 256 < 2 := by rw [hs]; decide
    dsimp only
    rw [if_neg hskip]
    have hsw : tick_switch f env s.pwm.current_slot
        { s with pwm := tick_fade { s.pwm with skip_counter := 0 } } =
        { s with pwm := tick_fade { s.pwm with skip_counter := 0 } } :=
      tick_switch_other_slot f env s.pwm.current_slot _ hp
    simp only [pwm_get_current_slot]
    rw [hsw]
    have h1 := tick_fade_bookkeeping { s.pwm with skip_counter := 0 }
    have h2 := tick_sequence_bookkeeping (tick_fade { s.pwm with skip_counter := 0 })
    have h3 := tick_log_bookkeeping
      (pwm_advance_slot (tick_sequence (tick_fade { s.pwm with skip_counter := 0 })))
    show slot_bookkeeping (tick_log (pwm_advance_slot
      (tick_sequence (tick_fade { s.pwm with skip_counter := 0 })))) = _
    rw [h3]
    have h4 : slot_bookkeeping
        (pwm_advance_slot (tick_sequence (tick_fade { s.pwm with skip_counter := 0 })))
        = ((slot_bookkeeping (tick_sequence (tick_fade { s.pwm with skip_counter := 0 }))).1,
          (slot_bookkeeping (tick_sequence (tick_fade { s.pwm with skip_counter := 0 }))).2.1,
          ((slot_bookkeeping (tick_sequence (tick_fade { s.pwm with skip_counter := 0 }))).2.2.1
            + 1) % SLOT_COUNT % 256,
          (slot_bookkeeping (tick_sequence (tick_fade { s.pwm with skip_counter := 0 }))).2.2.2) :=
      rfl
    rw [h4, h2, h1]
    show (s.pwm.pwm_initialized, 0, (s.pwm.current_slot + 1) % SLOT_COUNT % 256,
      s.pwm.device_id_counter, s.pwm.natural_measure_counter, s.pwm.env_measure_counter) = _
    rw [hi, hs, hmod]

theorem slot_timer_callback_guarded (f : Nat → AlgoConfigData → Nat) (env : TickEnv) (s : Sys)
    (hg : s.pwm.pwm_initialized = false ∨ env.timer_valid = false) :
    slot_timer_callback f env s = s := by
  unfold slot_timer_callback
  rw [if_pos hg]

theorem ticks_keep_counters (f : Nat → AlgoConfigData → Nat) (envs : List TickEnv) :
    ∀ s : Sys, SlotParity s.pwm →
      SlotParity (sys_run f s (envs.map SysOp.slot_tick)).pwm ∧
        (sys_run f s (envs.map SysOp.slot_tick)).eco = s.eco ∧
        (sys_run f s (envs.map SysOp.slot_tick)).lc = s.lc ∧
        (sys_run f s (envs.map SysOp.slot_tick)).pwm.device_id_counter
          = s.pwm.device_id_counter ∧
        (sys_run f s (envs.map SysOp.slot_tick)).pwm.natural_measure_counter
          = s.pwm.natural_measure_counter ∧
        (sys_run f s (envs.map SysOp.slot_tick)).pwm.env_measure_counter
          = s.pwm.env_measure_counter := by
  induction envs with
  | nil =>
    intro s h
    exact ⟨h, rfl, rfl, rfl, rfl, rfl⟩
  | cons env envs ih =>
    intro s h
    have hp := slot_timer_callback_parity f env s h
    have hrec := ih (slot_timer_callback f env s) hp.1
    have hc : (slot_timer_callback f env s).pwm.device_id_counter = s.pwm.device_id_counter ∧
        (slot_timer_callback f env s).pwm.natural_measure_counter
          = s.pwm.natural_measure_counter ∧
        (slot_timer_callback f env s).pwm.env_measure_counter = s.pwm.env_measure_counter := by
      by_cases hg : s.pwm.pwm_initialized = false ∨ env.timer_valid = false
      · rw [slot_timer_callback_guarded f env s hg]
        exact ⟨rfl, rfl, rfl⟩
      · have hi : s.pwm.pwm_initialized = true := by
          cases hb : s.pwm.pwm_initialized
          · exact absurd (Or.inl hb) hg
          · rfl
        have hv : env.timer_valid = true := by
          cases hb : env.timer_valid
          · exact absurd (Or.inr hb) hg
          · rfl
        have hb := slot_timer_callback_bookkeeping f env s h hi hv
        unfold slot_bookkeeping at hb
        simp only [Prod.mk.injEq] at hb
        exact ⟨hb.2.2.2.1, hb.2.2.2.2.1, hb.2.2.2.2.2⟩
    have hrun : sys_run f s ((env :: envs).map SysOp.slot_tick) =
        sys_run f (slot_timer_callback f env s) (envs.map SysOp.slot_tick) := rfl
    rw [hrun]
    refine ⟨hrec.1, hrec.2.1.trans hp.2.1, hrec.2.2.1.trans hp.2.2.1, ?_, ?_, ?_⟩
    · rw [hrec.2.2.2.1, hc.1]
    · rw [hrec.2.2.2.2.1, hc.2.1]
    · rw [hrec.2.2.2.2.2, hc.2.2]

theorem ticks_schedule (f : Nat → AlgoConfigData → Nat) (envs : List TickEnv) :
    ∀ (s : Sys) (k : Nat), s.pwm.pwm_initialized = true → s.pwm.current_slot = k % SLOT_COUNT →
      s.pwm.skip_counter = k % 2 → (∀ x ∈ envs, x.timer_valid = true) →
      (sys_run f s (envs.map SysOp.slot_tick)).pwm.pwm_initialized = true ∧
        (sys_run f s (envs.map SysOp.slot_tick)).pwm.current_slot
          = (k + envs.length) % SLOT_COUNT ∧
        (sys_run f s (envs.map SysOp.slot_tick)).pwm.skip_counter = (k + envs.length) % 2 := by
  induction envs with
  | nil =>
    intro s k hi hs hk _
    exact ⟨hi, hs, hk⟩
  | cons env envs ih =>
    intro s k hi hs hk hall
    have hv : env.timer_valid = true := hall env (List.mem_cons_self _ _)
    have hpar : SlotParity s.pwm := by
      unfold SlotParity
      rw [hs, hk]
      simp only [SLOT_COUNT]
      omega
    have hb := slot_timer_callback_bookkeeping f env s hpar hi hv
    unfold slot_bookkeeping at hb
    simp only [Prod.mk.injEq] at hb
    have hrun : sys_run f s ((env :: envs).map SysOp.slot_tick) =
        sys_run f (slot_timer_callback f env s) (envs.map SysOp.slot_tick) := rfl
    have hrec := ih (slot_timer_callback f env s) (k + 1) hb.1
      (by rw [hb.2.2.1, hs]; simp only [SLOT_COUNT]; omega)
      (by rw [hb.2.1, hk]; omega)
      (fun x hx => hall x (List.mem_cons_of_mem _ hx))
    rw [hrun]
    have e1 : k + (env :: envs).length = k + 1 + envs.length := by
      simp only [List.length_cons]
      omega
    rw [e1]
    exact hrec

/-- C28: starting from the state set by `pwmcontroller_init` at boot and
driven only by slot-timer ticks, the slot index that `slot_timer_callback`
sees at its switch is always odd, so never 0, 2 or 6: the three per-slot
counters of the switch stay 0 and the algorithm and decoder states are never
touched, for any number of ticks, whatever the outcome of the initialisation
and whatever the ticks supply.  When the initialisation succeeds and every
tick has a valid timer handle, the switch is reached only on every second
tick: after an even number `n` of ticks the next tick is skipped, after an odd
number it reaches the switch with the slot index `n mod 10`. -/
theorem slot_switch_only_sees_odd_slots (f : Nat → AlgoConfigData → Nat) (init : InitEnv)
    (e : EcoState) (lc : LightCodeState) (envs : List TickEnv) (env : TickEnv) :
    (∀ k, slot_at_switch env (ticks_from_init f init e lc envs) = some k → k % 2 = 1) ∧
      (ticks_from_init f init e lc envs).pwm.device_id_counter = 0 ∧
      (ticks_from_init f init e lc envs).pwm.natural_measure_counter = 0 ∧
      (ticks_from_init f init e lc envs).pwm.env_measure_counter = 0 ∧
      (ticks_from_init f init e lc envs).eco = e ∧
      (ticks_from_init f init e lc envs).lc = lc ∧
      ((sys_pwmcontroller_init init (sys_boot e lc)).pwm.pwm_initialized = true →
        (∀ x ∈ envs, x.timer_valid = true) → env.timer_valid = true →
        slot_at_switch env (ticks_from_init f init e lc envs)
          = if envs.length % 2 = 0 then none else some (envs.length % SLOT_COUNT)) := by
  have h0 : SlotParity (sys_pwmcontroller_init init (sys_boot e lc)).pwm := by
    left
    simp only [sys_pwmcontroller_init, sys_boot, pwmcontroller_init, pwm_state_boot]
    split_ifs <;> exact ⟨rfl, rfl⟩
  have hc0 : (sys_pwmcontroller_init init (sys_boot e lc)).pwm.device_id_counter = 0 ∧
      (sys_pwmcontroller_init init (sys_boot e lc)).pwm.natural_measure_counter = 0 ∧
      (sys_pwmcontroller_init init (sys_boot e lc)).pwm.env_measure_counter = 0 ∧
      (sys_pwmcontroller_init init (sys_boot e lc)).pwm.current_slot = 0 ∧
      (sys_pwmcontroller_init init (sys_boot e lc)).pwm.skip_counter = 0 := by
    simp only [sys_pwmcontroller_init, sys_boot, pwmcontroller_init, pwm_state_boot]
    split_ifs <;> exact ⟨rfl, rfl, rfl, rfl, rfl⟩
  have hk := ticks_keep_counters f envs _ h0
  have hodd := (slot_timer_callback_parity f env _ hk.1).2.2.2
  unfold ticks_from_init
  refine ⟨hodd, ?_, ?_, ?_, hk.2.1, hk.2.2.1, ?_⟩
  · rw [hk.2.2.2.1]; exact hc0.1
  · rw [hk.2.2.2.2.1]; exact hc0.2.1
  · rw [hk.2.2.2.2.2]; exact hc0.2.2.1
  · intro hi hall hv
    have hs := ticks_schedule f envs _ 0 hi (by rw [hc0.2.2.2.1]; rfl) (by rw [hc0.2.2.2.2]) hall
    simp only [Nat.zero_add] at hs
    unfold slot_at_switch pwm_get_current_slot
    have hg : ¬ ((sys_run f (sys_pwmcontroller_init init (sys_boot e lc))
        (envs.map SysOp.slot_tick)).pwm.pwm_initialized = false ∨ env.timer_valid = false) := by
      rw [hs.1, hv]
      simp
    rw [if_neg hg, hs.2.2, hs.2.1]
    have hlt : envs.length % 2 < 2 := Nat.mod_lt _ (by decide)
    by_cases hev : envs.length % 2 = 0
    · rw [if_pos hev, hev, if_pos (by decide)]
    · have h1 : envs.length % 2 = 1 := by omega
      rw [if_neg hev, h1, if_neg (by decide)]

theorem slot_switch_only_sees_odd_slots_witness :
    (sys_pwmcontroller_init init_ok (sys_boot (eco_fresh crc_zero) lc_boot)).pwm.pwm_initialized
        = true ∧
      (∀ x ∈ List.replicate 7 tick_env_500, x.timer_valid = true) ∧
      tick_env_500.timer_valid = true ∧
      slot_at_switch tick_env_500
          (ticks_from_init crc_zero init_ok (eco_fresh crc_zero) lc_boot
            (List.replicate 7 tick_env_500))
        = if (List.replicate 7 tick_env_500).length % 2 = 0 then none
          else some ((List.replicate 7 tick_env_500).length % SLOT_COUNT) :=
  ⟨by decide, by decide, by decide,
    (slot_switch_only_sees_odd_slots crc_zero init_ok (eco_fresh crc_zero) lc_boot
      (List.replicate 7 tick_env_500) tick_env_500).2.2.2.2.2.2 (by decide) (by decide)
      (by decide)⟩

end Ecolumiere
